import Mathlib

/-!
ASSOOFS: a shallow embedding of `assoofs.c`.

The kernel module `assoofs.c` keeps a volume in three kinds of blocks: the
superblock (block 0), the inode store (block 1, an array of
`struct assoofs_inode_info`) and the data blocks, each seen either as an array
of `struct assoofs_dir_record_entry` or as raw bytes.

Conventions of the embedding.

* `assoofs.h` is not part of the sources.  Its constants are the fields of
  `Params`; its three structs are rebuilt from the fields the C code accesses.
* Unsigned 64-bit fields are natural numbers; `int` values are integers.  The
  conversions between the two are written out (`u64_of_int`, `int_of_u64`).
* The buffer cache is transparent: `sb_bread` gives the block, a write through
  `b_data` followed by `mark_buffer_dirty`/`sync_dirty_buffer` changes it.
  Block reads, `copy_to_user`/`copy_from_user` and kernel allocations are taken
  to succeed.
* A block is seen either as an array of directory records or as an array of
  bytes, and the two views are kept apart.  A directory record is written as a
  typed value only while the write stays inside the `filename` array and inside
  the block (`dir_append_record`); a name that runs over the `inode_no` field
  of its own record is followed byte by byte, and what a write does past the
  end of the record or of the block depends on what lies there in memory and is
  a parameter of the embedding (`Params.dir_write_out_of_range`).
* Loop counters declared `int` in C range over slots of one block and are
  natural numbers here.
-/

namespace Assoofs

/-! ## On-disk records -/

/-- The superblock record, `struct assoofs_super_block_info`. -/
structure assoofs_super_block_info where
  magic : Nat
  version : Nat
  block_size : Nat
  inodes_count : Nat
  free_blocks : Nat
deriving DecidableEq, Repr

/-- An inode record, `struct assoofs_inode_info`.  The C struct ends in a union
of `file_size` and `dir_children_count`; the two names denote the same cell,
kept here as `file_size`. -/
structure assoofs_inode_info where
  mode : Nat
  inode_no : Nat
  data_block_number : Nat
  file_size : Nat
deriving DecidableEq, Repr

/-- The other member of the union. -/
def assoofs_inode_info.dir_children_count (i : assoofs_inode_info) : Nat := i.file_size

/-- A directory record, `struct assoofs_dir_record_entry`.  The file name is
the C string held in the `filename` array, as a list of character codes. -/
structure assoofs_dir_record_entry where
  filename : List Nat
  inode_no : Nat
deriving DecidableEq, Repr

/-- The state of a mounted volume: the superblock record that `s_fs_info`
points to, the inode store, and the data blocks in their two views. -/
structure Volume where
  sb : assoofs_super_block_info
  inode_store : Nat → assoofs_inode_info
  dir_blocks : Nat → Nat → assoofs_dir_record_entry
  data_blocks : Nat → Nat → Nat

/-! ## Constants -/

/-- The constants of `assoofs.h` that `assoofs.c` uses, the layout of
`struct assoofs_dir_record_entry` (its size and the offset of `inode_no`, the
member after the `filename` array), and the two platform-dependent behaviours
the code can reach, which C leaves undefined: the `int` that `1 << i` yields
for a shift count of 32 or more, and the effect on the data blocks of a
directory write that leaves its record or its block.  The latter takes the two
views of the data blocks, the number of the block, the slot, the name and the
inode number, and returns the two views after the write. -/
structure Params where
  ASSOOFS_MAGIC : Nat
  ASSOOFS_DEFAULT_BLOCK_SIZE : Nat
  ASSOOFS_SUPERBLOCK_BLOCK_NUMBER : Nat
  ASSOOFS_INODESTORE_BLOCK_NUMBER : Nat
  ASSOOFS_FILENAME_MAXLEN : Nat
  ASSOOFS_ROOTDIR_INODE_NUMBER : Nat
  ASSOOFS_RESERVED_INODES : Nat
  ASSOOFS_START_INO : Nat
  ASSOOFS_MAX_FILESYSTEM_OBJECTS_SUPPORTED : Nat
  sizeof_dir_record_entry : Nat
  offsetof_inode_no : Nat
  shl_out_of_range : Nat → Int
  dir_write_out_of_range : (Nat → Nat → assoofs_dir_record_entry) → (Nat → Nat → Nat) →
    Nat → Nat → List Nat → Nat → (Nat → Nat → assoofs_dir_record_entry) × (Nat → Nat → Nat)

/-- Error numbers of `errno-base.h`. -/
def EIO : Int := 5
def ENOMEM : Int := 12
def EFAULT : Int := 14
def EINVAL : Int := 22
def ENOSPC : Int := 28

/-- File type bits of `stat.h`. -/
def S_IFMT : Nat := 0o170000
def S_IFDIR : Nat := 0o040000
def S_IFREG : Nat := 0o100000

def S_ISDIR (m : Nat) : Bool := (m &&& S_IFMT) == S_IFDIR
def S_ISREG (m : Nat) : Bool := (m &&& S_IFMT) == S_IFREG

/-! ## Machine integers -/

/-- Conversion of an `int` to `uint64_t`: the value modulo `2^64`. -/
def u64_of_int (x : Int) : Nat := (x % 2 ^ 64).toNat

/-- Conversion of a `uint64_t` to a 32-bit `int`: the low 32 bits, read as a
two's complement number. -/
def int_of_u64 (x : Nat) : Int := ((x : Int) + 2 ^ 31) % 2 ^ 32 - 2 ^ 31

/-- The `int` complement `~x`. -/
def int_not (x : Int) : Int := -x - 1

/-- The expression `1 << i`, where both `1` and `i` are `int`.  The result is
an `int`: `2^i` for `i < 31`, `INT_MIN` for `i = 31` (the kernel is built with
wrapping signed arithmetic), and the platform's value beyond that. -/
def shl_one (p : Params) (i : Nat) : Int :=
  if i < 31 then 2 ^ i
  else if i = 31 then -(2 ^ 31)
  else p.shl_out_of_range i

/-! ## Free block allocator -/

/-- The value of `sb->free_blocks & (1 << i)`: the `int` on the right is
converted to 64 bits before the conjunction. -/
def free_blocks_and_shl (p : Params) (free_blocks i : Nat) : Nat :=
  free_blocks &&& u64_of_int (shl_one p i)

/-- The scanning loop of `assoofs_sb_get_a_freeblock`:
`for (i = ...; i < MAX; i++) if (free_blocks & (1 << i)) break;`.
The first argument bounds the number of iterations; the result is the value of
`i` when the loop is left. -/
def freeblock_loop (p : Params) (free_blocks : Nat) : Nat → Nat → Nat
  | 0, i => i
  | fuel + 1, i =>
    if i < p.ASSOOFS_MAX_FILESYSTEM_OBJECTS_SUPPORTED then
      if free_blocks_and_shl p free_blocks i ≠ 0 then i
      else freeblock_loop p free_blocks fuel (i + 1)
    else i

/-- The value of `i` after the loop, started at `ASSOOFS_RESERVED_INODES + 1`. -/
def freeblock_index (p : Params) (free_blocks : Nat) : Nat :=
  freeblock_loop p free_blocks
    (p.ASSOOFS_MAX_FILESYSTEM_OBJECTS_SUPPORTED - (p.ASSOOFS_RESERVED_INODES + 1))
    (p.ASSOOFS_RESERVED_INODES + 1)

/-- Result of `assoofs_sb_get_a_freeblock`: the return value, the value stored
in `*block`, and the superblock record after the call. -/
structure freeblock_result where
  ret : Int
  block : Nat
  sb : assoofs_super_block_info
deriving DecidableEq, Repr

/-- The function `assoofs_sb_get_a_freeblock`.  After the loop it sets `ret` to
`-ENOSPC` when `i` reached the maximum, then in every case stores `i` in
`*block` and executes `free_blocks &= ~(1 << i)`. -/
def assoofs_sb_get_a_freeblock (p : Params) (sb : assoofs_super_block_info) :
    freeblock_result :=
  let i := freeblock_index p sb.free_blocks
  { ret := if i = p.ASSOOFS_MAX_FILESYSTEM_OBJECTS_SUPPORTED then -ENOSPC else 0
    block := i
    sb := { sb with free_blocks := sb.free_blocks &&& u64_of_int (int_not (shl_one p i)) } }

/-! ## Inode store -/

/-- The loop of `assoofs_get_inode_info`: slot `i` is compared while
`i < inodes_count`; the first match is copied. -/
def get_inode_info_loop (store : Nat → assoofs_inode_info) (inodes_count inode_no : Nat) :
    Nat → Nat → Option assoofs_inode_info
  | 0, _ => none
  | fuel + 1, i =>
    if i < inodes_count then
      if (store i).inode_no = inode_no then some (store i)
      else get_inode_info_loop store inodes_count inode_no fuel (i + 1)
    else none

/-- The function `assoofs_get_inode_info`; `none` is the `NULL` it returns when
the loop ends without a match. -/
def assoofs_get_inode_info (v : Volume) (inode_no : Nat) : Option assoofs_inode_info :=
  get_inode_info_loop v.inode_store v.sb.inodes_count inode_no v.sb.inodes_count 0

/-- The loop of `assoofs_search_inode_info`:
`while (start->inode_no != search->inode_no && count < inodes_count)`.
The result is the final value of `count`, the slot `start` points to. -/
def search_inode_info_loop (store : Nat → assoofs_inode_info) (inodes_count inode_no : Nat) :
    Nat → Nat → Nat
  | 0, count => count
  | fuel + 1, count =>
    if (store count).inode_no ≠ inode_no ∧ count < inodes_count then
      search_inode_info_loop store inodes_count inode_no fuel (count + 1)
    else count

/-- The function `assoofs_search_inode_info`: the slot found, or `none` for
`NULL`.  After the loop the record `start` points to is compared once more. -/
def assoofs_search_inode_info (v : Volume) (search : assoofs_inode_info) : Option Nat :=
  let k := search_inode_info_loop v.inode_store v.sb.inodes_count search.inode_no
    v.sb.inodes_count 0
  if (v.inode_store k).inode_no = search.inode_no then some k else none

/-- Result of `assoofs_save_inode_info`. -/
structure save_result where
  ret : Int
  v : Volume

/-- The function `assoofs_save_inode_info`. -/
def assoofs_save_inode_info (v : Volume) (inode_info : assoofs_inode_info) : save_result :=
  match assoofs_search_inode_info v inode_info with
  | some k => { ret := 0, v := { v with inode_store := Function.update v.inode_store k inode_info } }
  | none => { ret := - EIO, v := v }

/-- The function `assoofs_add_inode_info`. -/
def assoofs_add_inode_info (v : Volume) (inode : assoofs_inode_info) : Volume :=
  { v with
    inode_store := Function.update v.inode_store v.sb.inodes_count inode
    sb := { v.sb with inodes_count := v.sb.inodes_count + 1 } }

/-! ## In-memory inodes -/

/-- The two tables an inode's `i_fop` can point to. -/
inductive file_ops where
  | assoofs_file_operations
  | assoofs_dir_operations
deriving DecidableEq, Repr

/-- The fields of a VFS `struct inode` that `assoofs.c` sets (times and owner
left out). -/
structure inode where
  i_ino : Nat
  i_fop : Option file_ops
  i_private : Option assoofs_inode_info
deriving DecidableEq, Repr

/-- The function `assoofs_get_inode`.  Its parameter `ino` is an `int`; it is
converted back to 64 bits for `i_ino` and for `assoofs_get_inode_info`.  The
record returned by the latter is dereferenced unchecked: `none` stands for that
fault. -/
def assoofs_get_inode (v : Volume) (ino : Int) : Option inode :=
  match assoofs_get_inode_info v (u64_of_int ino) with
  | none => none
  | some inode_info =>
    some { i_ino := u64_of_int ino
           i_fop :=
             if S_ISDIR inode_info.mode then some file_ops.assoofs_dir_operations
             else if S_ISREG inode_info.mode then some file_ops.assoofs_file_operations
             else none
           i_private := some inode_info }

/-! ## Object creation -/

/-- Result of `assoofs_create_fs_object`: the return value, the volume, the
parent's in-memory record `dir->i_private`, and the inode handed to `d_add`
(only when the call returns 0). -/
structure create_result where
  ret : Int
  v : Volume
  dir : assoofs_inode_info
  inode : Option inode

/-- The inode number given to a new object:
`count + ASSOOFS_START_INO - ASSOOFS_RESERVED_INODES + 1` in 64-bit arithmetic. -/
def new_ino (p : Params) (count : Nat) : Nat :=
  u64_of_int ((count : Int) + p.ASSOOFS_START_INO - p.ASSOOFS_RESERVED_INODES + 1)

/-- The value of the field `inode_no` of a record after the two stores of
`assoofs_create_fs_object`: first `inode_no` is stored, then `strcpy` copies
the name and its terminating zero byte from the start of the record.  Byte `k`
of the field (little endian) lies at offset `offsetof_inode_no + k`: it takes
the character of the name at that offset, or the terminating zero, or keeps the
byte of the number stored before. -/
def inode_no_after_strcpy (p : Params) (name : List Nat) (inode_no : Nat) : Nat :=
  ((List.range 8).map (fun k =>
    (if p.offsetof_inode_no + k < name.length then name.getD (p.offsetof_inode_no + k) 0 % 256
     else if p.offsetof_inode_no + k = name.length then 0
     else inode_no / 256 ^ k % 256) * 256 ^ k)).sum

/-- The statements of `assoofs_create_fs_object` that write the record of the
new object into the parent's block, in the slot after its last record
(`dir_contents += dir_children_count`, then the store of `inode_no`, then
`strcpy` into `filename`); neither the length of the name nor the slot is
checked by the code.

* A name that fits the array `filename[ASSOOFS_FILENAME_MAXLEN]` with its
  terminating zero, in a slot that lies inside the block: the record is
  written as it stands.
* A longer name that still ends inside the record, in a slot inside the block:
  `strcpy` runs over the bytes after the array; the string found at `filename`
  is the name, the number is `inode_no_after_strcpy`.
* Otherwise the write leaves the record or the block: its effect on the data
  blocks is `Params.dir_write_out_of_range`. -/
def dir_append_record (p : Params) (v : Volume) (parent : assoofs_inode_info)
    (name : List Nat) (inode_no : Nat) : Volume :=
  if name.length + 1 ≤ p.ASSOOFS_FILENAME_MAXLEN ∧
      parent.dir_children_count < p.ASSOOFS_DEFAULT_BLOCK_SIZE / p.sizeof_dir_record_entry then
    { v with
      dir_blocks := Function.update v.dir_blocks parent.data_block_number
        (Function.update (v.dir_blocks parent.data_block_number) parent.dir_children_count
          { inode_no := inode_no, filename := name }) }
  else if name.length < p.sizeof_dir_record_entry ∧
      p.offsetof_inode_no + 8 ≤ p.sizeof_dir_record_entry ∧
      parent.dir_children_count < p.ASSOOFS_DEFAULT_BLOCK_SIZE / p.sizeof_dir_record_entry then
    { v with
      dir_blocks := Function.update v.dir_blocks parent.data_block_number
        (Function.update (v.dir_blocks parent.data_block_number) parent.dir_children_count
          { inode_no := inode_no_after_strcpy p name inode_no, filename := name }) }
  else
    { v with
      dir_blocks := (p.dir_write_out_of_range v.dir_blocks v.data_blocks
        parent.data_block_number parent.dir_children_count name inode_no).1
      data_blocks := (p.dir_write_out_of_range v.dir_blocks v.data_blocks
        parent.data_block_number parent.dir_children_count name inode_no).2 }

/-- The second half of `assoofs_create_fs_object`, from `assoofs_add_inode_info`
on: `v` is the volume after the block was taken, `inode_info` the record of the
new object. -/
def create_fs_object_finish (p : Params) (v : Volume) (dir : assoofs_inode_info)
    (name : List Nat) (inode_info : assoofs_inode_info) : create_result :=
  let v1 := assoofs_add_inode_info v inode_info
  let v2 := dir_append_record p v1 dir name inode_info.inode_no
  let parent : assoofs_inode_info := { dir with file_size := dir.file_size + 1 }
  let s := assoofs_save_inode_info v2 parent
  if s.ret ≠ 0 then
    { ret := s.ret, v := s.v, dir := parent, inode := none }
  else
    { ret := 0, v := s.v, dir := parent
      inode := some
        { i_ino := inode_info.inode_no
          i_fop := some (if S_ISDIR inode_info.mode then file_ops.assoofs_dir_operations
                         else file_ops.assoofs_file_operations)
          i_private := some inode_info } }

/-- The function `assoofs_create_fs_object`.  The test `count < 0` on the
unsigned `count` never holds and is left out.  The union cell of the new record
is set to 0 under either valid mode. -/
def assoofs_create_fs_object (p : Params) (v : Volume) (dir : assoofs_inode_info)
    (name : List Nat) (mode : Nat) : create_result :=
  let count := v.sb.inodes_count
  if count ≥ p.ASSOOFS_MAX_FILESYSTEM_OBJECTS_SUPPORTED then
    { ret := -ENOSPC, v := v, dir := dir, inode := none }
  else if !S_ISDIR mode && !S_ISREG mode then
    { ret := -EINVAL, v := v, dir := dir, inode := none }
  else
    let fb := assoofs_sb_get_a_freeblock p v.sb
    if fb.ret < 0 then
      { ret := fb.ret, v := { v with sb := fb.sb }, dir := dir, inode := none }
    else
      create_fs_object_finish p { v with sb := fb.sb } dir name
        { inode_no := new_ino p count, mode := mode, data_block_number := fb.block,
          file_size := 0 }

/-! ## Directory lookup and iteration -/

/-- Outcome of `assoofs_lookup`.  The function returns `NULL` in every case;
what differs is whether `d_add` bound the dentry to an inode. -/
inductive lookup_result where
  | d_add (i : inode)
  | no_entry
  | fault
deriving DecidableEq, Repr

/-- The loop of `assoofs_lookup` over the records of the parent's block. -/
def lookup_loop (v : Volume) (record : Nat → assoofs_dir_record_entry)
    (dir_children_count : Nat) (name : List Nat) : Nat → Nat → lookup_result
  | 0, _ => lookup_result.no_entry
  | fuel + 1, i =>
    if i < dir_children_count then
      if (record i).filename = name then
        match assoofs_get_inode v (int_of_u64 (record i).inode_no) with
        | some child => lookup_result.d_add child
        | none => lookup_result.fault
      else lookup_loop v record dir_children_count name fuel (i + 1)
    else lookup_result.no_entry

/-- The function `assoofs_lookup`; `strcmp` is equality of the two C strings. -/
def assoofs_lookup (v : Volume) (parent_info : assoofs_inode_info) (name : List Nat) :
    lookup_result :=
  lookup_loop v (v.dir_blocks parent_info.data_block_number) parent_info.dir_children_count
    name parent_info.dir_children_count 0

/-- One call of `dir_emit`: name, name length, inode number, type.  The name
is what the `namlen` bytes passed to `dir_emit` hold as a C string. -/
structure dirent where
  name : List Nat
  namlen : Nat
  ino : Nat
  d_type : Nat
deriving DecidableEq, Repr

/-- The `struct dir_context`: the position and the entries emitted so far. -/
structure dir_context where
  pos : Nat
  emitted : List dirent
deriving DecidableEq, Repr

def DT_UNKNOWN : Nat := 0

/-- The loop of `assoofs_iterate`.  `dir_emit` is given the array `filename`
and the length `ASSOOFS_FILENAME_MAXLEN`, so at most that many characters of
the string stored at `filename` are emitted. -/
def iterate_loop (p : Params) (record : Nat → assoofs_dir_record_entry)
    (dir_children_count : Nat) : Nat → Nat → dir_context → dir_context
  | 0, _, ctx => ctx
  | fuel + 1, i, ctx =>
    if i < dir_children_count then
      iterate_loop p record dir_children_count fuel (i + 1)
        { pos := ctx.pos + p.sizeof_dir_record_entry
          emitted := ctx.emitted ++
            [{ name := (record i).filename.take p.ASSOOFS_FILENAME_MAXLEN
               namlen := p.ASSOOFS_FILENAME_MAXLEN
               ino := (record i).inode_no, d_type := DT_UNKNOWN }] }
    else ctx

/-- The function `assoofs_iterate`: return value and context after the call. -/
def assoofs_iterate (p : Params) (v : Volume) (inode_info : assoofs_inode_info)
    (ctx : dir_context) : Int × dir_context :=
  if ctx.pos ≠ 0 then (0, ctx)
  else if !S_ISDIR inode_info.mode then (-1, ctx)
  else
    (0, iterate_loop p (v.dir_blocks inode_info.data_block_number)
      inode_info.dir_children_count inode_info.dir_children_count 0 ctx)

/-! ## File data -/

/-- Result of `assoofs_read`: return value, bytes copied to the user buffer,
and `*ppos` after the call. -/
structure read_result where
  ret : Int
  buf : List Nat
  ppos : Nat
deriving DecidableEq, Repr

/-- The function `assoofs_read`. -/
def assoofs_read (v : Volume) (inode_info : assoofs_inode_info) (len ppos : Nat) :
    read_result :=
  if ppos ≥ inode_info.file_size then { ret := 0, buf := [], ppos := ppos }
  else
    let buffer := v.data_blocks inode_info.data_block_number
    let nbytes := min inode_info.file_size len
    { ret := nbytes, buf := (List.range nbytes).map buffer, ppos := ppos + nbytes }

/-- Result of `assoofs_write`: return value, volume, the in-memory record of
the file, and `*ppos` after the call. -/
structure write_result where
  ret : Int
  v : Volume
  inode_info : assoofs_inode_info
  ppos : Nat

/-- The function `assoofs_write`; `buf` holds the `len` bytes of the user
buffer.  The value returned by `assoofs_save_inode_info` is not looked at. -/
def assoofs_write (v : Volume) (inode_info : assoofs_inode_info) (buf : List Nat)
    (ppos : Nat) : write_result :=
  let len := buf.length
  let blk := inode_info.data_block_number
  let v1 : Volume :=
    { v with
      data_blocks := Function.update v.data_blocks blk
        (fun k => if ppos ≤ k ∧ k < ppos + len then buf.getD (k - ppos) 0
                  else v.data_blocks blk k) }
  let ppos1 := ppos + len
  let inode_info1 : assoofs_inode_info := { inode_info with file_size := ppos1 }
  let s := assoofs_save_inode_info v1 inode_info1
  { ret := len, v := s.v, inode_info := inode_info1, ppos := ppos1 }

/-! ## Mount -/

/-- The fields of the VFS `struct super_block` that `assoofs_fill_super` sets
(`s_op` left out). -/
structure super_block where
  s_magic : Nat
  s_maxbytes : Nat
  s_fs_info : Option assoofs_super_block_info
  s_root : Option inode
deriving DecidableEq, Repr

/-- The function `assoofs_fill_super`.  `disk` is the device being mounted:
its `sb` is the record read from block 0, which becomes `s_fs_info`. -/
def assoofs_fill_super (p : Params) (disk : Volume) (sb : super_block) : Int × super_block :=
  if disk.sb.magic ≠ p.ASSOOFS_MAGIC then (-1, sb)
  else if disk.sb.block_size ≠ p.ASSOOFS_DEFAULT_BLOCK_SIZE then (-1, sb)
  else
    (0, { s_magic := p.ASSOOFS_MAGIC
          s_fs_info := some disk.sb
          s_maxbytes := p.ASSOOFS_DEFAULT_BLOCK_SIZE
          s_root := some { i_ino := p.ASSOOFS_ROOTDIR_INODE_NUMBER
                           i_fop := some file_ops.assoofs_dir_operations
                           i_private := assoofs_get_inode_info disk
                             p.ASSOOFS_ROOTDIR_INODE_NUMBER } })

/-! ## Sequences of calls -/

/-- The arguments of one call of `assoofs_create_fs_object`: the parent's
in-memory record, the name of the dentry and the mode. -/
structure create_call where
  dir : assoofs_inode_info
  name : List Nat
  mode : Nat

/-- A sequence of calls of `assoofs_create_fs_object` on one volume, each call
starting from the volume the previous one left; the result of every call. -/
def create_calls (p : Params) : Volume → List create_call → List create_result
  | _, [] => []
  | v, c :: cs =>
    (assoofs_create_fs_object p v c.dir c.name c.mode) ::
      create_calls p (assoofs_create_fs_object p v c.dir c.name c.mode).v cs

/-- The number of indices of the scanned range at which the allocator's test
`free_blocks & (1 << i)` succeeds. -/
def free_hits (p : Params) (free_blocks : Nat) : Nat :=
  ((Finset.range p.ASSOOFS_MAX_FILESYSTEM_OBJECTS_SUPPORTED).filter
    (fun i => p.ASSOOFS_RESERVED_INODES + 1 ≤ i ∧ free_blocks_and_shl p free_blocks i ≠ 0)).card

/-- An upper bound on the number of objects that can still be created: none
once the inode count has reached the maximum, else `free_hits`. -/
def creations_left (p : Params) (v : Volume) : Nat :=
  if p.ASSOOFS_MAX_FILESYSTEM_OBJECTS_SUPPORTED ≤ v.sb.inodes_count then 0
  else free_hits p v.sb.free_blocks

/-- The record returned by one step of `create_children`: the volume and the
directory's in-memory record at the end, and the result of every call. -/
structure children_run where
  v : Volume
  dir : assoofs_inode_info
  results : List create_result

/-- A sequence of calls of `assoofs_create_fs_object` under one directory: the
VFS passes the same in-memory inode each time, so every call sees the record
`dir->i_private` as the previous call left it.  Each child is a pair of a name
and a mode. -/
def create_children (p : Params) : Volume → assoofs_inode_info → List (List Nat × Nat) →
    children_run
  | v, dir, [] => { v := v, dir := dir, results := [] }
  | v, dir, c :: rest =>
    { v := (create_children p (assoofs_create_fs_object p v dir c.1 c.2).v
        (assoofs_create_fs_object p v dir c.1 c.2).dir rest).v
      dir := (create_children p (assoofs_create_fs_object p v dir c.1 c.2).v
        (assoofs_create_fs_object p v dir c.1 c.2).dir rest).dir
      results := assoofs_create_fs_object p v dir c.1 c.2 ::
        (create_children p (assoofs_create_fs_object p v dir c.1 c.2).v
          (assoofs_create_fs_object p v dir c.1 c.2).dir rest).results }

/-! ## Concrete headers and volumes -/

/-- A directory write that leaves its record or its block, on a device whose
blocks follow each other in memory.  Byte `r` of the write (offset
`slot * sizeof + r` from the start of block `blk`) receives character `r` of
the name, the terminating zero, or, at the offset of `inode_no`, a byte of the
number (stored first, so `strcpy` wins where the two overlap).

* Record view of block `blk`: a record from `slot` on that lies inside the
  block and that the name reaches holds what the write left there, the rest of
  the name from its first byte on and, in `inode_no`, the bytes the write put
  there over the number it held (the new number for the record in `slot`).
* Byte view: a byte written past the end of block `blk` lands in the following
  block it falls into.

The record view of the following blocks is left as it is, the two views being
kept apart. -/
def flat_dir_write (block_size sizeof offsetof : Nat)
    (dir_blocks : Nat → Nat → assoofs_dir_record_entry) (data_blocks : Nat → Nat → Nat)
    (blk slot : Nat) (name : List Nat) (inode_no : Nat) :
    (Nat → Nat → assoofs_dir_record_entry) × (Nat → Nat → Nat) :=
  (fun b i =>
    if b = blk ∧ slot ≤ i ∧ i < block_size / sizeof ∧ (i - slot) * sizeof ≤ name.length then
      { filename := name.drop ((i - slot) * sizeof)
        inode_no := ((List.range 8).map (fun k =>
          (if (i - slot) * sizeof + offsetof + k < name.length then
             name.getD ((i - slot) * sizeof + offsetof + k) 0 % 256
           else if (i - slot) * sizeof + offsetof + k = name.length then 0
           else (if i = slot then inode_no else (dir_blocks b i).inode_no) / 256 ^ k % 256)
            * 256 ^ k)).sum }
    else dir_blocks b i,
   fun b k =>
    if blk < b ∧ slot * sizeof ≤ (b - blk) * block_size + k then
      if (b - blk) * block_size + k - slot * sizeof < name.length then
        name.getD ((b - blk) * block_size + k - slot * sizeof) 0 % 256
      else if (b - blk) * block_size + k - slot * sizeof = name.length then 0
      else if offsetof ≤ (b - blk) * block_size + k - slot * sizeof ∧
          (b - blk) * block_size + k - slot * sizeof < offsetof + 8 then
        inode_no / 256 ^ ((b - blk) * block_size + k - slot * sizeof - offsetof) % 256
      else data_blocks b k
    else data_blocks b k)

/-- A header with 64 objects and blocks 0 to 2 reserved, so that the scan
starts from 3 as the comment in `assoofs_sb_get_a_freeblock` says.  The
superblock is block 0 and the inode store block 1.  A directory record is an
array of 255 bytes, one byte of padding and the 8 bytes of `inode_no`.  A shift
count of 32 or more is reduced modulo 32, as the x86 shift instruction does;
the blocks of the device follow each other in memory. -/
def header64 : Params :=
  { ASSOOFS_MAGIC := 0x20200406
    ASSOOFS_DEFAULT_BLOCK_SIZE := 4096
    ASSOOFS_SUPERBLOCK_BLOCK_NUMBER := 0
    ASSOOFS_INODESTORE_BLOCK_NUMBER := 1
    ASSOOFS_FILENAME_MAXLEN := 255
    ASSOOFS_ROOTDIR_INODE_NUMBER := 1
    ASSOOFS_RESERVED_INODES := 2
    ASSOOFS_START_INO := 10
    ASSOOFS_MAX_FILESYSTEM_OBJECTS_SUPPORTED := 64
    sizeof_dir_record_entry := 264
    offsetof_inode_no := 256
    shl_out_of_range := fun i => if i % 32 = 31 then -(2 ^ 31) else 2 ^ (i % 32)
    dir_write_out_of_range := flat_dir_write 4096 264 256 }

/-- The same header with room for 8 objects only. -/
def header8 : Params :=
  { header64 with ASSOOFS_MAX_FILESYSTEM_OBJECTS_SUPPORTED := 8 }

/-- The record of the root directory: inode 1, data in block 2, no children. -/
def root_record : assoofs_inode_info :=
  { mode := S_IFDIR, inode_no := 1, data_block_number := 2, file_size := 0 }

/-- A volume as a formatter leaves it: the root's record in slot 0 of the
inode store, zeroes elsewhere; the inode count and the free-block mask are
arguments. -/
def formatted_volume (inodes_count free_blocks : Nat) : Volume :=
  { sb := { magic := 0x20200406, version := 1, block_size := 4096
            inodes_count := inodes_count, free_blocks := free_blocks }
    inode_store := fun i => if i = 0 then root_record
                            else { mode := 0, inode_no := 0, data_block_number := 0, file_size := 0 }
    dir_blocks := fun _ _ => { filename := [], inode_no := 0 }
    data_blocks := fun _ _ => 0 }

/-- Eight children `a`, ..., `h`, all regular files. -/
def eight_files : List (List Nat × Nat) :=
  [([97], S_IFREG), ([98], S_IFREG), ([99], S_IFREG), ([100], S_IFREG),
   ([101], S_IFREG), ([102], S_IFREG), ([103], S_IFREG), ([104], S_IFREG)]

/-- The eight creations as explicit calls, each under the root's record. -/
def eight_calls : List create_call :=
  eight_files.map (fun c => { dir := root_record, name := c.1, mode := c.2 })

/-- A VFS superblock before `assoofs_fill_super` runs: nothing set. -/
def blank_super_block : super_block :=
  { s_magic := 0, s_maxbytes := 0, s_fs_info := none, s_root := none }

/-- A device whose superblock carries a wrong magic number. -/
def bad_magic_volume : Volume :=
  { formatted_volume 1 248 with
    sb := { magic := 7, version := 1, block_size := 4096, inodes_count := 1, free_blocks := 248 } }

/-- Three children `a`, `b`, `c`: two regular files and a directory. -/
def abc : List (List Nat × Nat) :=
  [([97], S_IFREG), ([98], S_IFREG), ([99], S_IFDIR)]

/-- The root directory after a file `b` was created in it on a formatted
volume. -/
def root_with_b : children_run :=
  create_children header8 (formatted_volume 1 248) root_record [([98], S_IFREG)]

/-- The creation of a regular file `a` under the root of a formatted volume. -/
def created_file : create_result :=
  assoofs_create_fs_object header8 (formatted_volume 1 248) root_record [97] S_IFREG

/-- A formatted volume with one live record (the root's) whose slot 1, the
first slot past the live ones, still holds an old record of inode 10. -/
def stale_volume : Volume :=
  { formatted_volume 1 248 with
    inode_store := fun i =>
      if i = 0 then root_record
      else if i = 1 then { mode := S_IFREG, inode_no := 10, data_block_number := 3, file_size := 0 }
      else { mode := 0, inode_no := 0, data_block_number := 0, file_size := 0 } }

/-- An in-memory record of inode 10 with seven bytes of content. -/
def record_10 : assoofs_inode_info :=
  { mode := S_IFREG, inode_no := 10, data_block_number := 3, file_size := 7 }

/-- A volume whose block 3 holds the bytes 1, 2, 3, ... (byte `k` is `k + 1`). -/
def counting_volume : Volume :=
  { stale_volume with data_blocks := fun _ k => k + 1 }

/-- A name of 255 bytes, one more than `ASSOOFS_FILENAME_MAXLEN - 1` under
`header8`. -/
def long_name : List Nat := List.replicate 255 97

/-- A volume with two live records of distinct numbers: the root (inode 1) and
a file that carries inode number 11. -/
def numbered_volume : Volume :=
  { formatted_volume 2 240 with
    inode_store := fun i =>
      if i = 0 then root_record
      else if i = 1 then { mode := S_IFREG, inode_no := 11, data_block_number := 3, file_size := 0 }
      else { mode := 0, inode_no := 0, data_block_number := 0, file_size := 0 } }

/-! ## Invariants -/

/-- Bitmap consistency: the `free_blocks` bit of the data block of every live
record (slots below `inodes_count`) is 0, and so are the bits of the reserved
blocks, indices 0 to `ASSOOFS_RESERVED_INODES`. -/
def bitmap_consistent (p : Params) (v : Volume) : Prop :=
  (∀ j, j < v.sb.inodes_count →
    v.sb.free_blocks.testBit (v.inode_store j).data_block_number = false) ∧
  (∀ i, i ≤ p.ASSOOFS_RESERVED_INODES → v.sb.free_blocks.testBit i = false)

/-- The record names the data block of a live record.  The module sets
`data_block_number` once, when the object is created, and copies it when a
record is loaded, so every in-memory record of a live inode is of this kind. -/
def names_live_block (v : Volume) (r : assoofs_inode_info) : Prop :=
  ∃ j, j < v.sb.inodes_count ∧ (v.inode_store j).data_block_number = r.data_block_number

/-- The block the record names holds data: it is neither the block of the
superblock nor the block of the inode store. -/
def names_data_block (p : Params) (r : assoofs_inode_info) : Prop :=
  r.data_block_number ≠ p.ASSOOFS_SUPERBLOCK_BLOCK_NUMBER ∧
  r.data_block_number ≠ p.ASSOOFS_INODESTORE_BLOCK_NUMBER

/-- A name of 256 bytes: under `header8` its terminating zero falls on the
first byte of the field `inode_no` of its record. -/
def name256 : List Nat := List.replicate 256 97

/-- The header `header8` with inode numbers starting at `2^31`. -/
def header8_far : Params :=
  { header8 with ASSOOFS_START_INO := 2 ^ 31 }

/-- The root's record on a volume whose formatter put one file in the root. -/
def stocked_root : assoofs_inode_info :=
  { mode := S_IFDIR, inode_no := 1, data_block_number := 2, file_size := 1 }

/-- A volume as a formatter leaves it with one file in the root: the file `b`,
inode 10, data in block 3, its directory record in slot 0 of the root's
block.  No call of `assoofs_create_fs_object` has been made on it. -/
def stocked_volume : Volume :=
  { sb := { magic := 0x20200406, version := 1, block_size := 4096
            inodes_count := 2, free_blocks := 240 }
    inode_store := fun i =>
      if i = 0 then stocked_root
      else if i = 1 then { mode := S_IFREG, inode_no := 10, data_block_number := 3, file_size := 0 }
      else { mode := 0, inode_no := 0, data_block_number := 0, file_size := 0 }
    dir_blocks := fun b i =>
      if b = 2 ∧ i = 0 then { filename := [98], inode_no := 10 }
      else { filename := [], inode_no := 0 }
    data_blocks := fun _ _ => 0 }

/-- Fifteen children, as many as one block holds records: a directory `d`
and fourteen regular files. -/
def fifteen_children : List (List Nat × Nat) :=
  ([100], S_IFDIR) :: (List.range 14).map (fun k => ([101 + k], S_IFREG))

/-- Fifteen regular files with one-letter names. -/
def fifteen_files : List (List Nat × Nat) :=
  (List.range 15).map (fun k => ([97 + k], S_IFREG))

/-- The record of the first object created on a formatted volume when it is a
directory: inode 10, data in block 3, no children. -/
def first_directory : assoofs_inode_info :=
  { mode := S_IFDIR, inode_no := 10, data_block_number := 3, file_size := 0 }

/-- The run that creates `fifteen_children` under the root of a formatted
volume of 64 blocks whose data blocks 3 to 63 are all free. -/
def fifteen_under_root : children_run :=
  create_children header64 (formatted_volume 1 (2 ^ 64 - 8)) root_record fifteen_children

/-- A name of 401 bytes: written into slot 14, which starts at byte 3696 of a
block of 4096 bytes, it ends past the end of the block. -/
def name401 : List Nat := List.replicate 401 97

/-! # Properties -/

/-! ## Machine integers: lemmas -/

theorem u64_of_int_lt (x : Int) : u64_of_int x < 2 ^ 64 := by
  unfold u64_of_int; omega

theorem u64_of_int_not (x : Int) : u64_of_int (int_not x) = 2 ^ 64 - 1 - u64_of_int x := by
  unfold u64_of_int int_not; omega

theorem u64_of_int_natCast (n : Nat) (h : n < 2 ^ 64) : u64_of_int (n : Int) = n := by
  unfold u64_of_int; omega

theorem u64_of_int_of_u64 (n : Nat) (h : n < 2 ^ 31) : u64_of_int (int_of_u64 n) = n := by
  unfold u64_of_int int_of_u64; omega

theorem land_compl_land (a m : Nat) (hm : m < 2 ^ 64) : (a &&& (2 ^ 64 - 1 - m)) &&& m = 0 := by
  have e : 2 ^ 64 - 1 - m = 2 ^ 64 - (m + 1) := by omega
  apply Nat.eq_of_testBit_eq
  intro i
  rw [e, Nat.testBit_and, Nat.testBit_and, Nat.testBit_two_pow_sub_succ hm]
  cases m.testBit i <;> simp

theorem land_land_ne_zero {a b m : Nat} (h : (a &&& b) &&& m ≠ 0) : a &&& m ≠ 0 := by
  intro h0
  apply h
  apply Nat.eq_of_testBit_eq
  intro i
  have := congrArg (fun x => x.testBit i) h0
  simp only [Nat.testBit_and, Nat.zero_testBit] at this ⊢
  cases ha : a.testBit i <;> cases hm : m.testBit i <;> simp_all

theorem land_two_pow (a i : Nat) : a &&& 2 ^ i = if a.testBit i then 2 ^ i else 0 := by
  apply Nat.eq_of_testBit_eq
  intro j
  rw [Nat.testBit_and, Nat.testBit_two_pow]
  by_cases hij : i = j
  · subst hij
    cases h : a.testBit i <;> simp [Nat.testBit_two_pow]
  · cases h : a.testBit i <;> simp [hij, Nat.testBit_two_pow]

theorem land_two_pow_ne_zero (a i : Nat) : a &&& 2 ^ i ≠ 0 ↔ a.testBit i = true := by
  rw [land_two_pow]
  cases h : a.testBit i <;> simp

theorem shl_one_of_lt (p : Params) (i : Nat) (h : i < 31) : u64_of_int (shl_one p i) = 2 ^ i := by
  have hp : (2 : Nat) ^ i < 2 ^ 64 :=
    Nat.pow_lt_pow_right (by decide) (by omega)
  have e : shl_one p i = ((2 ^ i : Nat) : Int) := by
    simp [shl_one, h]
  rw [e, u64_of_int_natCast _ hp]

/-! ## Free block allocator: lemmas -/

theorem freeblock_loop_ge (p : Params) (fb : Nat) :
    ∀ fuel i, i ≤ freeblock_loop p fb fuel i := by
  intro fuel
  induction fuel with
  | zero => intro i; simp [freeblock_loop]
  | succ n ih =>
    intro i
    simp only [freeblock_loop]
    split
    · split
      · exact Nat.le_refl i
      · exact Nat.le_trans (Nat.le_succ i) (ih (i + 1))
    · exact Nat.le_refl i

theorem freeblock_loop_skipped (p : Params) (fb : Nat) :
    ∀ fuel i j, i ≤ j → j < freeblock_loop p fb fuel i → free_blocks_and_shl p fb j = 0 := by
  intro fuel
  induction fuel with
  | zero => intro i j h1 h2; simp [freeblock_loop] at h2; omega
  | succ n ih =>
    intro i j h1 h2
    simp only [freeblock_loop] at h2
    split at h2
    · split at h2
      · omega
      · rename_i hz
        by_cases hij : i = j
        · subst hij; simpa using hz
        · exact ih (i + 1) j (by omega) h2
    · omega

theorem freeblock_loop_found (p : Params) (fb : Nat) :
    ∀ fuel i, p.ASSOOFS_MAX_FILESYSTEM_OBJECTS_SUPPORTED ≤ i + fuel →
      freeblock_loop p fb fuel i < p.ASSOOFS_MAX_FILESYSTEM_OBJECTS_SUPPORTED →
      free_blocks_and_shl p fb (freeblock_loop p fb fuel i) ≠ 0 := by
  intro fuel
  induction fuel with
  | zero => intro i h1 h2; simp [freeblock_loop] at h2 ⊢; omega
  | succ n ih =>
    intro i h1 h2
    simp only [freeblock_loop] at h2 ⊢
    split
    · split
      · assumption
      · rename_i hlt hz
        simp only [hlt, hz, if_true, if_false] at h2
        exact ih (i + 1) (by omega) h2
    · rename_i hlt
      simp only [hlt, if_false] at h2

theorem freeblock_loop_le (p : Params) (fb : Nat) :
    ∀ fuel i, i ≤ p.ASSOOFS_MAX_FILESYSTEM_OBJECTS_SUPPORTED →
      freeblock_loop p fb fuel i ≤ p.ASSOOFS_MAX_FILESYSTEM_OBJECTS_SUPPORTED := by
  intro fuel
  induction fuel with
  | zero => intro i h; simpa [freeblock_loop] using h
  | succ n ih =>
    intro i h
    simp only [freeblock_loop]
    split
    · split
      · exact h
      · exact ih (i + 1) (by omega)
    · exact h

/-- The index found is the lowest `i` of the scanned range at which
`free_blocks & (1 << i)` is not zero. -/
theorem freeblock_index_of_first (p : Params) (fb j : Nat)
    (h1 : p.ASSOOFS_RESERVED_INODES + 1 ≤ j)
    (h2 : j < p.ASSOOFS_MAX_FILESYSTEM_OBJECTS_SUPPORTED)
    (hj : free_blocks_and_shl p fb j ≠ 0)
    (hlow : ∀ k, p.ASSOOFS_RESERVED_INODES + 1 ≤ k → k < j → free_blocks_and_shl p fb k = 0) :
    freeblock_index p fb = j := by
  unfold freeblock_index
  have hge := freeblock_loop_ge p fb
    (p.ASSOOFS_MAX_FILESYSTEM_OBJECTS_SUPPORTED - (p.ASSOOFS_RESERVED_INODES + 1))
    (p.ASSOOFS_RESERVED_INODES + 1)
  have hsk := freeblock_loop_skipped p fb
    (p.ASSOOFS_MAX_FILESYSTEM_OBJECTS_SUPPORTED - (p.ASSOOFS_RESERVED_INODES + 1))
    (p.ASSOOFS_RESERVED_INODES + 1)
  have hfd := freeblock_loop_found p fb
    (p.ASSOOFS_MAX_FILESYSTEM_OBJECTS_SUPPORTED - (p.ASSOOFS_RESERVED_INODES + 1))
    (p.ASSOOFS_RESERVED_INODES + 1) (by omega)
  rcases Nat.lt_trichotomy (freeblock_loop p fb
    (p.ASSOOFS_MAX_FILESYSTEM_OBJECTS_SUPPORTED - (p.ASSOOFS_RESERVED_INODES + 1))
    (p.ASSOOFS_RESERVED_INODES + 1)) j with h | h | h
  · exact absurd (hlow _ hge h) (hfd (by omega))
  · exact h
  · exact absurd (hsk j h1 h) hj

/-- With nothing to find in the scanned range the loop ends at the maximum. -/
theorem freeblock_index_of_none (p : Params) (fb : Nat)
    (hR : p.ASSOOFS_RESERVED_INODES + 1 ≤ p.ASSOOFS_MAX_FILESYSTEM_OBJECTS_SUPPORTED)
    (hnone : ∀ k, p.ASSOOFS_RESERVED_INODES + 1 ≤ k →
      k < p.ASSOOFS_MAX_FILESYSTEM_OBJECTS_SUPPORTED → free_blocks_and_shl p fb k = 0) :
    freeblock_index p fb = p.ASSOOFS_MAX_FILESYSTEM_OBJECTS_SUPPORTED := by
  unfold freeblock_index
  have hge := freeblock_loop_ge p fb
    (p.ASSOOFS_MAX_FILESYSTEM_OBJECTS_SUPPORTED - (p.ASSOOFS_RESERVED_INODES + 1))
    (p.ASSOOFS_RESERVED_INODES + 1)
  have hle := freeblock_loop_le p fb
    (p.ASSOOFS_MAX_FILESYSTEM_OBJECTS_SUPPORTED - (p.ASSOOFS_RESERVED_INODES + 1))
    (p.ASSOOFS_RESERVED_INODES + 1) hR
  have hfd := freeblock_loop_found p fb
    (p.ASSOOFS_MAX_FILESYSTEM_OBJECTS_SUPPORTED - (p.ASSOOFS_RESERVED_INODES + 1))
    (p.ASSOOFS_RESERVED_INODES + 1) (by omega)
  by_contra hne
  have hlt : freeblock_loop p fb
      (p.ASSOOFS_MAX_FILESYSTEM_OBJECTS_SUPPORTED - (p.ASSOOFS_RESERVED_INODES + 1))
      (p.ASSOOFS_RESERVED_INODES + 1) < p.ASSOOFS_MAX_FILESYSTEM_OBJECTS_SUPPORTED := by
    omega
  exact hfd hlt (hnone _ hge hlt)

theorem testBit_eq_false_of_lt_two_pow_64 (fb k : Nat) (hfb : fb < 2 ^ 64) (hk : 64 ≤ k) :
    fb.testBit k = false := by
  apply Nat.testBit_lt_two_pow
  exact Nat.lt_of_lt_of_le hfb (Nat.pow_le_pow_right (by decide) hk)

/-- Conjunction with the 64-bit complement of `2^j` clears bit `j` and nothing
else. -/
theorem testBit_land_compl_two_pow (fb j k : Nat) (hfb : fb < 2 ^ 64) (hj : j < 64) :
    (fb &&& (2 ^ 64 - 1 - 2 ^ j)).testBit k = (fb.testBit k && decide (k ≠ j)) := by
  have hp : (2 : Nat) ^ j < 2 ^ 64 := Nat.pow_lt_pow_right (by decide) hj
  have e : 2 ^ 64 - 1 - 2 ^ j = 2 ^ 64 - (2 ^ j + 1) := by omega
  rw [e, Nat.testBit_and, Nat.testBit_two_pow_sub_succ hp, Nat.testBit_two_pow]
  by_cases hk : k < 64
  · by_cases hjk : j = k
    · subst hjk; simp
    · have : k ≠ j := fun h => hjk h.symm
      simp [hk, hjk, this]
  · rw [testBit_eq_false_of_lt_two_pow_64 fb k hfb (by omega)]
    simp

theorem free_blocks_and_shl_of_lt (p : Params) (fb i : Nat) (h : i < 31) :
    free_blocks_and_shl p fb i ≠ 0 ↔ fb.testBit i = true := by
  unfold free_blocks_and_shl
  rw [shl_one_of_lt p i h]
  exact land_two_pow_ne_zero fb i

theorem free_blocks_and_shl_eq_zero_of_lt (p : Params) (fb i : Nat) (h : i < 31) :
    free_blocks_and_shl p fb i = 0 ↔ fb.testBit i = false := by
  have := free_blocks_and_shl_of_lt p fb i h
  cases hb : fb.testBit i
  · simp only [hb] at this
    simpa using this
  · simp only [hb] at this
    simpa using this

/-- First fit below bit 31: when the lowest free bit of the scanned range has
an index `j < 31`, the call returns 0, stores `j` and clears bit `j` only. -/
theorem get_a_freeblock_first_fit (p : Params) (sb : assoofs_super_block_info) (j : Nat)
    (hfb : sb.free_blocks < 2 ^ 64)
    (h1 : p.ASSOOFS_RESERVED_INODES + 1 ≤ j)
    (h2 : j < p.ASSOOFS_MAX_FILESYSTEM_OBJECTS_SUPPORTED)
    (h31 : j < 31)
    (hj : sb.free_blocks.testBit j = true)
    (hlow : ∀ k, p.ASSOOFS_RESERVED_INODES + 1 ≤ k → k < j → sb.free_blocks.testBit k = false) :
    (assoofs_sb_get_a_freeblock p sb).ret = 0 ∧
    (assoofs_sb_get_a_freeblock p sb).block = j ∧
    (∀ k, (assoofs_sb_get_a_freeblock p sb).sb.free_blocks.testBit k
      = (sb.free_blocks.testBit k && decide (k ≠ j))) ∧
    (assoofs_sb_get_a_freeblock p sb).sb.inodes_count = sb.inodes_count := by
  have hidx : freeblock_index p sb.free_blocks = j := by
    apply freeblock_index_of_first p sb.free_blocks j h1 h2
    · exact (free_blocks_and_shl_of_lt p _ j h31).2 hj
    · intro k hk1 hk2
      exact (free_blocks_and_shl_eq_zero_of_lt p _ k (by omega)).2 (hlow k hk1 hk2)
  refine ⟨?_, ?_, ?_, ?_⟩
  · simp only [assoofs_sb_get_a_freeblock, hidx]
    rw [if_neg (by omega)]
  · simp only [assoofs_sb_get_a_freeblock, hidx]
  · intro k
    simp only [assoofs_sb_get_a_freeblock, hidx]
    rw [u64_of_int_not, shl_one_of_lt p j h31]
    exact testBit_land_compl_two_pow _ j k hfb (by omega)
  · simp only [assoofs_sb_get_a_freeblock]

/-- Exhaustion below bit 31: with no free bit in the scanned range and a
maximum below 31, the call returns `-ENOSPC`, stores the maximum in `*block`
and clears the bit whose index is the maximum. -/
theorem get_a_freeblock_exhausted (p : Params) (sb : assoofs_super_block_info)
    (hfb : sb.free_blocks < 2 ^ 64)
    (hR : p.ASSOOFS_RESERVED_INODES + 1 ≤ p.ASSOOFS_MAX_FILESYSTEM_OBJECTS_SUPPORTED)
    (h31 : p.ASSOOFS_MAX_FILESYSTEM_OBJECTS_SUPPORTED < 31)
    (hnone : ∀ k, p.ASSOOFS_RESERVED_INODES + 1 ≤ k →
      k < p.ASSOOFS_MAX_FILESYSTEM_OBJECTS_SUPPORTED → sb.free_blocks.testBit k = false) :
    (assoofs_sb_get_a_freeblock p sb).ret = -ENOSPC ∧
    (assoofs_sb_get_a_freeblock p sb).block = p.ASSOOFS_MAX_FILESYSTEM_OBJECTS_SUPPORTED ∧
    (∀ k, (assoofs_sb_get_a_freeblock p sb).sb.free_blocks.testBit k
      = (sb.free_blocks.testBit k &&
          decide (k ≠ p.ASSOOFS_MAX_FILESYSTEM_OBJECTS_SUPPORTED))) := by
  have hidx : freeblock_index p sb.free_blocks = p.ASSOOFS_MAX_FILESYSTEM_OBJECTS_SUPPORTED := by
    apply freeblock_index_of_none p sb.free_blocks hR
    intro k hk1 hk2
    exact (free_blocks_and_shl_eq_zero_of_lt p _ k (by omega)).2 (hnone k hk1 hk2)
  refine ⟨?_, ?_, ?_⟩
  · simp only [assoofs_sb_get_a_freeblock, hidx, if_true]
  · simp only [assoofs_sb_get_a_freeblock, hidx]
  · intro k
    simp only [assoofs_sb_get_a_freeblock, hidx]
    rw [u64_of_int_not, shl_one_of_lt p _ h31]
    exact testBit_land_compl_two_pow _ _ k hfb (by omega)

/-! ## Capacity -/

theorem save_inode_info_sb (v : Volume) (i : assoofs_inode_info) :
    (assoofs_save_inode_info v i).v.sb = v.sb := by
  unfold assoofs_save_inode_info
  split <;> rfl

theorem free_hits_le (p : Params) (fb : Nat) :
    free_hits p fb ≤
      p.ASSOOFS_MAX_FILESYSTEM_OBJECTS_SUPPORTED - (p.ASSOOFS_RESERVED_INODES + 1) := by
  unfold free_hits
  have hsub : (Finset.range p.ASSOOFS_MAX_FILESYSTEM_OBJECTS_SUPPORTED).filter
      (fun i => p.ASSOOFS_RESERVED_INODES + 1 ≤ i ∧ free_blocks_and_shl p fb i ≠ 0)
      ⊆ Finset.Ico (p.ASSOOFS_RESERVED_INODES + 1) p.ASSOOFS_MAX_FILESYSTEM_OBJECTS_SUPPORTED := by
    intro i hi
    simp only [Finset.mem_filter, Finset.mem_range] at hi
    simp only [Finset.mem_Ico]
    exact ⟨hi.2.1, hi.1⟩
  have := Finset.card_le_card hsub
  simpa using this

theorem free_hits_eq_zero_iff (p : Params) (fb : Nat) :
    free_hits p fb = 0 ↔
      ∀ k, p.ASSOOFS_RESERVED_INODES + 1 ≤ k →
        k < p.ASSOOFS_MAX_FILESYSTEM_OBJECTS_SUPPORTED → free_blocks_and_shl p fb k = 0 := by
  unfold free_hits
  rw [Finset.card_eq_zero, Finset.filter_eq_empty_iff]
  constructor
  · intro h k hk1 hk2
    have := h (Finset.mem_range.2 hk2)
    by_contra hne
    exact this ⟨hk1, hne⟩
  · intro h k hk hc
    exact hc.2 (h k hc.1 (Finset.mem_range.1 hk))

/-- Clearing the bits of a mask at which the test succeeded lowers the number
of indices at which it can succeed. -/
theorem free_hits_clear_lt (p : Params) (fb j : Nat)
    (h1 : p.ASSOOFS_RESERVED_INODES + 1 ≤ j)
    (h2 : j < p.ASSOOFS_MAX_FILESYSTEM_OBJECTS_SUPPORTED)
    (hj : free_blocks_and_shl p fb j ≠ 0) :
    free_hits p (fb &&& u64_of_int (int_not (shl_one p j))) < free_hits p fb := by
  unfold free_hits
  apply Finset.card_lt_card
  rw [Finset.ssubset_iff_of_subset]
  · refine ⟨j, ?_, ?_⟩
    · simp only [Finset.mem_filter, Finset.mem_range]
      exact ⟨h2, h1, hj⟩
    · simp only [Finset.mem_filter, Finset.mem_range, not_and]
      intro _ _ hc
      apply hc
      unfold free_blocks_and_shl
      rw [u64_of_int_not]
      exact land_compl_land fb _ (u64_of_int_lt _)
  · intro i hi
    simp only [Finset.mem_filter, Finset.mem_range] at hi ⊢
    refine ⟨hi.1, hi.2.1, ?_⟩
    exact land_land_ne_zero hi.2.2

theorem free_hits_clear_eq_zero (p : Params) (fb m : Nat) (h : free_hits p fb = 0) :
    free_hits p (fb &&& m) = 0 := by
  rw [free_hits_eq_zero_iff] at h ⊢
  intro k hk1 hk2
  by_contra hne
  exact land_land_ne_zero hne (h k hk1 hk2)

theorem get_a_freeblock_ret (p : Params) (sb : assoofs_super_block_info) :
    (assoofs_sb_get_a_freeblock p sb).ret =
      if freeblock_index p sb.free_blocks = p.ASSOOFS_MAX_FILESYSTEM_OBJECTS_SUPPORTED
      then -ENOSPC else 0 := rfl

theorem get_a_freeblock_sb (p : Params) (sb : assoofs_super_block_info) :
    (assoofs_sb_get_a_freeblock p sb).sb =
      { sb with free_blocks := sb.free_blocks &&&
          u64_of_int (int_not (shl_one p (freeblock_index p sb.free_blocks))) } := rfl

theorem get_a_freeblock_block (p : Params) (sb : assoofs_super_block_info) :
    (assoofs_sb_get_a_freeblock p sb).block = freeblock_index p sb.free_blocks := rfl

/-- The index the scan ends at: either inside the range, at an index where the
test succeeds, or at the maximum, no index of the range passing the test. -/
theorem freeblock_index_cases (p : Params) (fb : Nat)
    (hR : p.ASSOOFS_RESERVED_INODES + 1 ≤ p.ASSOOFS_MAX_FILESYSTEM_OBJECTS_SUPPORTED) :
    (p.ASSOOFS_RESERVED_INODES + 1 ≤ freeblock_index p fb ∧
      freeblock_index p fb < p.ASSOOFS_MAX_FILESYSTEM_OBJECTS_SUPPORTED ∧
      free_blocks_and_shl p fb (freeblock_index p fb) ≠ 0) ∨
    (freeblock_index p fb = p.ASSOOFS_MAX_FILESYSTEM_OBJECTS_SUPPORTED ∧ free_hits p fb = 0) := by
  have hge := freeblock_loop_ge p fb
    (p.ASSOOFS_MAX_FILESYSTEM_OBJECTS_SUPPORTED - (p.ASSOOFS_RESERVED_INODES + 1))
    (p.ASSOOFS_RESERVED_INODES + 1)
  have hle := freeblock_loop_le p fb
    (p.ASSOOFS_MAX_FILESYSTEM_OBJECTS_SUPPORTED - (p.ASSOOFS_RESERVED_INODES + 1))
    (p.ASSOOFS_RESERVED_INODES + 1) hR
  have hsk := freeblock_loop_skipped p fb
    (p.ASSOOFS_MAX_FILESYSTEM_OBJECTS_SUPPORTED - (p.ASSOOFS_RESERVED_INODES + 1))
    (p.ASSOOFS_RESERVED_INODES + 1)
  have hfd := freeblock_loop_found p fb
    (p.ASSOOFS_MAX_FILESYSTEM_OBJECTS_SUPPORTED - (p.ASSOOFS_RESERVED_INODES + 1))
    (p.ASSOOFS_RESERVED_INODES + 1) (by omega)
  by_cases hlt : freeblock_index p fb < p.ASSOOFS_MAX_FILESYSTEM_OBJECTS_SUPPORTED
  · exact Or.inl ⟨hge, hlt, hfd hlt⟩
  · right
    have heq : freeblock_index p fb = p.ASSOOFS_MAX_FILESYSTEM_OBJECTS_SUPPORTED := by
      unfold freeblock_index at hlt ⊢
      omega
    refine ⟨heq, ?_⟩
    rw [free_hits_eq_zero_iff]
    intro k hk1 hk2
    apply hsk k hk1
    unfold freeblock_index at heq
    omega

theorem create_fs_object_full (p : Params) (v : Volume) (dir : assoofs_inode_info)
    (name : List Nat) (mode : Nat)
    (h : p.ASSOOFS_MAX_FILESYSTEM_OBJECTS_SUPPORTED ≤ v.sb.inodes_count) :
    assoofs_create_fs_object p v dir name mode =
      { ret := -ENOSPC, v := v, dir := dir, inode := none } := by
  unfold assoofs_create_fs_object
  simp only [ge_iff_le]
  rw [if_pos h]

theorem create_fs_object_bad_mode (p : Params) (v : Volume) (dir : assoofs_inode_info)
    (name : List Nat) (mode : Nat)
    (h : v.sb.inodes_count < p.ASSOOFS_MAX_FILESYSTEM_OBJECTS_SUPPORTED)
    (hd : S_ISDIR mode = false) (hr : S_ISREG mode = false) :
    assoofs_create_fs_object p v dir name mode =
      { ret := -EINVAL, v := v, dir := dir, inode := none } := by
  unfold assoofs_create_fs_object
  simp only [ge_iff_le]
  rw [if_neg (by omega), hd, hr]
  rfl

theorem mode_test_of_valid (mode : Nat) (hmode : S_ISDIR mode = true ∨ S_ISREG mode = true) :
    (!S_ISDIR mode && !S_ISREG mode) = false := by
  rcases hmode with hm | hm <;> simp [hm]

theorem create_fs_object_no_block (p : Params) (v : Volume) (dir : assoofs_inode_info)
    (name : List Nat) (mode : Nat)
    (h : v.sb.inodes_count < p.ASSOOFS_MAX_FILESYSTEM_OBJECTS_SUPPORTED)
    (hmode : S_ISDIR mode = true ∨ S_ISREG mode = true)
    (hi : freeblock_index p v.sb.free_blocks = p.ASSOOFS_MAX_FILESYSTEM_OBJECTS_SUPPORTED) :
    assoofs_create_fs_object p v dir name mode =
      { ret := -ENOSPC, v := { v with sb := (assoofs_sb_get_a_freeblock p v.sb).sb },
        dir := dir, inode := none } := by
  have h3 : (assoofs_sb_get_a_freeblock p v.sb).ret = -ENOSPC := by
    rw [get_a_freeblock_ret, if_pos hi]
  have h4 : (assoofs_sb_get_a_freeblock p v.sb).ret < 0 := by
    rw [h3]; decide
  unfold assoofs_create_fs_object
  simp only [ge_iff_le]
  rw [if_neg (by omega), mode_test_of_valid mode hmode, if_neg (by simp), if_pos h4, h3]

theorem create_fs_object_block (p : Params) (v : Volume) (dir : assoofs_inode_info)
    (name : List Nat) (mode : Nat)
    (h : v.sb.inodes_count < p.ASSOOFS_MAX_FILESYSTEM_OBJECTS_SUPPORTED)
    (hmode : S_ISDIR mode = true ∨ S_ISREG mode = true)
    (hi : freeblock_index p v.sb.free_blocks ≠ p.ASSOOFS_MAX_FILESYSTEM_OBJECTS_SUPPORTED) :
    assoofs_create_fs_object p v dir name mode =
      create_fs_object_finish p { v with sb := (assoofs_sb_get_a_freeblock p v.sb).sb } dir name
        { inode_no := new_ino p v.sb.inodes_count, mode := mode,
          data_block_number := (assoofs_sb_get_a_freeblock p v.sb).block, file_size := 0 } := by
  have h3 : (assoofs_sb_get_a_freeblock p v.sb).ret = 0 := by
    rw [get_a_freeblock_ret, if_neg hi]
  have h4 : ¬ (assoofs_sb_get_a_freeblock p v.sb).ret < 0 := by
    rw [h3]; decide
  unfold assoofs_create_fs_object
  simp only [ge_iff_le]
  rw [if_neg (by omega), mode_test_of_valid mode hmode, if_neg (by simp), if_neg h4]

theorem dir_append_record_sb (p : Params) (v : Volume) (parent : assoofs_inode_info)
    (name : List Nat) (inode_no : Nat) :
    (dir_append_record p v parent name inode_no).sb = v.sb := by
  unfold dir_append_record
  split_ifs <;> rfl

theorem dir_append_record_inode_store (p : Params) (v : Volume) (parent : assoofs_inode_info)
    (name : List Nat) (inode_no : Nat) :
    (dir_append_record p v parent name inode_no).inode_store = v.inode_store := by
  unfold dir_append_record
  split_ifs <;> rfl

/-- Inside the array and inside the block the record is written as it stands. -/
theorem dir_append_record_of_fits (p : Params) (v : Volume) (parent : assoofs_inode_info)
    (name : List Nat) (inode_no : Nat)
    (hname : name.length + 1 ≤ p.ASSOOFS_FILENAME_MAXLEN)
    (hslot : parent.dir_children_count <
      p.ASSOOFS_DEFAULT_BLOCK_SIZE / p.sizeof_dir_record_entry) :
    dir_append_record p v parent name inode_no =
      { v with
        dir_blocks := Function.update v.dir_blocks parent.data_block_number
          (Function.update (v.dir_blocks parent.data_block_number) parent.dir_children_count
            { inode_no := inode_no, filename := name }) } := by
  unfold dir_append_record
  rw [if_pos ⟨hname, hslot⟩]

theorem create_fs_object_finish_sb (p : Params) (v : Volume) (dir : assoofs_inode_info) (name : List Nat)
    (inode_info : assoofs_inode_info) :
    (create_fs_object_finish p v dir name inode_info).v.sb =
      { v.sb with inodes_count := v.sb.inodes_count + 1 } := by
  unfold create_fs_object_finish
  simp only
  split <;> simp only [save_inode_info_sb, dir_append_record_sb] <;> rfl

theorem create_fs_object_block_sb (p : Params) (v : Volume) (dir : assoofs_inode_info)
    (name : List Nat) (mode : Nat)
    (h : v.sb.inodes_count < p.ASSOOFS_MAX_FILESYSTEM_OBJECTS_SUPPORTED)
    (hmode : S_ISDIR mode = true ∨ S_ISREG mode = true)
    (hi : freeblock_index p v.sb.free_blocks ≠ p.ASSOOFS_MAX_FILESYSTEM_OBJECTS_SUPPORTED) :
    (assoofs_create_fs_object p v dir name mode).v.sb =
      { (assoofs_sb_get_a_freeblock p v.sb).sb with inodes_count := v.sb.inodes_count + 1 } := by
  rw [create_fs_object_block p v dir name mode h hmode hi, create_fs_object_finish_sb]
  rfl

/-- One call lowers the bound `creations_left` by at least one, and fails with
`-ENOSPC` when the bound is 0. -/
theorem creations_left_step (p : Params) (v : Volume) (dir : assoofs_inode_info)
    (name : List Nat) (mode : Nat)
    (hR : p.ASSOOFS_RESERVED_INODES + 1 ≤ p.ASSOOFS_MAX_FILESYSTEM_OBJECTS_SUPPORTED)
    (hmode : S_ISDIR mode = true ∨ S_ISREG mode = true) :
    creations_left p (assoofs_create_fs_object p v dir name mode).v ≤ creations_left p v - 1 ∧
    (creations_left p v = 0 → (assoofs_create_fs_object p v dir name mode).ret = -ENOSPC) := by
  by_cases hfull : p.ASSOOFS_MAX_FILESYSTEM_OBJECTS_SUPPORTED ≤ v.sb.inodes_count
  · rw [create_fs_object_full p v dir name mode hfull]
    simp [creations_left, hfull]
  · have hlt : v.sb.inodes_count < p.ASSOOFS_MAX_FILESYSTEM_OBJECTS_SUPPORTED := by omega
    rcases freeblock_index_cases p v.sb.free_blocks hR with ⟨hge, hi, hhit⟩ | ⟨hi, hz⟩
    · have hne : freeblock_index p v.sb.free_blocks ≠
          p.ASSOOFS_MAX_FILESYSTEM_OBJECTS_SUPPORTED := by omega
      have hsb := create_fs_object_block_sb p v dir name mode hlt hmode hne
      have hdec := free_hits_clear_lt p v.sb.free_blocks _ hge hi hhit
      have hcl : creations_left p v = free_hits p v.sb.free_blocks := by
        simp [creations_left, hfull]
      constructor
      · rw [hcl]
        unfold creations_left
        rw [hsb, get_a_freeblock_sb]
        split
        · omega
        · simp only
          omega
      · intro h0
        omega
    · rw [create_fs_object_no_block p v dir name mode hlt hmode hi]
      have hcl : creations_left p v = 0 := by
        simp [creations_left, hfull, hz]
      constructor
      · rw [hcl]
        simp only [creations_left, get_a_freeblock_sb, hfull, if_false]
        rw [free_hits_clear_eq_zero p _ _ hz]
      · intro _; rfl

theorem create_calls_length (p : Params) :
    ∀ (calls : List create_call) (v : Volume), (create_calls p v calls).length = calls.length := by
  intro calls
  induction calls with
  | nil => intro v; rfl
  | cons c cs ih => intro v; simp [create_calls, ih]

theorem create_calls_enospc (p : Params)
    (hR : p.ASSOOFS_RESERVED_INODES + 1 ≤ p.ASSOOFS_MAX_FILESYSTEM_OBJECTS_SUPPORTED) :
    ∀ (calls : List create_call) (v : Volume) (k : Nat),
      (∀ c ∈ calls, S_ISDIR c.mode = true ∨ S_ISREG c.mode = true) →
      k < calls.length → creations_left p v ≤ k →
      ∃ r, (create_calls p v calls)[k]? = some r ∧ r.ret = -ENOSPC := by
  intro calls
  induction calls with
  | nil => intro v k _ hk; simp at hk
  | cons c cs ih =>
    intro v k hm hk hleft
    have hc := hm c (List.mem_cons_self c cs)
    have hstep := creations_left_step p v c.dir c.name c.mode hR hc
    cases k with
    | zero =>
      refine ⟨assoofs_create_fs_object p v c.dir c.name c.mode, ?_, ?_⟩
      · simp [create_calls]
      · exact hstep.2 (by omega)
    | succ k =>
      have hk2 : k < cs.length := by simpa using hk
      obtain ⟨r, hr1, hr2⟩ := ih (assoofs_create_fs_object p v c.dir c.name c.mode).v k
        (fun c2 hc2 => hm c2 (List.mem_cons_of_mem c hc2)) hk2 (by omega)
      refine ⟨r, ?_, hr2⟩
      simpa [create_calls] using hr1

theorem creations_left_le (p : Params) (v : Volume) :
    creations_left p v ≤
      p.ASSOOFS_MAX_FILESYSTEM_OBJECTS_SUPPORTED - (p.ASSOOFS_RESERVED_INODES + 1) := by
  unfold creations_left
  split
  · omega
  · exact free_hits_le p _

/-- C7 (amended).  For a mode that is neither a directory mode nor a
regular-file mode, `assoofs_create_fs_object` returns `-EINVAL` when
`inodes_count < MAX`, and `-ENOSPC` when `inodes_count >= MAX` (the capacity
test comes first); in both cases the volume (superblock, inode store, blocks)
and the parent's record are unchanged and no inode is bound. -/
theorem create_fs_object_invalid_mode (p : Params) (v : Volume) (dir : assoofs_inode_info)
    (name : List Nat) (mode : Nat) (hd : S_ISDIR mode = false) (hr : S_ISREG mode = false) :
    (assoofs_create_fs_object p v dir name mode).ret =
      (if v.sb.inodes_count < p.ASSOOFS_MAX_FILESYSTEM_OBJECTS_SUPPORTED then -EINVAL
       else -ENOSPC) ∧
    (assoofs_create_fs_object p v dir name mode).v = v ∧
    (assoofs_create_fs_object p v dir name mode).dir = dir ∧
    (assoofs_create_fs_object p v dir name mode).inode = none := by
  by_cases h : v.sb.inodes_count < p.ASSOOFS_MAX_FILESYSTEM_OBJECTS_SUPPORTED
  · rw [create_fs_object_bad_mode p v dir name mode h hd hr, if_pos h]
    exact ⟨rfl, rfl, rfl, rfl⟩
  · rw [create_fs_object_full p v dir name mode (by omega), if_neg h]
    exact ⟨rfl, rfl, rfl, rfl⟩

/-! ## The allocator at and beyond bit 31 -/

theorem shl_one_31 (p : Params) : u64_of_int (shl_one p 31) = 2 ^ 64 - 2 ^ 31 := by
  have e : shl_one p 31 = -(2 ^ 31) := by simp [shl_one]
  rw [e]
  unfold u64_of_int
  omega

theorem testBit_high_mask (i : Nat) :
    (2 ^ 64 - 2 ^ 31 : Nat).testBit i = (decide (i < 64) && !decide (i < 31)) := by
  have e : (2 ^ 64 - 2 ^ 31 : Nat) = 2 ^ 64 - ((2 ^ 31 - 1) + 1) := by omega
  rw [e, Nat.testBit_two_pow_sub_succ (by omega), Nat.testBit_two_pow_sub_one]

/-- From bit 31 on there is no first fit: when the scanned range reaches
past 31, no bit of it below 31 is set and some bit from 31 up is set, the call
returns 0 with `*block = 31`, whichever of the bits 31..63 are set, and clears
all of them.  No shift count above 31 is evaluated. -/
theorem get_a_freeblock_from_bit_31 (p : Params) (sb : assoofs_super_block_info)
    (hfb : sb.free_blocks < 2 ^ 64)
    (hR : p.ASSOOFS_RESERVED_INODES + 1 ≤ 31)
    (hM : 31 < p.ASSOOFS_MAX_FILESYSTEM_OBJECTS_SUPPORTED)
    (hlow : ∀ k, p.ASSOOFS_RESERVED_INODES + 1 ≤ k → k < 31 → sb.free_blocks.testBit k = false)
    (hhigh : 2 ^ 31 ≤ sb.free_blocks) :
    (assoofs_sb_get_a_freeblock p sb).ret = 0 ∧
    (assoofs_sb_get_a_freeblock p sb).block = 31 ∧
    (assoofs_sb_get_a_freeblock p sb).sb.free_blocks = sb.free_blocks % 2 ^ 31 := by
  have hhit : free_blocks_and_shl p sb.free_blocks 31 ≠ 0 := by
    unfold free_blocks_and_shl
    rw [shl_one_31]
    intro h0
    obtain ⟨i, hi1, hi2⟩ := Nat.ge_two_pow_implies_high_bit_true hhigh
    have hi64 : i < 64 := by
      by_contra hc
      rw [testBit_eq_false_of_lt_two_pow_64 _ i hfb (by omega)] at hi2
      exact Bool.noConfusion hi2
    have hb := congrArg (fun x => x.testBit i) h0
    simp only [Nat.testBit_and, Nat.zero_testBit, hi2, Bool.true_and] at hb
    rw [testBit_high_mask] at hb
    have h31 : ¬ i < 31 := by omega
    simp [hi64, h31] at hb
  have hidx : freeblock_index p sb.free_blocks = 31 := by
    apply freeblock_index_of_first p sb.free_blocks 31 hR hM hhit
    intro k hk1 hk2
    exact (free_blocks_and_shl_eq_zero_of_lt p _ k hk2).2 (hlow k hk1 hk2)
  refine ⟨?_, ?_, ?_⟩
  · simp only [assoofs_sb_get_a_freeblock, hidx]
    rw [if_neg (by omega)]
  · simp only [assoofs_sb_get_a_freeblock, hidx]
  · simp only [assoofs_sb_get_a_freeblock, hidx]
    rw [u64_of_int_not, shl_one_31]
    have e : (2 ^ 64 - 1 - (2 ^ 64 - 2 ^ 31) : Nat) = 2 ^ 31 - 1 := by omega
    rw [e, Nat.and_pow_two_sub_one_eq_mod]

/-- C1 (the code at the failing input).  Header with 64 objects, scan from 3;
free-block mask with bit 40 set and no other.  Bit 40 is the lowest (the only)
free bit of the range 3..63, yet `assoofs_sb_get_a_freeblock` returns 0 with
`*block = 31`, a block whose bit was not set, and leaves the mask at 0: the
`int` value `1 << 31` is `INT_MIN`, which converts to the 64-bit mask of bits
31..63. -/
theorem get_a_freeblock_bit_40 :
    (2 ^ 40 : Nat).testBit 40 = true ∧
    (2 ^ 40 : Nat).testBit 31 = false ∧
    assoofs_sb_get_a_freeblock header64 (formatted_volume 1 (2 ^ 40)).sb =
      { ret := 0, block := 31, sb := (formatted_volume 1 0).sb } := by
  decide

/-- C2 (the code at the failing input).  On the same volume one successful
`assoofs_create_fs_object` gives the new record `data_block_number = 31`,
although bit 31 of `free_blocks` was 0 before the call, and clears bit 40, the
bit of a block that no record received. -/
theorem create_fs_object_bit_40 :
    (formatted_volume 1 (2 ^ 40)).sb.free_blocks.testBit 31 = false ∧
    (formatted_volume 1 (2 ^ 40)).sb.free_blocks.testBit 40 = true ∧
    (assoofs_create_fs_object header64 (formatted_volume 1 (2 ^ 40)) root_record [97]
      S_IFREG).ret = 0 ∧
    (assoofs_create_fs_object header64 (formatted_volume 1 (2 ^ 40)) root_record [97]
      S_IFREG).inode =
      some { i_ino := 10, i_fop := some file_ops.assoofs_file_operations
             i_private := some { mode := S_IFREG, inode_no := 10, data_block_number := 31,
                                 file_size := 0 } } ∧
    (assoofs_create_fs_object header64 (formatted_volume 1 (2 ^ 40)) root_record [97]
      S_IFREG).v.sb.free_blocks.testBit 40 = false := by
  decide

/-- C8 (the code at the failing input).  Header with 8 objects, scan over
3..7; mask with every bit from 8 up set and none below.  No bit of the range
is set, the call returns `-ENOSPC`, and the mask has changed: the statements
after the loop ran with `i = 8` and cleared bit 8. -/
theorem get_a_freeblock_exhausted_mutates :
    (∀ i, 3 ≤ i → i < 8 → (2 ^ 64 - 256 : Nat).testBit i = false) ∧
    assoofs_sb_get_a_freeblock header8 (formatted_volume 1 (2 ^ 64 - 256)).sb =
      { ret := -ENOSPC, block := 8, sb := (formatted_volume 1 (2 ^ 64 - 512)).sb } ∧
    (formatted_volume 1 (2 ^ 64 - 512)).sb ≠ (formatted_volume 1 (2 ^ 64 - 256)).sb := by
  refine ⟨?_, by decide, by decide⟩
  intro i h1 h2
  interval_cases i <;> decide

/-! ## Capacity and mode tests: examples -/

/-- C7 (counterexample).  With `inodes_count = 8 = MAX` and mode 0, which is
neither a directory mode nor a regular-file mode, the call returns `-ENOSPC`,
not `-EINVAL`. -/
theorem create_fs_object_invalid_mode_full :
    S_ISDIR 0 = false ∧ S_ISREG 0 = false ∧
    (assoofs_create_fs_object header8 (formatted_volume 8 0) root_record [97] 0).ret = -ENOSPC ∧
    (assoofs_create_fs_object header8 (formatted_volume 8 0) root_record [97] 0).ret ≠ -EINVAL := by
  decide

/-- C7 (witness): mode 0 on a volume with one inode record. -/
theorem create_fs_object_invalid_mode_witness :
    S_ISDIR 0 = false ∧ S_ISREG 0 = false ∧
    (assoofs_create_fs_object header8 (formatted_volume 1 248) root_record [97] 0).ret = -EINVAL ∧
    (assoofs_create_fs_object header8 (formatted_volume 1 248) root_record [97] 0).v =
      formatted_volume 1 248 :=
  ⟨by decide, by decide,
    (create_fs_object_invalid_mode header8 (formatted_volume 1 248) root_record [97] 0
      (by decide) (by decide)).1,
    (create_fs_object_invalid_mode header8 (formatted_volume 1 248) root_record [97] 0
      (by decide) (by decide)).2.1⟩

/-! ## Mount -/

/-- C9.  `assoofs_fill_super` returns -1 and leaves the VFS superblock as it
was (`s_fs_info` and `s_root` are not set) whenever the on-disk `magic` differs
from `ASSOOFS_MAGIC` or the on-disk `block_size` from
`ASSOOFS_DEFAULT_BLOCK_SIZE`; when both match it returns 0, `s_fs_info` is the
on-disk record, `s_magic` and `s_maxbytes` are the two constants, and `s_root`
is the root inode with the record `assoofs_get_inode_info` finds for it. -/
theorem fill_super_validation (p : Params) (disk : Volume) (sb : super_block) :
    ((disk.sb.magic ≠ p.ASSOOFS_MAGIC ∨ disk.sb.block_size ≠ p.ASSOOFS_DEFAULT_BLOCK_SIZE) →
      assoofs_fill_super p disk sb = (-1, sb)) ∧
    ((disk.sb.magic = p.ASSOOFS_MAGIC ∧ disk.sb.block_size = p.ASSOOFS_DEFAULT_BLOCK_SIZE) →
      (assoofs_fill_super p disk sb).1 = 0 ∧
      (assoofs_fill_super p disk sb).2.s_fs_info = some disk.sb ∧
      (assoofs_fill_super p disk sb).2.s_magic = p.ASSOOFS_MAGIC ∧
      (assoofs_fill_super p disk sb).2.s_maxbytes = p.ASSOOFS_DEFAULT_BLOCK_SIZE ∧
      (assoofs_fill_super p disk sb).2.s_root =
        some { i_ino := p.ASSOOFS_ROOTDIR_INODE_NUMBER
               i_fop := some file_ops.assoofs_dir_operations
               i_private := assoofs_get_inode_info disk p.ASSOOFS_ROOTDIR_INODE_NUMBER }) := by
  constructor
  · intro h
    unfold assoofs_fill_super
    by_cases hm : disk.sb.magic = p.ASSOOFS_MAGIC
    · have hb : disk.sb.block_size ≠ p.ASSOOFS_DEFAULT_BLOCK_SIZE := by
        rcases h with h | h
        · exact absurd hm h
        · exact h
      rw [if_neg (by simpa using hm), if_pos hb]
    · rw [if_pos hm]
  · rintro ⟨hm, hb⟩
    unfold assoofs_fill_super
    rw [if_neg (by simpa using hm), if_neg (by simpa using hb)]
    exact ⟨rfl, rfl, rfl, rfl, rfl⟩

/-- C9 (witness): a device with magic 7 is refused, a formatted one is mounted. -/
theorem fill_super_validation_witness :
    bad_magic_volume.sb.magic ≠ header64.ASSOOFS_MAGIC ∧
    assoofs_fill_super header64 bad_magic_volume blank_super_block = (-1, blank_super_block) ∧
    (formatted_volume 1 248).sb.magic = header64.ASSOOFS_MAGIC ∧
    (formatted_volume 1 248).sb.block_size = header64.ASSOOFS_DEFAULT_BLOCK_SIZE ∧
    (assoofs_fill_super header64 (formatted_volume 1 248) blank_super_block).1 = 0 ∧
    (assoofs_fill_super header64 (formatted_volume 1 248) blank_super_block).2.s_fs_info =
      some (formatted_volume 1 248).sb :=
  ⟨by decide,
   (fill_super_validation header64 bad_magic_volume blank_super_block).1 (Or.inl (by decide)),
   by decide, by decide,
   ((fill_super_validation header64 (formatted_volume 1 248) blank_super_block).2
      ⟨by decide, by decide⟩).1,
   ((fill_super_validation header64 (formatted_volume 1 248) blank_super_block).2
      ⟨by decide, by decide⟩).2.1⟩

/-! ## Inode store: lemmas -/

theorem get_inode_info_loop_first (store : Nat → assoofs_inode_info) (n ino : Nat) :
    ∀ fuel i j, n ≤ i + fuel → i ≤ j → j < n → (store j).inode_no = ino →
      (∀ k, i ≤ k → k < j → (store k).inode_no ≠ ino) →
      get_inode_info_loop store n ino fuel i = some (store j) := by
  intro fuel
  induction fuel with
  | zero => intro i j h1 h2 h3; omega
  | succ f ih =>
    intro i j h1 h2 h3 hj hlow
    simp only [get_inode_info_loop]
    rw [if_pos (by omega)]
    by_cases hij : i = j
    · subst hij
      rw [if_pos hj]
    · rw [if_neg (hlow i (Nat.le_refl i) (by omega))]
      exact ih (i + 1) j (by omega) (by omega) h3 hj
        (fun k hk1 hk2 => hlow k (by omega) hk2)

theorem get_inode_info_loop_none (store : Nat → assoofs_inode_info) (n ino : Nat) :
    ∀ fuel i, (∀ j, i ≤ j → j < n → (store j).inode_no ≠ ino) →
      get_inode_info_loop store n ino fuel i = none := by
  intro fuel
  induction fuel with
  | zero => intro i _; rfl
  | succ f ih =>
    intro i h
    simp only [get_inode_info_loop]
    by_cases hi : i < n
    · rw [if_pos hi, if_neg (h i (Nat.le_refl i) hi)]
      exact ih (i + 1) (fun j hj1 hj2 => h j (by omega) hj2)
    · rw [if_neg hi]

theorem get_inode_info_loop_congr (store store2 : Nat → assoofs_inode_info) (n ino : Nat)
    (h : ∀ j, j < n → store2 j = store j) :
    ∀ fuel i, get_inode_info_loop store2 n ino fuel i = get_inode_info_loop store n ino fuel i := by
  intro fuel
  induction fuel with
  | zero => intro i; rfl
  | succ f ih =>
    intro i
    simp only [get_inode_info_loop]
    by_cases hi : i < n
    · rw [if_pos hi, if_pos hi, h i hi, ih (i + 1)]
    · rw [if_neg hi, if_neg hi]

/-- The lowest matching slot below `n`, when some slot below `n` matches. -/
theorem exists_first_match (store : Nat → assoofs_inode_info) (n ino : Nat)
    (h : ∃ j, j < n ∧ (store j).inode_no = ino) :
    ∃ j, j < n ∧ (store j).inode_no = ino ∧ ∀ k, k < j → (store k).inode_no ≠ ino := by
  classical
  refine ⟨Nat.find h, (Nat.find_spec h).1, (Nat.find_spec h).2, ?_⟩
  intro k hk hc
  exact Nat.find_min h hk ⟨Nat.lt_trans hk (Nat.find_spec h).1, hc⟩

theorem get_inode_info_of_first (v : Volume) (ino j : Nat) (hj : j < v.sb.inodes_count)
    (hm : (v.inode_store j).inode_no = ino)
    (hlow : ∀ k, k < j → (v.inode_store k).inode_no ≠ ino) :
    assoofs_get_inode_info v ino = some (v.inode_store j) := by
  unfold assoofs_get_inode_info
  exact get_inode_info_loop_first _ _ _ _ 0 j (by omega) (Nat.zero_le j) hj hm
    (fun k _ hk => hlow k hk)

theorem get_inode_info_eq_none_iff (v : Volume) (ino : Nat) :
    assoofs_get_inode_info v ino = none ↔
      ∀ j, j < v.sb.inodes_count → (v.inode_store j).inode_no ≠ ino := by
  constructor
  · intro hnone j hj hm
    obtain ⟨j0, h1, h2, h3⟩ := exists_first_match v.inode_store v.sb.inodes_count ino ⟨j, hj, hm⟩
    rw [get_inode_info_of_first v ino j0 h1 h2 h3] at hnone
    exact Option.noConfusion hnone
  · intro h
    unfold assoofs_get_inode_info
    exact get_inode_info_loop_none _ _ _ _ 0 (fun j _ hj => h j hj)

/-- C10.  `assoofs_get_inode_info` returns a copy of the record in the lowest
slot `j < inodes_count` whose `inode_no` is the requested one; it returns
`NULL` exactly when no slot below `inodes_count` holds that number; and two
inode stores that agree on the slots below `inodes_count` give the same
result, so the slots from `inodes_count` on have no influence. -/
theorem get_inode_info_correct (v : Volume) (inode_no : Nat) :
    (∀ j, j < v.sb.inodes_count → (v.inode_store j).inode_no = inode_no →
      (∀ k, k < j → (v.inode_store k).inode_no ≠ inode_no) →
      assoofs_get_inode_info v inode_no = some (v.inode_store j)) ∧
    (assoofs_get_inode_info v inode_no = none ↔
      ∀ j, j < v.sb.inodes_count → (v.inode_store j).inode_no ≠ inode_no) ∧
    (∀ v2 : Volume, v2.sb.inodes_count = v.sb.inodes_count →
      (∀ j, j < v.sb.inodes_count → v2.inode_store j = v.inode_store j) →
      assoofs_get_inode_info v2 inode_no = assoofs_get_inode_info v inode_no) := by
  refine ⟨fun j hj hm hlow => get_inode_info_of_first v inode_no j hj hm hlow,
    get_inode_info_eq_none_iff v inode_no, ?_⟩
  intro v2 hc hs
  unfold assoofs_get_inode_info
  rw [hc]
  exact get_inode_info_loop_congr _ _ _ _ hs _ _

/-- C10 (witness): on a volume holding the root's record only, inode 1 is found
in slot 0, and inode 0, the number in the unused slots, is not found. -/
theorem get_inode_info_correct_witness :
    assoofs_get_inode_info (formatted_volume 1 248) 1 = some root_record ∧
    assoofs_get_inode_info (formatted_volume 1 248) 0 = none :=
  ⟨(get_inode_info_correct (formatted_volume 1 248) 1).1 0 (by decide) (by decide) (by decide),
   (get_inode_info_correct (formatted_volume 1 248) 0).2.1.2 (by decide)⟩

theorem search_inode_info_loop_ge (store : Nat → assoofs_inode_info) (n ino : Nat) :
    ∀ fuel count, count ≤ search_inode_info_loop store n ino fuel count := by
  intro fuel
  induction fuel with
  | zero => intro c; exact Nat.le_refl c
  | succ f ih =>
    intro c
    simp only [search_inode_info_loop]
    split
    · exact Nat.le_trans (Nat.le_succ c) (ih (c + 1))
    · exact Nat.le_refl c

theorem search_inode_info_loop_first (store : Nat → assoofs_inode_info) (n ino : Nat) :
    ∀ fuel count j, n ≤ count + fuel → count ≤ j → j ≤ n → (store j).inode_no = ino →
      (∀ k, count ≤ k → k < j → (store k).inode_no ≠ ino) →
      search_inode_info_loop store n ino fuel count = j := by
  intro fuel
  induction fuel with
  | zero =>
    intro c j h1 h2 h3 _ _
    simp only [search_inode_info_loop]
    omega
  | succ f ih =>
    intro c j h1 h2 h3 hj hlow
    simp only [search_inode_info_loop]
    by_cases hcj : c = j
    · subst hcj
      rw [if_neg (by simp [hj])]
    · rw [if_pos ⟨hlow c (Nat.le_refl c) (by omega), by omega⟩]
      exact ih (c + 1) j (by omega) (by omega) h3 hj (fun k hk1 hk2 => hlow k (by omega) hk2)

theorem search_inode_info_of_first (v : Volume) (r : assoofs_inode_info) (j : Nat)
    (hj : j ≤ v.sb.inodes_count) (hm : (v.inode_store j).inode_no = r.inode_no)
    (hlow : ∀ k, k < j → (v.inode_store k).inode_no ≠ r.inode_no) :
    assoofs_search_inode_info v r = some j := by
  unfold assoofs_search_inode_info
  have h := search_inode_info_loop_first v.inode_store v.sb.inodes_count r.inode_no
    v.sb.inodes_count 0 j (by omega) (Nat.zero_le j) hj hm (fun k _ hk => hlow k hk)
  simp only [h, hm, if_true]

theorem save_inode_info_of_first (v : Volume) (r : assoofs_inode_info) (j : Nat)
    (hj : j ≤ v.sb.inodes_count) (hm : (v.inode_store j).inode_no = r.inode_no)
    (hlow : ∀ k, k < j → (v.inode_store k).inode_no ≠ r.inode_no) :
    assoofs_save_inode_info v r =
      { ret := 0, v := { v with inode_store := Function.update v.inode_store j r } } := by
  unfold assoofs_save_inode_info
  rw [search_inode_info_of_first v r j hj hm hlow]

theorem search_inode_info_some (v : Volume) (r : assoofs_inode_info) (k : Nat)
    (h : assoofs_search_inode_info v r = some k) : (v.inode_store k).inode_no = r.inode_no := by
  unfold assoofs_search_inode_info at h
  simp only at h
  split at h
  · rename_i hm
    have := Option.some.inj h
    rw [← this]
    exact hm
  · exact Option.noConfusion h

theorem save_inode_info_dir_blocks (v : Volume) (r : assoofs_inode_info) :
    (assoofs_save_inode_info v r).v.dir_blocks = v.dir_blocks := by
  unfold assoofs_save_inode_info
  split <;> rfl

theorem save_inode_info_data_blocks (v : Volume) (r : assoofs_inode_info) :
    (assoofs_save_inode_info v r).v.data_blocks = v.data_blocks := by
  unfold assoofs_save_inode_info
  split <;> rfl

/-- Saving a record never changes the inode number held in a slot. -/
theorem save_inode_info_inode_no (v : Volume) (r : assoofs_inode_info) (j : Nat) :
    ((assoofs_save_inode_info v r).v.inode_store j).inode_no = (v.inode_store j).inode_no := by
  unfold assoofs_save_inode_info
  split
  · rename_i k hk
    simp only
    by_cases hjk : j = k
    · subst hjk
      rw [Function.update_same]
      exact (search_inode_info_some v r j hk).symm
    · rw [Function.update_noteq hjk]
  · rfl

theorem save_inode_info_ret (v : Volume) (r : assoofs_inode_info) :
    (assoofs_save_inode_info v r).ret = 0 ∨ (assoofs_save_inode_info v r).ret = - EIO := by
  unfold assoofs_save_inode_info
  split
  · exact Or.inl rfl
  · exact Or.inr rfl

/-! ## Object creation: lemmas -/

theorem create_fs_object_finish_v (p : Params) (v : Volume) (dir : assoofs_inode_info) (name : List Nat)
    (fi : assoofs_inode_info) :
    (create_fs_object_finish p v dir name fi).v =
      (assoofs_save_inode_info (dir_append_record p (assoofs_add_inode_info v fi) dir name
        fi.inode_no) { dir with file_size := dir.file_size + 1 }).v := by
  unfold create_fs_object_finish
  simp only
  split <;> rfl

theorem create_fs_object_finish_dir (p : Params) (v : Volume) (dir : assoofs_inode_info) (name : List Nat)
    (fi : assoofs_inode_info) :
    (create_fs_object_finish p v dir name fi).dir = { dir with file_size := dir.file_size + 1 } := by
  unfold create_fs_object_finish
  simp only
  split <;> rfl

theorem create_fs_object_finish_inode (p : Params) (v : Volume) (dir : assoofs_inode_info) (name : List Nat)
    (fi : assoofs_inode_info) (h : (create_fs_object_finish p v dir name fi).ret = 0) :
    (create_fs_object_finish p v dir name fi).inode =
      some { i_ino := fi.inode_no
             i_fop := some (if S_ISDIR fi.mode then file_ops.assoofs_dir_operations
                            else file_ops.assoofs_file_operations)
             i_private := some fi } := by
  unfold create_fs_object_finish at h ⊢
  simp only at h ⊢
  split
  · rename_i hne
    rw [if_pos hne] at h
    exact absurd h hne
  · rfl

theorem create_fs_object_finish_store_inode_no (p : Params) (v : Volume) (dir : assoofs_inode_info)
    (name : List Nat) (fi : assoofs_inode_info) (j : Nat) :
    ((create_fs_object_finish p v dir name fi).v.inode_store j).inode_no =
      if j = v.sb.inodes_count then fi.inode_no else (v.inode_store j).inode_no := by
  rw [create_fs_object_finish_v, save_inode_info_inode_no, dir_append_record_inode_store]
  simp only [assoofs_add_inode_info]
  by_cases hj : j = v.sb.inodes_count
  · subst hj
    rw [Function.update_same, if_pos rfl]
  · rw [Function.update_noteq hj, if_neg hj]

theorem create_fs_object_finish_dir_blocks (p : Params) (v : Volume) (dir : assoofs_inode_info)
    (name : List Nat) (fi : assoofs_inode_info)
    (hname : name.length + 1 ≤ p.ASSOOFS_FILENAME_MAXLEN)
    (hslot : dir.dir_children_count <
      p.ASSOOFS_DEFAULT_BLOCK_SIZE / p.sizeof_dir_record_entry) :
    (create_fs_object_finish p v dir name fi).v.dir_blocks =
      Function.update v.dir_blocks dir.data_block_number
        (Function.update (v.dir_blocks dir.data_block_number) dir.dir_children_count
          { inode_no := fi.inode_no, filename := name }) := by
  rw [create_fs_object_finish_v, save_inode_info_dir_blocks,
    dir_append_record_of_fits _ _ _ _ _ hname hslot]
  rfl

theorem create_fs_object_finish_data_blocks (p : Params) (v : Volume) (dir : assoofs_inode_info)
    (name : List Nat) (fi : assoofs_inode_info)
    (hname : name.length + 1 ≤ p.ASSOOFS_FILENAME_MAXLEN)
    (hslot : dir.dir_children_count <
      p.ASSOOFS_DEFAULT_BLOCK_SIZE / p.sizeof_dir_record_entry) :
    (create_fs_object_finish p v dir name fi).v.data_blocks = v.data_blocks := by
  rw [create_fs_object_finish_v, save_inode_info_data_blocks,
    dir_append_record_of_fits _ _ _ _ _ hname hslot]
  rfl

/-- A call that returns 0 went through every test and ran the second half. -/
theorem create_fs_object_ret_zero (p : Params) (v : Volume) (dir : assoofs_inode_info)
    (name : List Nat) (mode : Nat) (h : (assoofs_create_fs_object p v dir name mode).ret = 0) :
    v.sb.inodes_count < p.ASSOOFS_MAX_FILESYSTEM_OBJECTS_SUPPORTED ∧
    (S_ISDIR mode = true ∨ S_ISREG mode = true) ∧
    freeblock_index p v.sb.free_blocks ≠ p.ASSOOFS_MAX_FILESYSTEM_OBJECTS_SUPPORTED ∧
    assoofs_create_fs_object p v dir name mode =
      create_fs_object_finish p { v with sb := (assoofs_sb_get_a_freeblock p v.sb).sb } dir name
        { inode_no := new_ino p v.sb.inodes_count, mode := mode,
          data_block_number := (assoofs_sb_get_a_freeblock p v.sb).block, file_size := 0 } := by
  by_cases hfull : p.ASSOOFS_MAX_FILESYSTEM_OBJECTS_SUPPORTED ≤ v.sb.inodes_count
  · rw [create_fs_object_full p v dir name mode hfull] at h
    have h0 : (-ENOSPC : Int) = 0 := h
    exact absurd h0 (by decide)
  · have hlt : v.sb.inodes_count < p.ASSOOFS_MAX_FILESYSTEM_OBJECTS_SUPPORTED := by omega
    have hmode : S_ISDIR mode = true ∨ S_ISREG mode = true := by
      cases hd : S_ISDIR mode
      · cases hr : S_ISREG mode
        · rw [create_fs_object_bad_mode p v dir name mode hlt hd hr] at h
          have h0 : (-EINVAL : Int) = 0 := h
          exact absurd h0 (by decide)
        · exact Or.inr rfl
      · exact Or.inl rfl
    by_cases hi : freeblock_index p v.sb.free_blocks = p.ASSOOFS_MAX_FILESYSTEM_OBJECTS_SUPPORTED
    · rw [create_fs_object_no_block p v dir name mode hlt hmode hi] at h
      have h0 : (-ENOSPC : Int) = 0 := h
      exact absurd h0 (by decide)
    · exact ⟨hlt, hmode, hi, create_fs_object_block p v dir name mode hlt hmode hi⟩

/-- The record of the new object, as a successful call builds it. -/
theorem create_fs_object_inode (p : Params) (v : Volume) (dir : assoofs_inode_info)
    (name : List Nat) (mode : Nat) (h : (assoofs_create_fs_object p v dir name mode).ret = 0) :
    (assoofs_create_fs_object p v dir name mode).inode =
      some { i_ino := new_ino p v.sb.inodes_count
             i_fop := some (if S_ISDIR mode then file_ops.assoofs_dir_operations
                            else file_ops.assoofs_file_operations)
             i_private := some { inode_no := new_ino p v.sb.inodes_count, mode := mode,
                                 data_block_number := (assoofs_sb_get_a_freeblock p v.sb).block,
                                 file_size := 0 } } := by
  obtain ⟨_, _, _, he⟩ := create_fs_object_ret_zero p v dir name mode h
  rw [he] at h ⊢
  exact create_fs_object_finish_inode _ _ _ _ _ h

theorem create_fs_object_inodes_count (p : Params) (v : Volume) (dir : assoofs_inode_info)
    (name : List Nat) (mode : Nat) (h : (assoofs_create_fs_object p v dir name mode).ret = 0) :
    (assoofs_create_fs_object p v dir name mode).v.sb.inodes_count = v.sb.inodes_count + 1 := by
  obtain ⟨_, _, _, he⟩ := create_fs_object_ret_zero p v dir name mode h
  rw [he, create_fs_object_finish_sb]
  rfl

theorem create_fs_object_store_inode_no (p : Params) (v : Volume) (dir : assoofs_inode_info)
    (name : List Nat) (mode : Nat) (h : (assoofs_create_fs_object p v dir name mode).ret = 0)
    (j : Nat) :
    ((assoofs_create_fs_object p v dir name mode).v.inode_store j).inode_no =
      if j = v.sb.inodes_count then new_ino p v.sb.inodes_count
      else (v.inode_store j).inode_no := by
  obtain ⟨_, _, _, he⟩ := create_fs_object_ret_zero p v dir name mode h
  rw [he, create_fs_object_finish_store_inode_no]
  rfl

theorem create_fs_object_dir (p : Params) (v : Volume) (dir : assoofs_inode_info)
    (name : List Nat) (mode : Nat) (h : (assoofs_create_fs_object p v dir name mode).ret = 0) :
    (assoofs_create_fs_object p v dir name mode).dir =
      { dir with file_size := dir.file_size + 1 } := by
  obtain ⟨_, _, _, he⟩ := create_fs_object_ret_zero p v dir name mode h
  rw [he, create_fs_object_finish_dir]

theorem create_fs_object_dir_blocks (p : Params) (v : Volume) (dir : assoofs_inode_info)
    (name : List Nat) (mode : Nat) (h : (assoofs_create_fs_object p v dir name mode).ret = 0)
    (hname : name.length + 1 ≤ p.ASSOOFS_FILENAME_MAXLEN)
    (hslot : dir.dir_children_count <
      p.ASSOOFS_DEFAULT_BLOCK_SIZE / p.sizeof_dir_record_entry) :
    (assoofs_create_fs_object p v dir name mode).v.dir_blocks =
      Function.update v.dir_blocks dir.data_block_number
        (Function.update (v.dir_blocks dir.data_block_number) dir.dir_children_count
          { inode_no := new_ino p v.sb.inodes_count, filename := name }) := by
  obtain ⟨_, _, _, he⟩ := create_fs_object_ret_zero p v dir name mode h
  rw [he, create_fs_object_finish_dir_blocks _ _ _ _ _ hname hslot]

theorem create_fs_object_data_blocks (p : Params) (v : Volume) (dir : assoofs_inode_info)
    (name : List Nat) (mode : Nat) (h : (assoofs_create_fs_object p v dir name mode).ret = 0)
    (hname : name.length + 1 ≤ p.ASSOOFS_FILENAME_MAXLEN)
    (hslot : dir.dir_children_count <
      p.ASSOOFS_DEFAULT_BLOCK_SIZE / p.sizeof_dir_record_entry) :
    (assoofs_create_fs_object p v dir name mode).v.data_blocks = v.data_blocks := by
  obtain ⟨_, _, _, he⟩ := create_fs_object_ret_zero p v dir name mode h
  rw [he, create_fs_object_finish_data_blocks _ _ _ _ _ hname hslot]

/-- When some slot below `inodes_count` holds the record's inode number,
saving succeeds and `assoofs_get_inode_info` then returns the saved record. -/
theorem save_then_get (v : Volume) (r : assoofs_inode_info)
    (h : ∃ j, j < v.sb.inodes_count ∧ (v.inode_store j).inode_no = r.inode_no) :
    (assoofs_save_inode_info v r).ret = 0 ∧
    assoofs_get_inode_info (assoofs_save_inode_info v r).v r.inode_no = some r := by
  obtain ⟨j, hj, hm, hlow⟩ := exists_first_match v.inode_store v.sb.inodes_count r.inode_no h
  rw [save_inode_info_of_first v r j (by omega) hm hlow]
  refine ⟨rfl, ?_⟩
  have hg := get_inode_info_of_first
    { v with inode_store := Function.update v.inode_store j r } r.inode_no j hj
    (by simp only [Function.update_same])
    (by
      intro k hk
      simp only
      rw [Function.update_noteq (by omega)]
      exact hlow k hk)
  rw [hg]
  simp only [Function.update_same]

theorem map_range_getD (B : List Nat) :
    (List.range B.length).map (fun k => B.getD k 0) = B := by
  apply List.ext_getElem
  · simp
  · intro i h1 h2
    simp [List.getD_eq_getElem?_getD, List.getElem?_eq_getElem h2]

/-! ## File data: write, then read -/

theorem write_ret (v : Volume) (fi : assoofs_inode_info) (B : List Nat) (ppos : Nat) :
    (assoofs_write v fi B ppos).ret = B.length := rfl

theorem write_inode_info (v : Volume) (fi : assoofs_inode_info) (B : List Nat) (ppos : Nat) :
    (assoofs_write v fi B ppos).inode_info = { fi with file_size := ppos + B.length } := rfl

theorem write_ppos (v : Volume) (fi : assoofs_inode_info) (B : List Nat) (ppos : Nat) :
    (assoofs_write v fi B ppos).ppos = ppos + B.length := rfl

theorem write_data_blocks (v : Volume) (fi : assoofs_inode_info) (B : List Nat) (ppos : Nat) :
    (assoofs_write v fi B ppos).v.data_blocks =
      Function.update v.data_blocks fi.data_block_number
        (fun k => if ppos ≤ k ∧ k < ppos + B.length then B.getD (k - ppos) 0
                  else v.data_blocks fi.data_block_number k) := by
  unfold assoofs_write
  simp only [save_inode_info_data_blocks]

theorem write_then_get (v : Volume) (fi : assoofs_inode_info) (B : List Nat) (ppos : Nat)
    (h : ∃ j, j < v.sb.inodes_count ∧ (v.inode_store j).inode_no = fi.inode_no) :
    assoofs_get_inode_info (assoofs_write v fi B ppos).v fi.inode_no =
      some { fi with file_size := ppos + B.length } := by
  unfold assoofs_write
  simp only
  exact (save_then_get
    { v with
      data_blocks := Function.update v.data_blocks fi.data_block_number
        (fun k => if ppos ≤ k ∧ k < ppos + B.length then B.getD (k - ppos) 0
                  else v.data_blocks fi.data_block_number k) }
    { fi with file_size := ppos + B.length } h).2

/-- Reading back what was written at offset 0. -/
theorem read_after_write (v : Volume) (fi : assoofs_inode_info) (B : List Nat) (len : Nat)
    (hlen : B.length ≤ len) :
    assoofs_read (assoofs_write v fi B 0).v (assoofs_write v fi B 0).inode_info len 0 =
      { ret := B.length, buf := B, ppos := B.length } := by
  unfold assoofs_read
  rw [write_inode_info, write_data_blocks]
  simp only [Nat.zero_add, ge_iff_le, Nat.le_zero_eq, Function.update_same, Nat.zero_le,
    true_and, Nat.sub_zero]
  by_cases hB : B.length = 0
  · have hnil : B = [] := List.length_eq_zero.1 hB
    subst hnil
    simp
  · rw [if_neg hB, Nat.min_eq_left hlen]
    have hmap : (List.range B.length).map
        (fun k => if k < B.length then B.getD k 0 else v.data_blocks fi.data_block_number k) =
        (List.range B.length).map (fun k => B.getD k 0) := by
      apply List.map_congr_left
      intro k hk
      rw [if_pos (List.mem_range.1 hk)]
    rw [hmap, map_range_getD]

/-- C3.  A regular file is created by a call of `assoofs_create_fs_object`
that returns 0; its in-memory record is the one the call attached to the new
inode.  For every byte string `B` of at most one block, `assoofs_write` of `B`
at offset 0 returns `len(B)`, and then `assoofs_read` at offset 0 with a length
of at least `len(B)` returns `len(B)` and copies out exactly `B`; the
in-memory record has `file_size = len(B)`, and the record that
`assoofs_get_inode_info` reads from the inode store for the file's inode number
is that same record, with `file_size = len(B)`. -/
theorem write_read_round_trip (p : Params) (v : Volume) (dir : assoofs_inode_info)
    (name : List Nat) (mode : Nat) (B : List Nat) (len : Nat)
    (_hreg : S_ISREG mode = true)
    (hok : (assoofs_create_fs_object p v dir name mode).ret = 0)
    (_hB : B.length ≤ p.ASSOOFS_DEFAULT_BLOCK_SIZE)
    (hlen : B.length ≤ len) :
    ∃ child fi,
      (assoofs_create_fs_object p v dir name mode).inode = some child ∧
      child.i_private = some fi ∧
      fi.mode = mode ∧ fi.file_size = 0 ∧
      (assoofs_write (assoofs_create_fs_object p v dir name mode).v fi B 0).ret = B.length ∧
      assoofs_read (assoofs_write (assoofs_create_fs_object p v dir name mode).v fi B 0).v
        (assoofs_write (assoofs_create_fs_object p v dir name mode).v fi B 0).inode_info len 0 =
        { ret := B.length, buf := B, ppos := B.length } ∧
      (assoofs_write (assoofs_create_fs_object p v dir name mode).v fi B 0).inode_info.file_size
        = B.length ∧
      assoofs_get_inode_info
        (assoofs_write (assoofs_create_fs_object p v dir name mode).v fi B 0).v fi.inode_no =
        some (assoofs_write (assoofs_create_fs_object p v dir name mode).v fi B 0).inode_info := by
  refine ⟨_, _, create_fs_object_inode p v dir name mode hok, rfl, rfl, rfl, rfl,
    read_after_write _ _ B len hlen, ?_, ?_⟩
  · rw [write_inode_info]
    simp
  · rw [write_inode_info]
    apply write_then_get
    refine ⟨v.sb.inodes_count, ?_, ?_⟩
    · rw [create_fs_object_inodes_count p v dir name mode hok]
      omega
    · rw [create_fs_object_store_inode_no p v dir name mode hok, if_pos rfl]

/-! ## Creations under one directory -/

theorem create_children_cons (p : Params) (v : Volume) (dir : assoofs_inode_info)
    (e : List Nat × Nat) (rest : List (List Nat × Nat)) :
    create_children p v dir (e :: rest) =
      { v := (create_children p (assoofs_create_fs_object p v dir e.1 e.2).v
          (assoofs_create_fs_object p v dir e.1 e.2).dir rest).v
        dir := (create_children p (assoofs_create_fs_object p v dir e.1 e.2).v
          (assoofs_create_fs_object p v dir e.1 e.2).dir rest).dir
        results := assoofs_create_fs_object p v dir e.1 e.2 ::
          (create_children p (assoofs_create_fs_object p v dir e.1 e.2).v
            (assoofs_create_fs_object p v dir e.1 e.2).dir rest).results } := rfl

theorem create_children_results_length (p : Params) :
    ∀ (es : List (List Nat × Nat)) (v : Volume) (dir : assoofs_inode_info),
      (create_children p v dir es).results.length = es.length := by
  intro es
  induction es with
  | nil => intro v dir; rfl
  | cons e rest ih =>
    intro v dir
    rw [create_children_cons]
    simp [ih]

/-- After a run in which every call returned 0: the directory's in-memory
record has gained one child per call, the inode count one record per call. -/
theorem create_children_dir_count (p : Params) :
    ∀ (es : List (List Nat × Nat)) (v : Volume) (dir : assoofs_inode_info),
      (∀ r ∈ (create_children p v dir es).results, r.ret = 0) →
      (create_children p v dir es).dir = { dir with file_size := dir.file_size + es.length } ∧
      (create_children p v dir es).v.sb.inodes_count = v.sb.inodes_count + es.length := by
  intro es
  induction es with
  | nil => intro v dir _; exact ⟨rfl, rfl⟩
  | cons e rest ih =>
    intro v dir hok
    rw [create_children_cons] at hok ⊢
    simp only [List.forall_mem_cons] at hok
    obtain ⟨h1, h2⟩ := ih _ _ hok.2
    rw [create_fs_object_dir p v dir e.1 e.2 hok.1] at h1
    rw [create_fs_object_inodes_count p v dir e.1 e.2 hok.1] at h2
    refine ⟨?_, ?_⟩
    · show (create_children p (assoofs_create_fs_object p v dir e.1 e.2).v
          (assoofs_create_fs_object p v dir e.1 e.2).dir rest).dir =
        { dir with file_size := dir.file_size + (rest.length + 1) }
      rw [create_fs_object_dir p v dir e.1 e.2 hok.1, h1]
      simp only [Nat.add_assoc, Nat.add_comm 1]
    · show (create_children p (assoofs_create_fs_object p v dir e.1 e.2).v
          (assoofs_create_fs_object p v dir e.1 e.2).dir rest).v.sb.inodes_count =
        v.sb.inodes_count + (rest.length + 1)
      rw [h2]
      omega

/-- The records of the directory's block after such a run, when every name
fits the `filename` array and every record lies inside the block: the slots
below the initial child count are untouched, the following slots hold the
children in the order of the calls. -/
theorem create_children_dir_block (p : Params) :
    ∀ (es : List (List Nat × Nat)) (v : Volume) (dir : assoofs_inode_info),
      (∀ r ∈ (create_children p v dir es).results, r.ret = 0) →
      (∀ e ∈ es, e.1.length + 1 ≤ p.ASSOOFS_FILENAME_MAXLEN) →
      dir.file_size + es.length ≤ p.ASSOOFS_DEFAULT_BLOCK_SIZE / p.sizeof_dir_record_entry →
      (∀ i, i < dir.file_size →
        (create_children p v dir es).v.dir_blocks dir.data_block_number i =
          v.dir_blocks dir.data_block_number i) ∧
      (∀ k e, es[k]? = some e →
        (create_children p v dir es).v.dir_blocks dir.data_block_number (dir.file_size + k) =
          { filename := e.1, inode_no := new_ino p (v.sb.inodes_count + k) }) := by
  intro es
  induction es with
  | nil =>
    intro v dir _ _ _
    refine ⟨fun i _ => rfl, ?_⟩
    intro k e h
    simp at h
  | cons e rest ih =>
    intro v dir hok hnames hcap
    rw [create_children_cons] at hok ⊢
    simp only [List.forall_mem_cons] at hok hnames
    simp only [List.length_cons] at hcap
    have hdir := create_fs_object_dir p v dir e.1 e.2 hok.1
    have hcnt := create_fs_object_inodes_count p v dir e.1 e.2 hok.1
    have hblk := create_fs_object_dir_blocks p v dir e.1 e.2 hok.1 hnames.1
      (by simp only [assoofs_inode_info.dir_children_count]; omega)
    have hfs : (assoofs_create_fs_object p v dir e.1 e.2).dir.file_size = dir.file_size + 1 := by
      rw [hdir]
    have hbn : (assoofs_create_fs_object p v dir e.1 e.2).dir.data_block_number =
        dir.data_block_number := by
      rw [hdir]
    obtain ⟨h1, h2⟩ := ih _ _ hok.2 hnames.2 (by rw [hfs]; omega)
    rw [hfs, hbn] at h1 h2
    rw [hcnt] at h2
    refine ⟨?_, ?_⟩
    · intro i hi
      simp only
      rw [h1 i (by omega), hblk, Function.update_same,
        Function.update_noteq (by simp only [assoofs_inode_info.dir_children_count]; omega)]
    · intro k e2 hk
      simp only
      cases k with
      | zero =>
        simp only [List.getElem?_cons_zero, Option.some.injEq] at hk
        subst hk
        rw [Nat.add_zero, h1 dir.file_size (by omega), hblk, Function.update_same]
        simp only [assoofs_inode_info.dir_children_count, Function.update_same, Nat.add_zero]
      | succ k =>
        simp only [List.getElem?_cons_succ] at hk
        have := h2 k e2 hk
        rw [show dir.file_size + (k + 1) = dir.file_size + 1 + k by omega,
          show v.sb.inodes_count + (k + 1) = v.sb.inodes_count + 1 + k by omega]
        exact this

/-- The inode numbers in the store after such a run: the slots below the
initial count keep theirs, each following slot holds the number given to the
object created into it. -/
theorem create_children_store (p : Params) :
    ∀ (es : List (List Nat × Nat)) (v : Volume) (dir : assoofs_inode_info),
      (∀ r ∈ (create_children p v dir es).results, r.ret = 0) →
      (∀ j, j < v.sb.inodes_count →
        ((create_children p v dir es).v.inode_store j).inode_no = (v.inode_store j).inode_no) ∧
      (∀ k, k < es.length →
        ((create_children p v dir es).v.inode_store (v.sb.inodes_count + k)).inode_no =
          new_ino p (v.sb.inodes_count + k)) := by
  intro es
  induction es with
  | nil =>
    intro v dir _
    exact ⟨fun j _ => rfl, fun k hk => absurd hk (by simp)⟩
  | cons e rest ih =>
    intro v dir hok
    rw [create_children_cons] at hok ⊢
    simp only [List.forall_mem_cons] at hok
    obtain ⟨h1, h2⟩ := ih _ _ hok.2
    have hcnt := create_fs_object_inodes_count p v dir e.1 e.2 hok.1
    have hst := create_fs_object_store_inode_no p v dir e.1 e.2 hok.1
    rw [hcnt] at h1 h2
    refine ⟨?_, ?_⟩
    · intro j hj
      simp only
      rw [h1 j (by omega), hst j, if_neg (by omega)]
    · intro k hk
      simp only
      cases k with
      | zero =>
        rw [Nat.add_zero, h1 _ (by omega), hst, if_pos rfl]
      | succ k =>
        have hk2 : k < rest.length := by simpa using hk
        have := h2 k hk2
        rw [show v.sb.inodes_count + (k + 1) = v.sb.inodes_count + 1 + k by omega]
        exact this

/-- The inode numbers handed out by such a run, call by call. -/
theorem create_children_inodes (p : Params) :
    ∀ (es : List (List Nat × Nat)) (v : Volume) (dir : assoofs_inode_info),
      (∀ r ∈ (create_children p v dir es).results, r.ret = 0) →
      ∀ k r, (create_children p v dir es).results[k]? = some r →
        r.inode.map (fun i => i.i_ino) = some (new_ino p (v.sb.inodes_count + k)) := by
  intro es
  induction es with
  | nil =>
    intro v dir _ k r h
    simp [create_children] at h
  | cons e rest ih =>
    intro v dir hok k r hr
    rw [create_children_cons] at hok hr
    simp only [List.forall_mem_cons] at hok
    have hcnt := create_fs_object_inodes_count p v dir e.1 e.2 hok.1
    cases k with
    | zero =>
      simp only [List.getElem?_cons_zero, Option.some.injEq] at hr
      subst hr
      rw [create_fs_object_inode p v dir e.1 e.2 hok.1]
      rfl
    | succ k =>
      simp only [List.getElem?_cons_succ] at hr
      have := ih _ _ hok.2 k r hr
      rw [hcnt] at this
      rw [show v.sb.inodes_count + (k + 1) = v.sb.inodes_count + 1 + k by omega]
      exact this

/-! ## Directory iteration -/

theorem iterate_loop_spec (p : Params) (record : Nat → assoofs_dir_record_entry) (n : Nat) :
    ∀ fuel i (ctx : dir_context), i + fuel = n →
      iterate_loop p record n fuel i ctx =
        { pos := ctx.pos + fuel * p.sizeof_dir_record_entry
          emitted := ctx.emitted ++ (List.range' i fuel).map (fun k =>
            { name := (record k).filename.take p.ASSOOFS_FILENAME_MAXLEN
              namlen := p.ASSOOFS_FILENAME_MAXLEN
              ino := (record k).inode_no, d_type := DT_UNKNOWN }) } := by
  intro fuel
  induction fuel with
  | zero =>
    intro i ctx _
    simp [iterate_loop]
  | succ f ih =>
    intro i ctx h
    simp only [iterate_loop]
    rw [if_pos (by omega), ih (i + 1) _ (by omega)]
    simp only [List.range'_succ, List.map_cons, List.append_assoc, List.singleton_append,
      dir_context.mk.injEq, and_true]
    rw [Nat.succ_mul]
    omega

/-- C5 (amended).  A directory with no children receives `K` children by `K`
calls of `assoofs_create_fs_object` that all return 0; every name has at most
`ASSOOFS_FILENAME_MAXLEN - 1` bytes and `K` is at most the number of records
one block holds.  `assoofs_iterate` on it, started at position 0, returns 0 and
emits exactly `K` entries, in the order of the calls: the `j`-th entry carries
the name passed to the `j`-th call and the inode number of the inode that call
created (which is the number
`inodes_count + ASSOOFS_START_INO - ASSOOFS_RESERVED_INODES + 1` computed from
the inode count before that call).  Started at a position other than 0 it
returns 0 and leaves the context, its list of emitted entries included, as it
was. -/
theorem iterate_after_creations (p : Params) (v : Volume) (dir : assoofs_inode_info)
    (es : List (List Nat × Nat))
    (hempty : dir.dir_children_count = 0)
    (hdir : S_ISDIR dir.mode = true)
    (hok : ∀ r ∈ (create_children p v dir es).results, r.ret = 0)
    (hnames : ∀ e ∈ es, e.1.length + 1 ≤ p.ASSOOFS_FILENAME_MAXLEN)
    (hcap : es.length ≤ p.ASSOOFS_DEFAULT_BLOCK_SIZE / p.sizeof_dir_record_entry) :
    (assoofs_iterate p (create_children p v dir es).v (create_children p v dir es).dir
      { pos := 0, emitted := [] }).1 = 0 ∧
    (assoofs_iterate p (create_children p v dir es).v (create_children p v dir es).dir
      { pos := 0, emitted := [] }).2.emitted.length = es.length ∧
    (assoofs_iterate p (create_children p v dir es).v (create_children p v dir es).dir
      { pos := 0, emitted := [] }).2.emitted.map (fun d => (d.name, some d.ino)) =
      List.zipWith (fun e r => (e.1, r.inode.map (fun i => i.i_ino))) es
        (create_children p v dir es).results ∧
    (∀ k d, (assoofs_iterate p (create_children p v dir es).v (create_children p v dir es).dir
        { pos := 0, emitted := [] }).2.emitted[k]? = some d →
      d.ino = new_ino p (v.sb.inodes_count + k) ∧
      d.namlen = p.ASSOOFS_FILENAME_MAXLEN) ∧
    (∀ ctx : dir_context, ctx.pos ≠ 0 →
      assoofs_iterate p (create_children p v dir es).v (create_children p v dir es).dir ctx =
        (0, ctx)) := by
  have hfs : dir.file_size = 0 := hempty
  obtain ⟨hd, _⟩ := create_children_dir_count p es v dir hok
  obtain ⟨_, hb⟩ := create_children_dir_block p es v dir hok hnames (by rw [hfs]; omega)
  have hino := create_children_inodes p es v dir hok
  have hlen := create_children_results_length p es v dir
  have htake : ∀ k (hk : k < es.length),
      (es[k]).1.take p.ASSOOFS_FILENAME_MAXLEN = (es[k]).1 := by
    intro k hk
    apply List.take_of_length_le
    have := hnames es[k] (List.getElem_mem hk)
    omega
  have hit : assoofs_iterate p (create_children p v dir es).v (create_children p v dir es).dir
      { pos := 0, emitted := [] } =
      (0, { pos := 0 + es.length * p.sizeof_dir_record_entry
            emitted := [] ++ (List.range' 0 es.length).map (fun k =>
              { name := ((create_children p v dir es).v.dir_blocks
                  dir.data_block_number k).filename.take p.ASSOOFS_FILENAME_MAXLEN
                namlen := p.ASSOOFS_FILENAME_MAXLEN
                ino := ((create_children p v dir es).v.dir_blocks dir.data_block_number k).inode_no
                d_type := DT_UNKNOWN }) }) := by
    unfold assoofs_iterate
    rw [if_neg (by simp), hd]
    simp only [hdir, Bool.not_true, Bool.false_eq_true, if_false,
      assoofs_inode_info.dir_children_count, hfs, Nat.zero_add]
    rw [iterate_loop_spec p _ es.length es.length 0 _ (by omega)]
    simp only [Nat.zero_add]
  have hentry : ∀ k e, es[k]? = some e →
      (create_children p v dir es).v.dir_blocks dir.data_block_number k =
        { filename := e.1, inode_no := new_ino p (v.sb.inodes_count + k) } := by
    intro k e hk
    have := hb k e hk
    rwa [hfs, Nat.zero_add] at this
  rw [hit]
  refine ⟨rfl, by simp, ?_, ?_, ?_⟩
  · apply List.ext_getElem?
    intro k
    simp only [List.nil_append, List.map_map, List.getElem?_map, List.getElem?_zipWith]
    by_cases hk : k < es.length
    · have hk2 : k < (create_children p v dir es).results.length := by omega
      rw [List.getElem?_range' 0 1 hk, List.getElem?_eq_getElem hk, List.getElem?_eq_getElem hk2]
      simp only [Option.map_some', Function.comp_apply, Nat.zero_add, Nat.one_mul]
      rw [hentry k es[k] (List.getElem?_eq_getElem hk),
        hino k _ (List.getElem?_eq_getElem hk2)]
      simp only [htake k hk]
    · have h1 : es[k]? = none := List.getElem?_eq_none (by omega)
      have h2 : (List.range' 0 es.length)[k]? = none :=
        List.getElem?_eq_none (by simp; omega)
      rw [h1, h2]
      rfl
  · intro k d hkd
    simp only [List.nil_append, List.getElem?_map] at hkd
    by_cases hk : k < es.length
    · rw [List.getElem?_range' 0 1 hk] at hkd
      simp only [Option.map_some', Nat.zero_add, Nat.one_mul, Option.some.injEq] at hkd
      subst hkd
      rw [hentry k es[k] (List.getElem?_eq_getElem hk)]
      exact ⟨rfl, rfl⟩
    · have h2 : (List.range' 0 es.length)[k]? = none :=
        List.getElem?_eq_none (by simp; omega)
      rw [h2] at hkd
      exact Option.noConfusion hkd
  · intro ctx hpos
    unfold assoofs_iterate
    rw [if_pos hpos]

/-! ## Directory lookup -/

theorem lookup_loop_first (v : Volume) (record : Nat → assoofs_dir_record_entry)
    (n : Nat) (name : List Nat) :
    ∀ fuel i j, n ≤ i + fuel → i ≤ j → j < n → (record j).filename = name →
      (∀ k, i ≤ k → k < j → (record k).filename ≠ name) →
      lookup_loop v record n name fuel i =
        match assoofs_get_inode v (int_of_u64 (record j).inode_no) with
        | some child => lookup_result.d_add child
        | none => lookup_result.fault := by
  intro fuel
  induction fuel with
  | zero => intro i j h1 h2 h3; omega
  | succ f ih =>
    intro i j h1 h2 h3 hj hlow
    simp only [lookup_loop]
    rw [if_pos (by omega)]
    by_cases hij : i = j
    · subst hij
      rw [if_pos hj]
    · rw [if_neg (hlow i (Nat.le_refl i) (by omega))]
      exact ih (i + 1) j (by omega) (by omega) h3 hj (fun k hk1 hk2 => hlow k (by omega) hk2)

theorem lookup_loop_none (v : Volume) (record : Nat → assoofs_dir_record_entry)
    (n : Nat) (name : List Nat) :
    ∀ fuel i, (∀ j, i ≤ j → j < n → (record j).filename ≠ name) →
      lookup_loop v record n name fuel i = lookup_result.no_entry := by
  intro fuel
  induction fuel with
  | zero => intro i _; rfl
  | succ f ih =>
    intro i h
    simp only [lookup_loop]
    by_cases hi : i < n
    · rw [if_pos hi, if_neg (h i (Nat.le_refl i) hi)]
      exact ih (i + 1) (fun j hj1 hj2 => h j (by omega) hj2)
    · rw [if_neg hi]

theorem get_inode_info_some_inode_no (v : Volume) (ino : Nat) (r : assoofs_inode_info)
    (h : assoofs_get_inode_info v ino = some r) : r.inode_no = ino := by
  by_cases hex : ∃ j, j < v.sb.inodes_count ∧ (v.inode_store j).inode_no = ino
  · obtain ⟨j, hj, hm, hlow⟩ := exists_first_match v.inode_store v.sb.inodes_count ino hex
    rw [get_inode_info_of_first v ino j hj hm hlow] at h
    rw [← Option.some.inj h]
    exact hm
  · have hnone := (get_inode_info_eq_none_iff v ino).2
      (fun j hj hm => hex ⟨j, hj, hm⟩)
    rw [hnone] at h
    exact Option.noConfusion h

/-- An inode number below `2^31` that some slot below `inodes_count` holds is
resolved by `assoofs_get_inode` to an inode carrying that number. -/
theorem get_inode_of_present (v : Volume) (ino : Nat) (hsmall : ino < 2 ^ 31)
    (h : ∃ j, j < v.sb.inodes_count ∧ (v.inode_store j).inode_no = ino) :
    ∃ child r, assoofs_get_inode v (int_of_u64 ino) = some child ∧ child.i_ino = ino ∧
      child.i_private = some r ∧ r.inode_no = ino := by
  unfold assoofs_get_inode
  rw [u64_of_int_of_u64 ino hsmall]
  cases hg : assoofs_get_inode_info v ino with
  | none =>
    obtain ⟨j, hj, hm⟩ := h
    exact absurd hm ((get_inode_info_eq_none_iff v ino).1 hg j hj)
  | some r =>
    exact ⟨_, r, rfl, rfl, rfl, get_inode_info_some_inode_no v ino r hg⟩

/-- C4 (amended).  Children with pairwise distinct names, none of which is
already the name of a record of the directory, are created under it by calls of
`assoofs_create_fs_object` that all return 0; every name has at most
`ASSOOFS_FILENAME_MAXLEN - 1` bytes, the directory's records stay inside its
block, and the inode numbers given to the children are below `2^31`.  Then
`assoofs_lookup` on the directory with the name of any of them binds the dentry
to an inode whose `i_ino`, and whose record's `inode_no`, is the number given
by the call that created that name.  And `assoofs_lookup` with a name that
none of the directory's first `dir_children_count` records carries binds
nothing. -/
theorem lookup_after_creations (p : Params) (v : Volume) (dir : assoofs_inode_info)
    (es : List (List Nat × Nat))
    (hok : ∀ r ∈ (create_children p v dir es).results, r.ret = 0)
    (hnodup : (es.map Prod.fst).Nodup)
    (hfresh : ∀ i, i < dir.dir_children_count →
      (v.dir_blocks dir.data_block_number i).filename ∉ es.map Prod.fst)
    (hsmall : ∀ k, k < es.length → new_ino p (v.sb.inodes_count + k) < 2 ^ 31)
    (hnames : ∀ e ∈ es, e.1.length + 1 ≤ p.ASSOOFS_FILENAME_MAXLEN)
    (hcap : dir.dir_children_count + es.length ≤
      p.ASSOOFS_DEFAULT_BLOCK_SIZE / p.sizeof_dir_record_entry) :
    (∀ (k : Nat) (e : List Nat × Nat) (r : create_result),
      es[k]? = some e → (create_children p v dir es).results[k]? = some r →
      ∃ child info,
        assoofs_lookup (create_children p v dir es).v (create_children p v dir es).dir e.1 =
          lookup_result.d_add child ∧
        r.inode.map (fun i => i.i_ino) = some child.i_ino ∧
        child.i_private = some info ∧ info.inode_no = child.i_ino) ∧
    (∀ z, (∀ i, i < (create_children p v dir es).dir.dir_children_count →
        ((create_children p v dir es).v.dir_blocks
          (create_children p v dir es).dir.data_block_number i).filename ≠ z) →
      assoofs_lookup (create_children p v dir es).v (create_children p v dir es).dir z =
        lookup_result.no_entry) := by
  constructor
  · intro k e r hk hr
    obtain ⟨hd, hcnt⟩ := create_children_dir_count p es v dir hok
    obtain ⟨hbelow, hb⟩ := create_children_dir_block p es v dir hok hnames hcap
    obtain ⟨_, hst⟩ := create_children_store p es v dir hok
    have hino := create_children_inodes p es v dir hok k r hr
    obtain ⟨hklt, hke⟩ := List.getElem?_eq_some_iff.1 hk
    have hmem : e.1 ∈ es.map Prod.fst := List.mem_map.2 ⟨e, List.getElem?_mem hk, rfl⟩
    -- the inode number is present in the store
    obtain ⟨child, info, hgi, hci, hcp, hin⟩ := get_inode_of_present (create_children p v dir es).v
      (new_ino p (v.sb.inodes_count + k)) (hsmall k hklt)
      ⟨v.sb.inodes_count + k, by rw [hcnt]; omega, hst k hklt⟩
    refine ⟨child, info, ?_, by rw [hino, hci], hcp, by rw [hin, hci]⟩
    unfold assoofs_lookup
    rw [hd]
    simp only [assoofs_inode_info.dir_children_count]
    rw [lookup_loop_first _ _ _ e.1 _ 0 (dir.file_size + k) (by omega) (Nat.zero_le _) (by omega)
      (by rw [hb k e hk]) ?_]
    · rw [hb k e hk]
      simp only
      rw [hgi]
    · intro i _ hi
      by_cases hic : i < dir.file_size
      · rw [hbelow i hic]
        intro heq
        exact hfresh i hic (heq ▸ hmem)
      · have hi2 : i - dir.file_size < es.length := by omega
        have hget : es[i - dir.file_size]? = some es[i - dir.file_size] :=
          List.getElem?_eq_getElem hi2
        have hrec := hb (i - dir.file_size) _ hget
        rw [show dir.file_size + (i - dir.file_size) = i by omega] at hrec
        rw [hrec]
        simp only
        intro heq
        have hne : i - dir.file_size ≠ k := by omega
        have h1 : (es.map Prod.fst)[i - dir.file_size]? = some (es[i - dir.file_size]).1 := by
          rw [List.getElem?_map, hget]; rfl
        have h2 : (es.map Prod.fst)[k]? = some e.1 := by
          rw [List.getElem?_map, hk]; rfl
        have hlt1 : i - dir.file_size < (es.map Prod.fst).length := by simpa using hi2
        have hlt2 : k < (es.map Prod.fst).length := by simpa using hklt
        have := (@List.Nodup.getElem_inj_iff _ _ hnodup _ hlt1 _ hlt2).1 (by
          rw [List.getElem_map, List.getElem_map, hke]
          exact heq)
        exact hne this
  · intro z hz
    unfold assoofs_lookup
    exact lookup_loop_none _ _ _ _ _ 0 (fun j _ hj => hz j hj)

set_option maxRecDepth 8000 in
/-- C4 (counterexample).  Three runs of creations that all return 0 after
which `assoofs_lookup` does not resolve a created name to its inode.  (1) The
formatter left a file `b`, inode 10, in the root; `a`, `b`, `c` are created
under the root and the new `b` is given inode 12, but `assoofs_lookup` of `b`
stops at the older record and binds inode 10.  (2) With inode numbers starting
at `2^31` the file `a` is given inode `2^31`; `assoofs_get_inode` takes the
number as an `int`, finds no record and `assoofs_lookup` dereferences the null
result.  (3) A file with a name of 256 bytes is given inode 10; `strcpy` puts
the terminating zero on the first byte of `inode_no`, the record holds number
0, and `assoofs_lookup` of that name finds no record of inode 0. -/
theorem lookup_misses_created_inode :
    ((abc.map Prod.fst).Nodup ∧
      (create_children header8 stocked_volume stocked_root abc).results.map (fun r => r.ret)
        = [0, 0, 0] ∧
      (create_children header8 stocked_volume stocked_root abc).results.map
        (fun r => r.inode.map (fun i => i.i_ino)) = [some 11, some 12, some 13] ∧
      assoofs_lookup (create_children header8 stocked_volume stocked_root abc).v
        (create_children header8 stocked_volume stocked_root abc).dir [98] =
        lookup_result.d_add
          { i_ino := 10, i_fop := some file_ops.assoofs_file_operations
            i_private := some { mode := S_IFREG, inode_no := 10, data_block_number := 3,
                                file_size := 0 } }) ∧
    ((create_children header8_far (formatted_volume 1 248) root_record
        [([97], S_IFREG)]).results.map (fun r => (r.ret, r.inode.map (fun i => i.i_ino)))
        = [(0, some (2 ^ 31))] ∧
      assoofs_lookup
        (create_children header8_far (formatted_volume 1 248) root_record [([97], S_IFREG)]).v
        (create_children header8_far (formatted_volume 1 248) root_record [([97], S_IFREG)]).dir
        [97] = lookup_result.fault) ∧
    (name256.length = header8.ASSOOFS_FILENAME_MAXLEN + 1 ∧
      (create_children header8 (formatted_volume 1 248) root_record
        [(name256, S_IFREG)]).results.map (fun r => (r.ret, r.inode.map (fun i => i.i_ino)))
        = [(0, some 10)] ∧
      ((create_children header8 (formatted_volume 1 248) root_record
        [(name256, S_IFREG)]).v.dir_blocks 2 0).inode_no = 0 ∧
      assoofs_lookup
        (create_children header8 (formatted_volume 1 248) root_record [(name256, S_IFREG)]).v
        (create_children header8 (formatted_volume 1 248) root_record [(name256, S_IFREG)]).dir
        name256 = lookup_result.fault) := by
  decide

/-- C4 (witness): `a`, `b`, `c` created under the empty root of a formatted
volume; `b` resolves to inode 11, the number its creation handed out. -/
theorem lookup_after_creations_witness :
    (∀ r ∈ (create_children header8 (formatted_volume 1 248) root_record abc).results,
      r.ret = 0) ∧
    (abc.map Prod.fst).Nodup ∧
    (create_children header8 (formatted_volume 1 248) root_record abc).results.map
      (fun r => r.inode.map (fun i => i.i_ino)) = [some 10, some 11, some 12] ∧
    ∃ child info,
      assoofs_lookup (create_children header8 (formatted_volume 1 248) root_record abc).v
        (create_children header8 (formatted_volume 1 248) root_record abc).dir [98] =
        lookup_result.d_add child ∧
      child.i_ino = 11 ∧ child.i_private = some info ∧ info.inode_no = 11 := by
  obtain ⟨child, info, h1, h2, h3, h4⟩ :=
    (lookup_after_creations header8 (formatted_volume 1 248) root_record abc
      (by decide) (by decide) (by decide) (by decide) (by decide) (by decide)).1 1
      ([98], S_IFREG) _ rfl rfl
  have h5 : child.i_ino = 11 := by
    have h6 : some (11 : Nat) = some child.i_ino := h2
    exact (Option.some.inj h6).symm
  exact ⟨by decide, by decide, by decide, child, info, h1, h5, h3, by rw [h4, h5]⟩

set_option maxRecDepth 8000 in
/-- C5 (counterexample).  One file, with a name of 256 bytes, is created under
the empty root of a formatted volume: the call returns 0 and the file has
inode number 10.  The terminating zero of the name falls on the first byte of
`inode_no` in the directory record, so `assoofs_iterate` emits one entry that
carries inode number 0, not 10, and the first 255 bytes of the name. -/
theorem iterate_emits_overwritten_number :
    root_record.dir_children_count = 0 ∧ S_ISDIR root_record.mode = true ∧
    name256.length = header8.ASSOOFS_FILENAME_MAXLEN + 1 ∧
    (create_children header8 (formatted_volume 1 248) root_record
      [(name256, S_IFREG)]).results.map (fun r => (r.ret, r.inode.map (fun i => i.i_ino)))
      = [(0, some 10)] ∧
    (assoofs_iterate header8
      (create_children header8 (formatted_volume 1 248) root_record [(name256, S_IFREG)]).v
      (create_children header8 (formatted_volume 1 248) root_record [(name256, S_IFREG)]).dir
      { pos := 0, emitted := [] }).2.emitted.map (fun d => (d.name.length, d.ino)) =
      [(255, 0)] := by
  decide

/-- C5 (witness): `a`, `b`, `c` created under the empty root of a formatted
volume are listed in that order with inode numbers 10, 11, 12. -/
theorem iterate_after_creations_witness :
    root_record.dir_children_count = 0 ∧ S_ISDIR root_record.mode = true ∧
    (∀ r ∈ (create_children header8 (formatted_volume 1 248) root_record abc).results,
      r.ret = 0) ∧
    (assoofs_iterate header8 (create_children header8 (formatted_volume 1 248) root_record abc).v
      (create_children header8 (formatted_volume 1 248) root_record abc).dir
      { pos := 0, emitted := [] }).2.emitted.length = 3 ∧
    (assoofs_iterate header8 (create_children header8 (formatted_volume 1 248) root_record abc).v
      (create_children header8 (formatted_volume 1 248) root_record abc).dir
      { pos := 0, emitted := [] }).2.emitted.map (fun d => (d.name, some d.ino)) =
      [([97], some 10), ([98], some 11), ([99], some 12)] :=
  ⟨by decide, by decide, by decide,
   (iterate_after_creations header8 (formatted_volume 1 248) root_record abc
      (by decide) (by decide) (by decide) (by decide) (by decide)).2.1,
   (iterate_after_creations header8 (formatted_volume 1 248) root_record abc
      (by decide) (by decide) (by decide) (by decide) (by decide)).2.2.1.trans (by decide)⟩

/-- C3 (witness): the two bytes `hi` written to a new file `a` and read back
with a length of 4. -/
theorem write_read_round_trip_witness :
    S_ISREG S_IFREG = true ∧ created_file.ret = 0 ∧
    ∃ child fi,
      created_file.inode = some child ∧ child.i_private = some fi ∧
      fi.mode = S_IFREG ∧ fi.file_size = 0 ∧
      (assoofs_write created_file.v fi [104, 105] 0).ret = 2 ∧
      assoofs_read (assoofs_write created_file.v fi [104, 105] 0).v
        (assoofs_write created_file.v fi [104, 105] 0).inode_info 4 0 =
        { ret := 2, buf := [104, 105], ppos := 2 } ∧
      (assoofs_write created_file.v fi [104, 105] 0).inode_info.file_size = 2 ∧
      assoofs_get_inode_info (assoofs_write created_file.v fi [104, 105] 0).v fi.inode_no =
        some (assoofs_write created_file.v fi [104, 105] 0).inode_info :=
  ⟨by decide, by decide,
   write_read_round_trip header8 (formatted_volume 1 248) root_record [97] S_IFREG [104, 105] 4
     (by decide) (by decide) (by decide) (by decide)⟩

/-! ## Saving a record -/

/-- C11 (the code at the failing input).  One live record (inode 1), and in
slot 1, which is slot `inodes_count`, an old record of inode 10.
`assoofs_get_inode_info` finds no inode 10 among the live slots, yet
`assoofs_search_inode_info` answers slot 1 and `assoofs_save_inode_info`
returns 0 and overwrites that slot: the loop of the search stops at
`count = inodes_count` and the record there is still compared. -/
theorem save_inode_info_past_the_end :
    stale_volume.sb.inodes_count = 1 ∧
    assoofs_get_inode_info stale_volume 10 = none ∧
    assoofs_search_inode_info stale_volume record_10 = some 1 ∧
    (assoofs_save_inode_info stale_volume record_10).ret = 0 ∧
    (assoofs_save_inode_info stale_volume record_10).v.inode_store 1 = record_10 ∧
    (assoofs_save_inode_info stale_volume record_10).v.inode_store 1 ≠
      stale_volume.inode_store 1 := by
  decide

/-- The search ends at a slot that is at most `inodes_count`. -/
theorem search_inode_info_loop_le (store : Nat → assoofs_inode_info) (n ino : Nat) :
    ∀ fuel count, count ≤ n → search_inode_info_loop store n ino fuel count ≤ n := by
  intro fuel
  induction fuel with
  | zero => intro c h; exact h
  | succ f ih =>
    intro c h
    simp only [search_inode_info_loop]
    split
    · rename_i hc
      exact ih (c + 1) (by omega)
    · exact h

/-- What the search does: it fails exactly when no slot up to and including
slot `inodes_count` holds the number looked for. -/
theorem search_inode_info_eq_none_iff (v : Volume) (r : assoofs_inode_info) :
    assoofs_search_inode_info v r = none ↔
      ∀ j, j ≤ v.sb.inodes_count → (v.inode_store j).inode_no ≠ r.inode_no := by
  constructor
  · intro hnone j hj hm
    have hex : ∃ j, j < v.sb.inodes_count + 1 ∧ (v.inode_store j).inode_no = r.inode_no :=
      ⟨j, by omega, hm⟩
    obtain ⟨j0, h1, h2, h3⟩ := exists_first_match v.inode_store _ r.inode_no hex
    rw [search_inode_info_of_first v r j0 (by omega) h2 h3] at hnone
    exact Option.noConfusion hnone
  · intro h
    unfold assoofs_search_inode_info
    simp only
    rw [if_neg]
    exact h _ (search_inode_info_loop_le _ _ _ _ 0 (Nat.zero_le _))

theorem save_inode_info_fails_iff (v : Volume) (r : assoofs_inode_info) :
    (assoofs_save_inode_info v r).ret = - EIO ↔
      ∀ j, j ≤ v.sb.inodes_count → (v.inode_store j).inode_no ≠ r.inode_no := by
  rw [← search_inode_info_eq_none_iff]
  unfold assoofs_save_inode_info
  cases h : assoofs_search_inode_info v r with
  | none => simp
  | some k =>
    simp only
    constructor
    · intro h0
      have h1 : (0 : Int) = - EIO := h0
      exact absurd h1 (by decide)
    · intro h0
      exact Option.noConfusion h0

/-- C12.  Some slot below `inodes_count` holds the record's inode number; let
`j` be the lowest such slot.  Then `assoofs_save_inode_info` returns 0, slot `j`
afterwards equals the record passed in, every other slot of the inode store,
the superblock and all blocks are unchanged, and `assoofs_get_inode_info` with
the record's inode number then returns a record equal to the one saved. -/
theorem save_inode_info_in_place (v : Volume) (r : assoofs_inode_info)
    (h : ∃ j, j < v.sb.inodes_count ∧ (v.inode_store j).inode_no = r.inode_no) :
    ∃ j, j < v.sb.inodes_count ∧ (v.inode_store j).inode_no = r.inode_no ∧
      (∀ k, k < j → (v.inode_store k).inode_no ≠ r.inode_no) ∧
      assoofs_search_inode_info v r = some j ∧
      (assoofs_save_inode_info v r).ret = 0 ∧
      (assoofs_save_inode_info v r).v.inode_store j = r ∧
      (∀ i, i ≠ j → (assoofs_save_inode_info v r).v.inode_store i = v.inode_store i) ∧
      (assoofs_save_inode_info v r).v.sb = v.sb ∧
      (assoofs_save_inode_info v r).v.dir_blocks = v.dir_blocks ∧
      (assoofs_save_inode_info v r).v.data_blocks = v.data_blocks ∧
      assoofs_get_inode_info (assoofs_save_inode_info v r).v r.inode_no = some r := by
  obtain ⟨j, hj, hm, hlow⟩ := exists_first_match v.inode_store v.sb.inodes_count r.inode_no h
  have hsave := save_inode_info_of_first v r j (by omega) hm hlow
  refine ⟨j, hj, hm, hlow, search_inode_info_of_first v r j (by omega) hm hlow, ?_, ?_, ?_,
    save_inode_info_sb v r, save_inode_info_dir_blocks v r, save_inode_info_data_blocks v r,
    (save_then_get v r h).2⟩
  · rw [hsave]
  · rw [hsave]
    simp only [Function.update_same]
  · intro i hi
    rw [hsave]
    simp only
    rw [Function.update_noteq hi]

/-- C12 (witness): the root's record saved with three children. -/
theorem save_inode_info_in_place_witness :
    ∃ j, j < (formatted_volume 1 248).sb.inodes_count ∧
      assoofs_search_inode_info (formatted_volume 1 248) { root_record with file_size := 3 }
        = some j ∧
      (assoofs_save_inode_info (formatted_volume 1 248) { root_record with file_size := 3 }).ret
        = 0 ∧
      assoofs_get_inode_info
        (assoofs_save_inode_info (formatted_volume 1 248) { root_record with file_size := 3 }).v
        1 = some { root_record with file_size := 3 } := by
  obtain ⟨j, h1, _, _, h4, h5, _, _, _, _, _, h11⟩ :=
    save_inode_info_in_place (formatted_volume 1 248) { root_record with file_size := 3 }
      ⟨0, by decide, by decide⟩
  exact ⟨j, h1, h4, h5, h11⟩

/-! ## File data: read and write -/

/-- C13.  When the position is at or past `file_size`, `assoofs_read` returns
0, copies nothing and leaves the position as it is.  Otherwise it returns
`min(file_size, len)`, copies that many bytes, which are the bytes of the
inode's data block from byte 0 on (the position does not enter), and advances
the position by that count. -/
theorem read_clamping (v : Volume) (inode_info : assoofs_inode_info) (len ppos : Nat) :
    (inode_info.file_size ≤ ppos →
      assoofs_read v inode_info len ppos = { ret := 0, buf := [], ppos := ppos }) ∧
    (ppos < inode_info.file_size →
      (assoofs_read v inode_info len ppos).ret = min inode_info.file_size len ∧
      (assoofs_read v inode_info len ppos).buf.length = min inode_info.file_size len ∧
      (∀ k, k < min inode_info.file_size len →
        (assoofs_read v inode_info len ppos).buf[k]? =
          some (v.data_blocks inode_info.data_block_number k)) ∧
      (assoofs_read v inode_info len ppos).ppos = ppos + min inode_info.file_size len) := by
  constructor
  · intro h
    unfold assoofs_read
    rw [if_pos h]
  · intro h
    unfold assoofs_read
    rw [if_neg (by omega)]
    refine ⟨rfl, by simp, ?_, rfl⟩
    intro k hk
    simp only [List.getElem?_map]
    rw [List.getElem?_range hk]
    rfl

/-- C13 (witness): a file of 7 bytes read with length 4 at position 2, and at
position 7. -/
theorem read_clamping_witness :
    assoofs_read counting_volume record_10 4 7 = { ret := 0, buf := [], ppos := 7 } ∧
    (assoofs_read counting_volume record_10 4 2).ret = 4 ∧
    (assoofs_read counting_volume record_10 4 2).buf = [1, 2, 3, 4] ∧
    (assoofs_read counting_volume record_10 4 2).ppos = 2 + min 7 4 :=
  ⟨(read_clamping counting_volume record_10 4 7).1 (by decide),
   ((read_clamping counting_volume record_10 4 2).2 (by decide)).1,
   by decide,
   ((read_clamping counting_volume record_10 4 2).2 (by decide)).2.2.2⟩

/-- C14.  The record's inode number is held by a slot below `inodes_count`.
For every position and buffer that stay within one block, `assoofs_write`
returns the length of the buffer; afterwards the bytes of the inode's data
block from the position on are those of the buffer, every other byte of that
block and every other block is as before, the in-memory record has
`file_size = position + length` and is otherwise unchanged, the position has
moved to that value, and `assoofs_get_inode_info` returns that record, so the
new `file_size`. -/
theorem write_postcondition (p : Params) (v : Volume) (inode_info : assoofs_inode_info)
    (buf : List Nat) (ppos : Nat)
    (hpresent : ∃ j, j < v.sb.inodes_count ∧ (v.inode_store j).inode_no = inode_info.inode_no)
    (_hblock : ppos + buf.length ≤ p.ASSOOFS_DEFAULT_BLOCK_SIZE) :
    (assoofs_write v inode_info buf ppos).ret = buf.length ∧
    (∀ k, k < buf.length →
      some ((assoofs_write v inode_info buf ppos).v.data_blocks inode_info.data_block_number
        (ppos + k)) = buf[k]?) ∧
    (∀ k, (k < ppos ∨ ppos + buf.length ≤ k) →
      (assoofs_write v inode_info buf ppos).v.data_blocks inode_info.data_block_number k =
        v.data_blocks inode_info.data_block_number k) ∧
    (∀ b, b ≠ inode_info.data_block_number →
      (assoofs_write v inode_info buf ppos).v.data_blocks b = v.data_blocks b) ∧
    (assoofs_write v inode_info buf ppos).inode_info =
      { inode_info with file_size := ppos + buf.length } ∧
    (assoofs_write v inode_info buf ppos).ppos = ppos + buf.length ∧
    (assoofs_write v inode_info buf ppos).v.sb = v.sb ∧
    assoofs_get_inode_info (assoofs_write v inode_info buf ppos).v inode_info.inode_no =
      some { inode_info with file_size := ppos + buf.length } := by
  refine ⟨rfl, ?_, ?_, ?_, rfl, rfl, ?_, write_then_get v inode_info buf ppos hpresent⟩
  · intro k hk
    rw [write_data_blocks, Function.update_same]
    rw [if_pos ⟨by omega, by omega⟩, Nat.add_sub_cancel_left,
      List.getD_eq_getElem?_getD, List.getElem?_eq_getElem hk]
    rfl
  · intro k hk
    rw [write_data_blocks, Function.update_same]
    rw [if_neg (by omega)]
  · intro b hb
    rw [write_data_blocks, Function.update_noteq hb]
  · unfold assoofs_write
    simp only [save_inode_info_sb]

/-- C14 (witness): two bytes written at position 5 of the root's block. -/
theorem write_postcondition_witness :
    (assoofs_write (formatted_volume 1 248) root_record [104, 105] 5).ret = 2 ∧
    (assoofs_write (formatted_volume 1 248) root_record [104, 105] 5).inode_info.file_size = 7 ∧
    assoofs_get_inode_info (assoofs_write (formatted_volume 1 248) root_record [104, 105] 5).v 1 =
      some { root_record with file_size := 7 } :=
  ⟨(write_postcondition header8 (formatted_volume 1 248) root_record [104, 105] 5
      ⟨0, by decide, by decide⟩ (by decide)).1,
   by decide,
   (write_postcondition header8 (formatted_volume 1 248) root_record [104, 105] 5
      ⟨0, by decide, by decide⟩ (by decide)).2.2.2.2.2.2.2⟩

/-! ## The directory record of a new object -/

theorem search_inode_info_congr (v v2 : Volume) (r r2 : assoofs_inode_info)
    (hs : v2.inode_store = v.inode_store) (hc : v2.sb.inodes_count = v.sb.inodes_count)
    (hr : r2.inode_no = r.inode_no) :
    assoofs_search_inode_info v2 r2 = assoofs_search_inode_info v r := by
  unfold assoofs_search_inode_info
  rw [hs, hc, hr]

theorem save_inode_info_ret_congr (v v2 : Volume) (r r2 : assoofs_inode_info)
    (hs : v2.inode_store = v.inode_store) (hc : v2.sb.inodes_count = v.sb.inodes_count)
    (hr : r2.inode_no = r.inode_no) :
    (assoofs_save_inode_info v2 r2).ret = (assoofs_save_inode_info v r).ret := by
  unfold assoofs_save_inode_info
  rw [search_inode_info_congr v v2 r r2 hs hc hr]
  cases assoofs_search_inode_info v r <;> rfl

theorem create_fs_object_finish_ret (p : Params) (v : Volume) (dir : assoofs_inode_info) (name : List Nat)
    (fi : assoofs_inode_info) :
    (create_fs_object_finish p v dir name fi).ret =
      (assoofs_save_inode_info (assoofs_add_inode_info v fi) dir).ret := by
  have hcg : (assoofs_save_inode_info (dir_append_record p (assoofs_add_inode_info v fi) dir name
      fi.inode_no) { dir with file_size := dir.file_size + 1 }).ret =
      (assoofs_save_inode_info (assoofs_add_inode_info v fi) dir).ret :=
    save_inode_info_ret_congr _ _ _ _ (dir_append_record_inode_store _ _ _ _ _)
      (by rw [dir_append_record_sb]) rfl
  unfold create_fs_object_finish
  simp only
  split
  · exact hcg
  · rename_i h
    rw [← hcg]
    exact (not_not.1 h).symm

/-- The return value of `assoofs_create_fs_object` depends on the parent's
record through its inode number only, and not on the name. -/
theorem create_fs_object_ret_congr (p : Params) (v : Volume) (dir dir2 : assoofs_inode_info)
    (name name2 : List Nat) (mode : Nat) (hino : dir2.inode_no = dir.inode_no) :
    (assoofs_create_fs_object p v dir2 name2 mode).ret =
      (assoofs_create_fs_object p v dir name mode).ret := by
  by_cases hfull : p.ASSOOFS_MAX_FILESYSTEM_OBJECTS_SUPPORTED ≤ v.sb.inodes_count
  · rw [create_fs_object_full p v dir name mode hfull,
      create_fs_object_full p v dir2 name2 mode hfull]
  · have hlt : v.sb.inodes_count < p.ASSOOFS_MAX_FILESYSTEM_OBJECTS_SUPPORTED := by omega
    by_cases hmode : S_ISDIR mode = true ∨ S_ISREG mode = true
    · by_cases hi : freeblock_index p v.sb.free_blocks =
          p.ASSOOFS_MAX_FILESYSTEM_OBJECTS_SUPPORTED
      · rw [create_fs_object_no_block p v dir name mode hlt hmode hi,
          create_fs_object_no_block p v dir2 name2 mode hlt hmode hi]
      · rw [create_fs_object_block p v dir name mode hlt hmode hi,
          create_fs_object_block p v dir2 name2 mode hlt hmode hi,
          create_fs_object_finish_ret, create_fs_object_finish_ret]
        exact save_inode_info_ret_congr _ _ _ _ rfl rfl hino
    · have hd : S_ISDIR mode = false := by
        cases h : S_ISDIR mode
        · rfl
        · exact absurd (Or.inl h) hmode
      have hr : S_ISREG mode = false := by
        cases h : S_ISREG mode
        · rfl
        · exact absurd (Or.inr h) hmode
      rw [create_fs_object_bad_mode p v dir name mode hlt hd hr,
        create_fs_object_bad_mode p v dir2 name2 mode hlt hd hr]

/-- C15 (amended).  `assoofs_create_fs_object` tests neither the length of
the name nor the parent's `dir_children_count`: the value it returns is the
same for every name and every child count, so there is no failure for a long
name or a full directory.  A call that returns 0, made with a name of at most
`ASSOOFS_FILENAME_MAXLEN - 1` bytes and a child count below the number of
records a block holds, has written the record (name, new inode number) into
slot `dir_children_count` of the parent's block and raised the in-memory
`dir_children_count` by one. -/
theorem create_fs_object_insert_unchecked (p : Params) (v : Volume) (dir : assoofs_inode_info)
    (name : List Nat) (mode : Nat) :
    (∀ (name2 : List Nat) (count2 : Nat),
      (assoofs_create_fs_object p v { dir with file_size := count2 } name2 mode).ret =
        (assoofs_create_fs_object p v dir name mode).ret) ∧
    ((assoofs_create_fs_object p v dir name mode).ret = 0 →
      name.length + 1 ≤ p.ASSOOFS_FILENAME_MAXLEN →
      dir.dir_children_count <
        p.ASSOOFS_DEFAULT_BLOCK_SIZE / p.sizeof_dir_record_entry →
      (assoofs_create_fs_object p v dir name mode).v.dir_blocks dir.data_block_number
          dir.dir_children_count =
        { filename := name, inode_no := new_ino p v.sb.inodes_count } ∧
      (assoofs_create_fs_object p v dir name mode).dir.dir_children_count =
        dir.dir_children_count + 1) := by
  constructor
  · intro name2 count2
    exact create_fs_object_ret_congr p v dir _ name name2 mode rfl
  · intro hok hname hslot
    rw [create_fs_object_dir_blocks p v dir name mode hok hname hslot,
      create_fs_object_dir p v dir name mode hok]
    simp only [Function.update_same]
    exact ⟨trivial, rfl⟩

set_option maxRecDepth 8000 in
/-- C15 (counterexample).  Under `header8` a name may have 254 bytes and a
block holds 15 records.  A call with a name of 255 bytes returns 0 and the
name is in slot 0 of the root's block; a call under a root that already counts
15 children returns 0 and the count becomes 16.  Neither call fails. -/
theorem create_fs_object_long_name_full_dir :
    header8.ASSOOFS_FILENAME_MAXLEN - 1 < long_name.length ∧
    (assoofs_create_fs_object header8 (formatted_volume 1 248) root_record long_name
      S_IFREG).ret = 0 ∧
    ((assoofs_create_fs_object header8 (formatted_volume 1 248) root_record long_name
      S_IFREG).v.dir_blocks 2 0).filename = long_name ∧
    header8.ASSOOFS_DEFAULT_BLOCK_SIZE / header8.sizeof_dir_record_entry = 15 ∧
    (assoofs_create_fs_object header8 (formatted_volume 1 248)
      { root_record with file_size := 15 } [97] S_IFREG).ret = 0 ∧
    (assoofs_create_fs_object header8 (formatted_volume 1 248)
      { root_record with file_size := 15 } [97] S_IFREG).dir.dir_children_count = 16 := by
  decide

/-- C15 (witness): the file `a` created under the empty root; the same call
with the long name under a root of 15 children returns the same value. -/
theorem create_fs_object_insert_unchecked_witness :
    (assoofs_create_fs_object header8 (formatted_volume 1 248)
      { root_record with file_size := 15 } long_name S_IFREG).ret =
      (assoofs_create_fs_object header8 (formatted_volume 1 248) root_record [97] S_IFREG).ret ∧
    (assoofs_create_fs_object header8 (formatted_volume 1 248) root_record [97] S_IFREG).ret
      = 0 ∧
    (assoofs_create_fs_object header8 (formatted_volume 1 248) root_record [97]
      S_IFREG).v.dir_blocks 2 0 = { filename := [97], inode_no := 10 } :=
  ⟨(create_fs_object_insert_unchecked header8 (formatted_volume 1 248) root_record [97]
      S_IFREG).1 long_name 15,
   by decide,
   ((create_fs_object_insert_unchecked header8 (formatted_volume 1 248) root_record [97]
      S_IFREG).2 (by decide) (by decide) (by decide)).1⟩

/-! ## Postcondition of a creation -/

theorem create_fs_object_finish_of_parent (p : Params) (v : Volume) (dir : assoofs_inode_info)
    (name : List Nat) (fi : assoofs_inode_info) (j : Nat)
    (hj : j < v.sb.inodes_count) (hm : (v.inode_store j).inode_no = dir.inode_no)
    (hlow : ∀ k, k < j → (v.inode_store k).inode_no ≠ dir.inode_no) :
    (create_fs_object_finish p v dir name fi).ret = 0 ∧
    (create_fs_object_finish p v dir name fi).v.inode_store =
      Function.update (Function.update v.inode_store v.sb.inodes_count fi) j
        { dir with file_size := dir.file_size + 1 } := by
  have hsave := save_inode_info_of_first
    (dir_append_record p (assoofs_add_inode_info v fi) dir name fi.inode_no)
    { dir with file_size := dir.file_size + 1 } j
    (by rw [dir_append_record_sb]; simp only [assoofs_add_inode_info]; omega)
    (by
      rw [dir_append_record_inode_store]
      simp only [assoofs_add_inode_info]
      rw [Function.update_noteq (by omega)]
      exact hm)
    (by
      intro k hk
      rw [dir_append_record_inode_store]
      simp only [assoofs_add_inode_info]
      rw [Function.update_noteq (by omega)]
      exact hlow k hk)
  constructor
  · rw [create_fs_object_finish_ret]
    have := (save_inode_info_ret_congr
      (dir_append_record p (assoofs_add_inode_info v fi) dir name fi.inode_no)
      (assoofs_add_inode_info v fi) { dir with file_size := dir.file_size + 1 } dir
      (dir_append_record_inode_store _ _ _ _ _).symm (by rw [dir_append_record_sb]) rfl)
    rw [this, hsave]
  · rw [create_fs_object_finish_v, hsave, dir_append_record_inode_store]
    rfl

/-- C16 (amended).  The call returns 0 and the parent has a slot in the
inode store: its inode number is held by a slot below `n = inodes_count`; let
`j` be the lowest such slot.  Then `n < MAX`, the mode is valid, and after the
call: slot `n` of the inode store holds the record with the requested mode, the
new inode number, the block the allocator stored in `*block` and
`file_size = dir_children_count = 0`; `inodes_count = n + 1`; when the name has
at most `ASSOOFS_FILENAME_MAXLEN - 1` bytes and the slot lies inside the block,
slot `dir_children_count` of the parent's block holds (name, new inode number);
the in-memory parent record has its `dir_children_count` raised by exactly 1
and slot `j` is that record, so when slot `j` counted as many children as the
in-memory record its count also rose by exactly 1. -/
theorem create_fs_object_postcondition (p : Params) (v : Volume) (dir : assoofs_inode_info)
    (name : List Nat) (mode : Nat)
    (hok : (assoofs_create_fs_object p v dir name mode).ret = 0)
    (hparent : ∃ j, j < v.sb.inodes_count ∧ (v.inode_store j).inode_no = dir.inode_no) :
    v.sb.inodes_count < p.ASSOOFS_MAX_FILESYSTEM_OBJECTS_SUPPORTED ∧
    (S_ISDIR mode = true ∨ S_ISREG mode = true) ∧
    (assoofs_create_fs_object p v dir name mode).v.inode_store v.sb.inodes_count =
      { mode := mode, inode_no := new_ino p v.sb.inodes_count,
        data_block_number := (assoofs_sb_get_a_freeblock p v.sb).block, file_size := 0 } ∧
    (assoofs_create_fs_object p v dir name mode).v.sb.inodes_count = v.sb.inodes_count + 1 ∧
    (name.length + 1 ≤ p.ASSOOFS_FILENAME_MAXLEN →
      dir.dir_children_count < p.ASSOOFS_DEFAULT_BLOCK_SIZE / p.sizeof_dir_record_entry →
      (assoofs_create_fs_object p v dir name mode).v.dir_blocks dir.data_block_number
        dir.dir_children_count =
        { filename := name, inode_no := new_ino p v.sb.inodes_count }) ∧
    (assoofs_create_fs_object p v dir name mode).dir =
      { dir with file_size := dir.file_size + 1 } ∧
    (assoofs_create_fs_object p v dir name mode).dir.dir_children_count =
      dir.dir_children_count + 1 ∧
    ∃ j, j < v.sb.inodes_count ∧ (v.inode_store j).inode_no = dir.inode_no ∧
      (∀ k, k < j → (v.inode_store k).inode_no ≠ dir.inode_no) ∧
      (assoofs_create_fs_object p v dir name mode).v.inode_store j =
        (assoofs_create_fs_object p v dir name mode).dir ∧
      ((v.inode_store j).dir_children_count = dir.dir_children_count →
        ((assoofs_create_fs_object p v dir name mode).v.inode_store j).dir_children_count =
          (v.inode_store j).dir_children_count + 1) := by
  obtain ⟨hlt, hmode, _, he⟩ := create_fs_object_ret_zero p v dir name mode hok
  obtain ⟨j, hj, hm, hlow⟩ := exists_first_match v.inode_store v.sb.inodes_count dir.inode_no
    hparent
  have hst := (create_fs_object_finish_of_parent p
    { v with sb := (assoofs_sb_get_a_freeblock p v.sb).sb } dir name
    { inode_no := new_ino p v.sb.inodes_count, mode := mode,
      data_block_number := (assoofs_sb_get_a_freeblock p v.sb).block, file_size := 0 }
    j hj hm hlow).2
  have hdir := create_fs_object_dir p v dir name mode hok
  have hstore : (assoofs_create_fs_object p v dir name mode).v.inode_store =
      Function.update (Function.update v.inode_store v.sb.inodes_count
        { inode_no := new_ino p v.sb.inodes_count, mode := mode,
          data_block_number := (assoofs_sb_get_a_freeblock p v.sb).block, file_size := 0 }) j
        { dir with file_size := dir.file_size + 1 } := by
    rw [he]
    exact hst
  refine ⟨hlt, hmode, ?_, create_fs_object_inodes_count p v dir name mode hok, ?_, hdir, ?_,
    j, hj, hm, hlow, ?_, ?_⟩
  · rw [hstore, Function.update_noteq (by omega), Function.update_same]
  · intro hname hslot
    rw [create_fs_object_dir_blocks p v dir name mode hok hname hslot]
    simp only [Function.update_same]
  · rw [hdir]
    rfl
  · rw [hstore, hdir, Function.update_same]
  · intro hsync
    rw [hstore, Function.update_same, hsync]
    rfl

set_option maxRecDepth 8000 in
/-- C16 (counterexample).  Two calls under the root of a formatted volume that
return 0 without leaving the entry (name, new inode number) in slot
`dir_children_count` of the root's block.  (1) A file with a name of 256
bytes, one more than `ASSOOFS_FILENAME_MAXLEN`: the new object has inode number
10, but `strcpy`, which runs after the store of `inode_no`, puts the
terminating zero of the name on the first byte of that field, and slot 0 holds
the name with inode number 0.  (2) A file `a` under a root that counts 15
children, as many as a block holds: slot 15 starts at byte 3960 of block 2 and
its field `inode_no` lies past the end of the block; on a device whose blocks
follow each other in memory the new inode number 10 is written to byte 120 of
block 3. -/
theorem create_fs_object_entry_not_in_slot :
    (name256.length = header8.ASSOOFS_FILENAME_MAXLEN + 1 ∧
      header8.offsetof_inode_no = 256 ∧
      root_record.dir_children_count = 0 ∧
      (assoofs_create_fs_object header8 (formatted_volume 1 248) root_record name256
        S_IFREG).ret = 0 ∧
      (assoofs_create_fs_object header8 (formatted_volume 1 248) root_record name256
        S_IFREG).inode.map (fun i => i.i_ino) = some 10 ∧
      ((assoofs_create_fs_object header8 (formatted_volume 1 248) root_record name256
        S_IFREG).v.inode_store 1).inode_no = 10 ∧
      (assoofs_create_fs_object header8 (formatted_volume 1 248) root_record name256
        S_IFREG).v.dir_blocks 2 0 = { filename := name256, inode_no := 0 }) ∧
    (header8.ASSOOFS_DEFAULT_BLOCK_SIZE / header8.sizeof_dir_record_entry = 15 ∧
      15 * header8.sizeof_dir_record_entry + header8.offsetof_inode_no =
        header8.ASSOOFS_DEFAULT_BLOCK_SIZE + 120 ∧
      (assoofs_create_fs_object header8 (formatted_volume 1 248)
        { root_record with file_size := 15 } [97] S_IFREG).ret = 0 ∧
      (assoofs_create_fs_object header8 (formatted_volume 1 248)
        { root_record with file_size := 15 } [97] S_IFREG).inode.map (fun i => i.i_ino) =
        some 10 ∧
      (formatted_volume 1 248).data_blocks 3 120 = 0 ∧
      (assoofs_create_fs_object header8 (formatted_volume 1 248)
        { root_record with file_size := 15 } [97] S_IFREG).v.data_blocks 3 120 = 10) := by
  decide

/-- C16 (witness): the file `a` created under the root of a formatted volume. -/
theorem create_fs_object_postcondition_witness :
    (assoofs_create_fs_object header8 (formatted_volume 1 248) root_record [97] S_IFREG).ret
      = 0 ∧
    (assoofs_create_fs_object header8 (formatted_volume 1 248) root_record [97]
      S_IFREG).v.inode_store 1 =
      { mode := S_IFREG, inode_no := 10, data_block_number := 3, file_size := 0 } ∧
    (assoofs_create_fs_object header8 (formatted_volume 1 248) root_record [97]
      S_IFREG).v.sb.inodes_count = 2 ∧
    (assoofs_create_fs_object header8 (formatted_volume 1 248) root_record [97]
      S_IFREG).v.dir_blocks 2 0 = { filename := [97], inode_no := 10 } :=
  ⟨by decide,
   (create_fs_object_postcondition header8 (formatted_volume 1 248) root_record [97] S_IFREG
      (by decide) ⟨0, by decide, by decide⟩).2.2.1,
   (create_fs_object_postcondition header8 (formatted_volume 1 248) root_record [97] S_IFREG
      (by decide) ⟨0, by decide, by decide⟩).2.2.2.1,
   (create_fs_object_postcondition header8 (formatted_volume 1 248) root_record [97] S_IFREG
      (by decide) ⟨0, by decide, by decide⟩).2.2.2.2.1 (by decide) (by decide)⟩

/-! ## Inode numbers -/

theorem new_ino_eq (p : Params) (n : Nat)
    (h1 : p.ASSOOFS_RESERVED_INODES ≤ n + p.ASSOOFS_START_INO + 1)
    (h2 : n + p.ASSOOFS_START_INO + 1 < 2 ^ 64 + p.ASSOOFS_RESERVED_INODES) :
    new_ino p n = n + p.ASSOOFS_START_INO + 1 - p.ASSOOFS_RESERVED_INODES := by
  unfold new_ino u64_of_int
  omega

/-- C17 (amended).  The inode numbers of the first `n = inodes_count` records
are pairwise distinct and none of them is `new_ino n`, the number
`n + ASSOOFS_START_INO - ASSOOFS_RESERVED_INODES + 1` in 64-bit arithmetic.
After a call that returns 0 the numbers of the first `n + 1` records are
pairwise distinct, `inodes_count` is `n + 1`, and the new object, in slot `n`,
has the number `new_ino n`.  When that expression neither is negative nor
leaves 64 bits, the next number `new_ino (n + 1)` is larger by one, so
successive creations hand out strictly increasing numbers. -/
theorem create_fs_object_keeps_unique (p : Params) (v : Volume) (dir : assoofs_inode_info)
    (name : List Nat) (mode : Nat)
    (hok : (assoofs_create_fs_object p v dir name mode).ret = 0)
    (hdistinct : ∀ i, i < v.sb.inodes_count → ∀ j, j < v.sb.inodes_count → i ≠ j →
      (v.inode_store i).inode_no ≠ (v.inode_store j).inode_no)
    (hfresh : ∀ i, i < v.sb.inodes_count →
      (v.inode_store i).inode_no ≠ new_ino p v.sb.inodes_count) :
    (∀ i, i < v.sb.inodes_count + 1 → ∀ j, j < v.sb.inodes_count + 1 → i ≠ j →
      ((assoofs_create_fs_object p v dir name mode).v.inode_store i).inode_no ≠
        ((assoofs_create_fs_object p v dir name mode).v.inode_store j).inode_no) ∧
    (assoofs_create_fs_object p v dir name mode).v.sb.inodes_count = v.sb.inodes_count + 1 ∧
    ((assoofs_create_fs_object p v dir name mode).v.inode_store v.sb.inodes_count).inode_no =
      new_ino p v.sb.inodes_count ∧
    (assoofs_create_fs_object p v dir name mode).inode.map (fun i => i.i_ino) =
      some (new_ino p v.sb.inodes_count) ∧
    (p.ASSOOFS_RESERVED_INODES ≤ v.sb.inodes_count + p.ASSOOFS_START_INO + 1 →
      v.sb.inodes_count + p.ASSOOFS_START_INO + 2 < 2 ^ 64 + p.ASSOOFS_RESERVED_INODES →
      new_ino p v.sb.inodes_count =
        v.sb.inodes_count + p.ASSOOFS_START_INO + 1 - p.ASSOOFS_RESERVED_INODES ∧
      new_ino p (v.sb.inodes_count + 1) = new_ino p v.sb.inodes_count + 1) := by
  have hst := create_fs_object_store_inode_no p v dir name mode hok
  refine ⟨?_, create_fs_object_inodes_count p v dir name mode hok, ?_, ?_, ?_⟩
  · intro i hi j hj hij
    rw [hst i, hst j]
    by_cases h1 : i = v.sb.inodes_count
    · rw [if_pos h1, if_neg (by omega)]
      exact fun h => hfresh j (by omega) h.symm
    · rw [if_neg h1]
      by_cases h2 : j = v.sb.inodes_count
      · rw [if_pos h2]
        exact hfresh i (by omega)
      · rw [if_neg h2]
        exact hdistinct i (by omega) j (by omega) hij
  · rw [hst, if_pos rfl]
  · rw [create_fs_object_inode p v dir name mode hok]
    rfl
  · intro h1 h2
    rw [new_ino_eq p _ h1 (by omega), new_ino_eq p _ (by omega) (by omega)]
    omega

/-- C17 (counterexample).  Two live records with the distinct numbers 1 and
11.  The next creation computes `2 + 10 - 2 + 1 = 11`: it returns 0 and slots
1 and 2 both hold inode number 11. -/
theorem create_fs_object_number_collides :
    numbered_volume.sb.inodes_count = 2 ∧
    (numbered_volume.inode_store 0).inode_no ≠ (numbered_volume.inode_store 1).inode_no ∧
    (assoofs_create_fs_object header8 numbered_volume root_record [97] S_IFREG).ret = 0 ∧
    (assoofs_create_fs_object header8 numbered_volume root_record [97]
      S_IFREG).v.sb.inodes_count = 3 ∧
    ((assoofs_create_fs_object header8 numbered_volume root_record [97]
      S_IFREG).v.inode_store 1).inode_no = 11 ∧
    ((assoofs_create_fs_object header8 numbered_volume root_record [97]
      S_IFREG).v.inode_store 2).inode_no = 11 := by
  decide

/-- C17 (witness): the file `a` created on a formatted volume receives number
10, distinct from the root's number 1. -/
theorem create_fs_object_keeps_unique_witness :
    (assoofs_create_fs_object header8 (formatted_volume 1 248) root_record [97] S_IFREG).ret
      = 0 ∧
    ((assoofs_create_fs_object header8 (formatted_volume 1 248) root_record [97]
      S_IFREG).v.inode_store 1).inode_no = new_ino header8 1 ∧
    new_ino header8 1 = 10 ∧
    ((assoofs_create_fs_object header8 (formatted_volume 1 248) root_record [97]
      S_IFREG).v.inode_store 0).inode_no ≠
    ((assoofs_create_fs_object header8 (formatted_volume 1 248) root_record [97]
      S_IFREG).v.inode_store 1).inode_no :=
  ⟨by decide,
   (create_fs_object_keeps_unique header8 (formatted_volume 1 248) root_record [97] S_IFREG
      (by decide) (by decide) (by decide)).2.2.1,
   by decide,
   (create_fs_object_keeps_unique header8 (formatted_volume 1 248) root_record [97] S_IFREG
      (by decide) (by decide) (by decide)).1 0 (by decide) 1 (by decide) (by decide)⟩

/-! ## The inode count -/

/-- The inode count after any call of `assoofs_create_fs_object`: unchanged,
or one more when the count was below the maximum. -/
theorem create_fs_object_count_cases (p : Params) (v : Volume) (dir : assoofs_inode_info)
    (name : List Nat) (mode : Nat) :
    (assoofs_create_fs_object p v dir name mode).v.sb.inodes_count = v.sb.inodes_count ∨
    (v.sb.inodes_count < p.ASSOOFS_MAX_FILESYSTEM_OBJECTS_SUPPORTED ∧
      (assoofs_create_fs_object p v dir name mode).v.sb.inodes_count = v.sb.inodes_count + 1) := by
  by_cases hfull : p.ASSOOFS_MAX_FILESYSTEM_OBJECTS_SUPPORTED ≤ v.sb.inodes_count
  · rw [create_fs_object_full p v dir name mode hfull]
    exact Or.inl rfl
  · have hlt : v.sb.inodes_count < p.ASSOOFS_MAX_FILESYSTEM_OBJECTS_SUPPORTED := by omega
    by_cases hmode : S_ISDIR mode = true ∨ S_ISREG mode = true
    · by_cases hi : freeblock_index p v.sb.free_blocks =
          p.ASSOOFS_MAX_FILESYSTEM_OBJECTS_SUPPORTED
      · rw [create_fs_object_no_block p v dir name mode hlt hmode hi]
        exact Or.inl rfl
      · right
        refine ⟨hlt, ?_⟩
        rw [create_fs_object_block_sb p v dir name mode hlt hmode hi]
    · have hd : S_ISDIR mode = false := by
        cases h : S_ISDIR mode
        · rfl
        · exact absurd (Or.inl h) hmode
      have hr : S_ISREG mode = false := by
        cases h : S_ISREG mode
        · rfl
        · exact absurd (Or.inr h) hmode
      rw [create_fs_object_bad_mode p v dir name mode hlt hd hr]
      exact Or.inl rfl

/-- C19.  With `inodes_count <= MAX` before, every call of
`assoofs_create_fs_object`, whatever it returns, leaves `inodes_count <= MAX`,
and a call that returns 0 leaves it larger by exactly 1.  `assoofs_write` and
`assoofs_save_inode_info` leave the superblock, hence the count, as it was.
(`assoofs_lookup`, `assoofs_read` and `assoofs_iterate` store nothing into the
volume: in the embedding they return no volume.) -/
theorem inodes_count_bound (p : Params) (v : Volume)
    (hbound : v.sb.inodes_count ≤ p.ASSOOFS_MAX_FILESYSTEM_OBJECTS_SUPPORTED) :
    (∀ (dir : assoofs_inode_info) (name : List Nat) (mode : Nat),
      (assoofs_create_fs_object p v dir name mode).v.sb.inodes_count ≤
        p.ASSOOFS_MAX_FILESYSTEM_OBJECTS_SUPPORTED ∧
      ((assoofs_create_fs_object p v dir name mode).ret = 0 →
        (assoofs_create_fs_object p v dir name mode).v.sb.inodes_count =
          v.sb.inodes_count + 1)) ∧
    (∀ (inode_info : assoofs_inode_info) (buf : List Nat) (ppos : Nat),
      (assoofs_write v inode_info buf ppos).v.sb = v.sb) ∧
    (∀ inode_info : assoofs_inode_info, (assoofs_save_inode_info v inode_info).v.sb = v.sb) := by
  refine ⟨?_, ?_, fun r => save_inode_info_sb v r⟩
  · intro dir name mode
    constructor
    · rcases create_fs_object_count_cases p v dir name mode with h | ⟨h1, h2⟩
      · rw [h]; exact hbound
      · rw [h2]; omega
    · exact fun hok => create_fs_object_inodes_count p v dir name mode hok
  · intro fi buf ppos
    unfold assoofs_write
    simp only [save_inode_info_sb]

/-- C19 (witness): on the formatted volume with one record, under `header8`. -/
theorem inodes_count_bound_witness :
    (formatted_volume 1 248).sb.inodes_count ≤
      header8.ASSOOFS_MAX_FILESYSTEM_OBJECTS_SUPPORTED ∧
    (assoofs_create_fs_object header8 (formatted_volume 1 248) root_record [97]
      S_IFREG).v.sb.inodes_count ≤ header8.ASSOOFS_MAX_FILESYSTEM_OBJECTS_SUPPORTED ∧
    (assoofs_write (formatted_volume 1 248) root_record [104] 0).v.sb =
      (formatted_volume 1 248).sb :=
  ⟨by decide,
   ((inodes_count_bound header8 (formatted_volume 1 248) (by decide)).1 root_record [97]
      S_IFREG).1,
   (inodes_count_bound header8 (formatted_volume 1 248) (by decide)).2.1 root_record [104] 0⟩

/-! ## Bitmap consistency -/

theorem testBit_land_of_false (fb m k : Nat) (h : fb.testBit k = false) :
    (fb &&& m).testBit k = false := by
  rw [Nat.testBit_and, h]
  rfl

/-- After the allocator has run, the bit of the index it stored in `*block` is
0, whatever that index is, provided the scan starts at or below bit 31. -/
theorem get_a_freeblock_block_bit (p : Params) (sb : assoofs_super_block_info)
    (hfb : sb.free_blocks < 2 ^ 64) (hR : p.ASSOOFS_RESERVED_INODES + 1 ≤ 31) :
    (assoofs_sb_get_a_freeblock p sb).sb.free_blocks.testBit
      (assoofs_sb_get_a_freeblock p sb).block = false := by
  rw [get_a_freeblock_sb, get_a_freeblock_block]
  simp only
  rcases Nat.lt_trichotomy (freeblock_index p sb.free_blocks) 31 with h | h | h
  · rw [u64_of_int_not, shl_one_of_lt p _ h,
      testBit_land_compl_two_pow _ _ _ hfb (by omega)]
    simp
  · rw [h, u64_of_int_not, shl_one_31]
    have e : (2 ^ 64 - 1 - (2 ^ 64 - 2 ^ 31) : Nat) = 2 ^ 31 - 1 := by omega
    rw [e, Nat.testBit_and, Nat.testBit_two_pow_sub_one]
    simp
  · apply testBit_land_of_false
    have hsk : free_blocks_and_shl p sb.free_blocks 31 = 0 := by
      apply freeblock_loop_skipped p sb.free_blocks
        (p.ASSOOFS_MAX_FILESYSTEM_OBJECTS_SUPPORTED - (p.ASSOOFS_RESERVED_INODES + 1))
        (p.ASSOOFS_RESERVED_INODES + 1) 31 hR
      exact h
    unfold free_blocks_and_shl at hsk
    rw [shl_one_31] at hsk
    by_cases h64 : freeblock_index p sb.free_blocks < 64
    · have hb := congrArg (fun x => x.testBit (freeblock_index p sb.free_blocks)) hsk
      simp only [Nat.testBit_and, Nat.zero_testBit] at hb
      rw [testBit_high_mask] at hb
      have h31 : ¬ freeblock_index p sb.free_blocks < 31 := by omega
      simpa [h64, h31] using hb
    · exact testBit_eq_false_of_lt_two_pow_64 _ _ hfb (by omega)

theorem get_a_freeblock_bits_subset (p : Params) (sb : assoofs_super_block_info) (k : Nat)
    (h : sb.free_blocks.testBit k = false) :
    (assoofs_sb_get_a_freeblock p sb).sb.free_blocks.testBit k = false := by
  rw [get_a_freeblock_sb]
  exact testBit_land_of_false _ _ _ h

theorem get_a_freeblock_inodes_count (p : Params) (sb : assoofs_super_block_info) :
    (assoofs_sb_get_a_freeblock p sb).sb.inodes_count = sb.inodes_count := rfl

/-- Every slot after a save holds either what it held or the record saved. -/
theorem save_inode_info_slot (v : Volume) (r : assoofs_inode_info) (j : Nat) :
    (assoofs_save_inode_info v r).v.inode_store j = v.inode_store j ∨
    (assoofs_save_inode_info v r).v.inode_store j = r := by
  unfold assoofs_save_inode_info
  split
  · rename_i k _
    simp only
    by_cases hjk : j = k
    · right; rw [hjk, Function.update_same]
    · left; rw [Function.update_noteq hjk]
  · exact Or.inl rfl

theorem save_inode_info_consistent (p : Params) (v : Volume) (r : assoofs_inode_info)
    (hinv : bitmap_consistent p v)
    (hr : v.sb.free_blocks.testBit r.data_block_number = false) :
    bitmap_consistent p (assoofs_save_inode_info v r).v := by
  unfold bitmap_consistent
  rw [save_inode_info_sb]
  refine ⟨?_, hinv.2⟩
  intro j hj
  rcases save_inode_info_slot v r j with h | h
  · rw [h]; exact hinv.1 j hj
  · rw [h]; exact hr

theorem create_fs_object_finish_consistent (p : Params) (v : Volume)
    (dir : assoofs_inode_info) (name : List Nat) (fi : assoofs_inode_info)
    (hinv : bitmap_consistent p v)
    (hdir : v.sb.free_blocks.testBit dir.data_block_number = false)
    (hfi : v.sb.free_blocks.testBit fi.data_block_number = false) :
    bitmap_consistent p (create_fs_object_finish p v dir name fi).v := by
  rw [create_fs_object_finish_v]
  apply save_inode_info_consistent
  · unfold bitmap_consistent
    rw [dir_append_record_sb, dir_append_record_inode_store]
    simp only [assoofs_add_inode_info]
    refine ⟨?_, hinv.2⟩
    intro j hj
    by_cases hjn : j = v.sb.inodes_count
    · rw [hjn, Function.update_same]; exact hfi
    · rw [Function.update_noteq hjn]; exact hinv.1 j (by omega)
  · rw [dir_append_record_sb]
    exact hdir

/-- C18.  The volume is bitmap consistent: the bit of the data block of every
live record is 0 and so are the bits of the reserved blocks (`free_blocks` is a
64-bit value and the allocator's scan starts at or below bit 31).  Then the
volume is bitmap consistent after every call of `assoofs_create_fs_object` and
of `assoofs_write` made with the record of a live inode, that is a record that
names the data block of a live record, a block other than the superblock's and
the inode store's, and after every call of `assoofs_save_inode_info` made with
a record that names the data block of a live record.  For a creation that
returns 0 the live records include the one the call adds, and the bit of the
block the allocator gave it is 0. -/
theorem bitmap_consistency_preserved (p : Params) (v : Volume)
    (hfb : v.sb.free_blocks < 2 ^ 64)
    (hR : p.ASSOOFS_RESERVED_INODES + 1 ≤ 31)
    (hinv : bitmap_consistent p v) :
    (∀ (dir : assoofs_inode_info) (name : List Nat) (mode : Nat),
      names_live_block v dir → names_data_block p dir →
      bitmap_consistent p (assoofs_create_fs_object p v dir name mode).v ∧
      ((assoofs_create_fs_object p v dir name mode).ret = 0 →
        (assoofs_create_fs_object p v dir name mode).v.sb.inodes_count =
          v.sb.inodes_count + 1 ∧
        (assoofs_create_fs_object p v dir name mode).v.sb.free_blocks.testBit
          (assoofs_sb_get_a_freeblock p v.sb).block = false)) ∧
    (∀ (inode_info : assoofs_inode_info) (buf : List Nat) (ppos : Nat),
      names_live_block v inode_info → names_data_block p inode_info →
      bitmap_consistent p (assoofs_write v inode_info buf ppos).v) ∧
    (∀ inode_info : assoofs_inode_info,
      names_live_block v inode_info →
      bitmap_consistent p (assoofs_save_inode_info v inode_info).v) := by
  have hsub : bitmap_consistent p { v with sb := (assoofs_sb_get_a_freeblock p v.sb).sb } :=
    ⟨fun j hj => get_a_freeblock_bits_subset p v.sb _ (hinv.1 j hj),
     fun i hi => get_a_freeblock_bits_subset p v.sb _ (hinv.2 i hi)⟩
  have hbit : ∀ r : assoofs_inode_info, names_live_block v r →
      v.sb.free_blocks.testBit r.data_block_number = false := by
    intro r hr
    obtain ⟨j, hj, hjr⟩ := hr
    rw [← hjr]
    exact hinv.1 j hj
  refine ⟨?_, ?_, fun r hr => save_inode_info_consistent p v r hinv (hbit r hr)⟩
  · intro dir name mode hlive _
    have hdir := hbit dir hlive
    by_cases hfull : p.ASSOOFS_MAX_FILESYSTEM_OBJECTS_SUPPORTED ≤ v.sb.inodes_count
    · rw [create_fs_object_full p v dir name mode hfull]
      refine ⟨hinv, ?_⟩
      intro h0
      have h1 : (-ENOSPC : Int) = 0 := h0
      exact absurd h1 (by decide)
    · have hlt : v.sb.inodes_count < p.ASSOOFS_MAX_FILESYSTEM_OBJECTS_SUPPORTED := by omega
      by_cases hmode : S_ISDIR mode = true ∨ S_ISREG mode = true
      · by_cases hi : freeblock_index p v.sb.free_blocks =
            p.ASSOOFS_MAX_FILESYSTEM_OBJECTS_SUPPORTED
        · rw [create_fs_object_no_block p v dir name mode hlt hmode hi]
          refine ⟨hsub, ?_⟩
          intro h0
          have h1 : (-ENOSPC : Int) = 0 := h0
          exact absurd h1 (by decide)
        · refine ⟨?_, ?_⟩
          · rw [create_fs_object_block p v dir name mode hlt hmode hi]
            apply create_fs_object_finish_consistent p _ dir name _ hsub
            · exact get_a_freeblock_bits_subset p v.sb _ hdir
            · exact get_a_freeblock_block_bit p v.sb hfb hR
          · intro hok
            refine ⟨create_fs_object_inodes_count p v dir name mode hok, ?_⟩
            rw [create_fs_object_block p v dir name mode hlt hmode hi,
              create_fs_object_finish_sb]
            exact get_a_freeblock_block_bit p v.sb hfb hR
      · have hd : S_ISDIR mode = false := by
          cases h : S_ISDIR mode
          · rfl
          · exact absurd (Or.inl h) hmode
        have hr : S_ISREG mode = false := by
          cases h : S_ISREG mode
          · rfl
          · exact absurd (Or.inr h) hmode
        rw [create_fs_object_bad_mode p v dir name mode hlt hd hr]
        refine ⟨hinv, ?_⟩
        intro h0
        have h1 : (-EINVAL : Int) = 0 := h0
        exact absurd h1 (by decide)
  · intro fi buf ppos hfi _
    unfold assoofs_write
    simp only
    exact save_inode_info_consistent p _ _ ⟨hinv.1, hinv.2⟩ (hbit fi hfi)

theorem formatted_volume_consistent : bitmap_consistent header8 (formatted_volume 1 248) :=
  ⟨by decide, by decide⟩

/-- C18 (witness): the file `a` created under the root of the formatted
volume; the volume stays bitmap consistent and the bit of the new record's
block 3 is 0. -/
theorem bitmap_consistency_preserved_witness :
    (formatted_volume 1 248).sb.free_blocks < 2 ^ 64 ∧
    header8.ASSOOFS_RESERVED_INODES + 1 ≤ 31 ∧
    names_live_block (formatted_volume 1 248) root_record ∧
    names_data_block header8 root_record ∧
    bitmap_consistent header8
      (assoofs_create_fs_object header8 (formatted_volume 1 248) root_record [97] S_IFREG).v ∧
    (assoofs_create_fs_object header8 (formatted_volume 1 248) root_record [97]
      S_IFREG).v.sb.free_blocks.testBit 3 = false :=
  ⟨by decide, by decide, ⟨0, by decide, by decide⟩, ⟨by decide, by decide⟩,
   ((bitmap_consistency_preserved header8 (formatted_volume 1 248) (by decide) (by decide)
      formatted_volume_consistent).1 root_record [97] S_IFREG ⟨0, by decide, by decide⟩
      ⟨by decide, by decide⟩).1,
   (((bitmap_consistency_preserved header8 (formatted_volume 1 248) (by decide) (by decide)
      formatted_volume_consistent).1 root_record [97] S_IFREG ⟨0, by decide, by decide⟩
      ⟨by decide, by decide⟩).2 (by decide)).2⟩

/-! ## What a creation leaves alone -/

/-- The slot the search answers is the lowest one that matches. -/
theorem search_inode_info_some_first (v : Volume) (r : assoofs_inode_info) (k : Nat)
    (h : assoofs_search_inode_info v r = some k) :
    (v.inode_store k).inode_no = r.inode_no ∧
    ∀ i, i < k → (v.inode_store i).inode_no ≠ r.inode_no := by
  have hm := search_inode_info_some v r k h
  have hle : k ≤ v.sb.inodes_count := by
    unfold assoofs_search_inode_info at h
    simp only at h
    split at h
    · have := Option.some.inj h
      rw [← this]
      exact search_inode_info_loop_le _ _ _ _ 0 (Nat.zero_le _)
    · exact Option.noConfusion h
  obtain ⟨j0, h1, h2, h3⟩ := exists_first_match v.inode_store (v.sb.inodes_count + 1)
    r.inode_no ⟨k, by omega, hm⟩
  have hs := search_inode_info_of_first v r j0 (by omega) h2 h3
  rw [h] at hs
  have hk : k = j0 := Option.some.inj hs
  rw [hk]
  exact ⟨h2, h3⟩

/-- A save changes at most the lowest slot that holds the record's number. -/
theorem save_inode_info_changed_slot (v : Volume) (r : assoofs_inode_info) (i : Nat)
    (h : (assoofs_save_inode_info v r).v.inode_store i ≠ v.inode_store i) :
    (v.inode_store i).inode_no = r.inode_no ∧
    ∀ k, k < i → (v.inode_store k).inode_no ≠ r.inode_no := by
  unfold assoofs_save_inode_info at h
  cases hs : assoofs_search_inode_info v r with
  | none =>
    rw [hs] at h
    exact absurd rfl h
  | some k =>
    rw [hs] at h
    simp only at h
    by_cases hik : i = k
    · rw [hik]
      exact search_inode_info_some_first v r k hs
    · rw [Function.update_noteq hik] at h
      exact absurd rfl h

theorem get_inode_info_some_exists (v : Volume) (ino : Nat) (r : assoofs_inode_info)
    (h : assoofs_get_inode_info v ino = some r) :
    ∃ j, j < v.sb.inodes_count ∧ (v.inode_store j).inode_no = ino := by
  by_contra hne
  have hnone := (get_inode_info_eq_none_iff v ino).2
    (fun j hj hm => hne ⟨j, hj, hm⟩)
  rw [hnone] at h
  exact Option.noConfusion h

/-- An inode that `assoofs_get_inode` produced before a successful creation is
produced after it with the same number. -/
theorem get_inode_after_create (p : Params) (v : Volume) (dir : assoofs_inode_info)
    (name : List Nat) (mode : Nat)
    (hok : (assoofs_create_fs_object p v dir name mode).ret = 0)
    (x : Int) (c : inode) (h : assoofs_get_inode v x = some c) :
    ∃ c2, assoofs_get_inode (assoofs_create_fs_object p v dir name mode).v x = some c2 ∧
      c2.i_ino = c.i_ino ∧
      c2.i_private.map (fun r => r.inode_no) = c.i_private.map (fun r => r.inode_no) := by
  unfold assoofs_get_inode at h ⊢
  cases hg : assoofs_get_inode_info v (u64_of_int x) with
  | none =>
    rw [hg] at h
    exact Option.noConfusion h
  | some r =>
    rw [hg] at h
    simp only [Option.some.injEq] at h
    obtain ⟨j, hj, hm⟩ := get_inode_info_some_exists v _ r hg
    have hr := get_inode_info_some_inode_no v _ r hg
    cases hg2 : assoofs_get_inode_info (assoofs_create_fs_object p v dir name mode).v
        (u64_of_int x) with
    | none =>
      have hnone := (get_inode_info_eq_none_iff _ _).1 hg2 j
        (by rw [create_fs_object_inodes_count p v dir name mode hok]; omega)
      rw [create_fs_object_store_inode_no p v dir name mode hok, if_neg (by omega)] at hnone
      exact absurd hm hnone
    | some r2 =>
      have hr2 := get_inode_info_some_inode_no _ _ r2 hg2
      refine ⟨_, rfl, ?_, ?_⟩
      · rw [← h]
      · rw [← h]
        simp only [Option.map_some', hr, hr2]

theorem exists_first_name (record : Nat → assoofs_dir_record_entry) (n : Nat) (z : List Nat)
    (h : ∃ j, j < n ∧ (record j).filename = z) :
    ∃ j, j < n ∧ (record j).filename = z ∧ ∀ k, k < j → (record k).filename ≠ z := by
  classical
  refine ⟨Nat.find h, (Nat.find_spec h).1, (Nat.find_spec h).2, ?_⟩
  intro k hk hc
  exact Nat.find_min h hk ⟨Nat.lt_trans hk (Nat.find_spec h).1, hc⟩

/-- A lookup that bound an inode found the name at a first position and
obtained the inode from `assoofs_get_inode`. -/
theorem lookup_d_add (v : Volume) (d : assoofs_inode_info) (z : List Nat) (child : inode)
    (h : assoofs_lookup v d z = lookup_result.d_add child) :
    ∃ i, i < d.dir_children_count ∧
      (v.dir_blocks d.data_block_number i).filename = z ∧
      (∀ k, k < i → (v.dir_blocks d.data_block_number k).filename ≠ z) ∧
      assoofs_get_inode v (int_of_u64 (v.dir_blocks d.data_block_number i).inode_no) =
        some child := by
  by_cases hex : ∃ j, j < d.dir_children_count ∧
      (v.dir_blocks d.data_block_number j).filename = z
  · obtain ⟨i, hi, hm, hlow⟩ := exists_first_name _ _ z hex
    refine ⟨i, hi, hm, hlow, ?_⟩
    unfold assoofs_lookup at h
    rw [lookup_loop_first v _ _ z _ 0 i (by omega) (Nat.zero_le i) hi hm
      (fun k _ hk => hlow k hk)] at h
    cases hg : assoofs_get_inode v (int_of_u64 (v.dir_blocks d.data_block_number i).inode_no) with
    | none =>
      rw [hg] at h
      exact lookup_result.noConfusion h
    | some c =>
      rw [hg] at h
      simp only [lookup_result.d_add.injEq] at h
      rw [h]
  · unfold assoofs_lookup at h
    rw [lookup_loop_none v _ _ z _ 0 (fun j _ hj hm => hex ⟨j, hj, hm⟩)] at h
    exact lookup_result.noConfusion h

/-- A lookup that bound an inode binds one of the same number after a
successful creation, through any directory record that names the same block,
counts at least as many children, and whose records of before are unchanged. -/
theorem lookup_after_create (p : Params) (v : Volume) (dir : assoofs_inode_info)
    (name : List Nat) (mode : Nat)
    (hok : (assoofs_create_fs_object p v dir name mode).ret = 0)
    (d d2 : assoofs_inode_info) (z : List Nat) (child : inode)
    (hblk : d2.data_block_number = d.data_block_number)
    (hcnt : d.dir_children_count ≤ d2.dir_children_count)
    (hent : ∀ i, i < d.dir_children_count →
      (assoofs_create_fs_object p v dir name mode).v.dir_blocks d.data_block_number i =
        v.dir_blocks d.data_block_number i)
    (h : assoofs_lookup v d z = lookup_result.d_add child) :
    ∃ child2, assoofs_lookup (assoofs_create_fs_object p v dir name mode).v d2 z =
        lookup_result.d_add child2 ∧
      child2.i_ino = child.i_ino ∧
      child2.i_private.map (fun r => r.inode_no) = child.i_private.map (fun r => r.inode_no) := by
  obtain ⟨i, hi, hm, hlow, hg⟩ := lookup_d_add v d z child h
  obtain ⟨c2, hc2, hino, hpriv⟩ := get_inode_after_create p v dir name mode hok _ child hg
  refine ⟨c2, ?_, hino, hpriv⟩
  unfold assoofs_lookup
  rw [hblk, lookup_loop_first _ _ _ z _ 0 i (by omega) (Nat.zero_le i) (by omega)
    (by rw [hent i hi]; exact hm)
    (fun k _ hk => by rw [hent k (by omega)]; exact hlow k hk)]
  rw [hent i hi, hc2]

theorem create_fs_object_store_frame (p : Params) (v : Volume) (dir : assoofs_inode_info)
    (name : List Nat) (mode : Nat)
    (hok : (assoofs_create_fs_object p v dir name mode).ret = 0)
    (i : Nat) (hi : i < v.sb.inodes_count)
    (hne : (assoofs_create_fs_object p v dir name mode).v.inode_store i ≠ v.inode_store i) :
    (v.inode_store i).inode_no = dir.inode_no ∧
    ∀ k, k < i → (v.inode_store k).inode_no ≠ dir.inode_no := by
  obtain ⟨_, _, _, he⟩ := create_fs_object_ret_zero p v dir name mode hok
  rw [he, create_fs_object_finish_v] at hne
  have hv2 : ∀ k, k < v.sb.inodes_count →
      (dir_append_record p (assoofs_add_inode_info
        { v with sb := (assoofs_sb_get_a_freeblock p v.sb).sb }
        { inode_no := new_ino p v.sb.inodes_count, mode := mode,
          data_block_number := (assoofs_sb_get_a_freeblock p v.sb).block, file_size := 0 })
        dir name (new_ino p v.sb.inodes_count)).inode_store k = v.inode_store k := by
    intro k hk
    rw [dir_append_record_inode_store]
    simp only [assoofs_add_inode_info]
    rw [Function.update_noteq]
    exact Nat.ne_of_lt hk
  have hch := save_inode_info_changed_slot _ _ i (by rw [hv2 i hi]; exact hne)
  rw [hv2 i hi] at hch
  refine ⟨hch.1, ?_⟩
  intro k hk
  have := hch.2 k hk
  rw [hv2 k (by omega)] at this
  exact this

/-- C20 (amended).  A call of `assoofs_create_fs_object` returns 0; the name
has at most `ASSOOFS_FILENAME_MAXLEN - 1` bytes and the new record lies inside
the parent's block.  With `n = inodes_count` and `c = dir_children_count` of
the parent before the call: every slot below `n` is unchanged unless it is the
lowest slot holding the parent's inode number, so with unique inode numbers
every slot below `n` other than the parent's own; every record below `c` of
the parent's block is unchanged; every other block is unchanged, in its
records and in its bytes.  Hence a name that `assoofs_lookup` resolved before
the call, through the parent's record or through a directory record that names
another block and counts no more children than a block holds, resolves
afterwards to an inode of the same number. -/
theorem create_fs_object_frame (p : Params) (v : Volume) (dir : assoofs_inode_info)
    (name : List Nat) (mode : Nat)
    (hok : (assoofs_create_fs_object p v dir name mode).ret = 0)
    (hname : name.length + 1 ≤ p.ASSOOFS_FILENAME_MAXLEN)
    (hslot : dir.dir_children_count <
      p.ASSOOFS_DEFAULT_BLOCK_SIZE / p.sizeof_dir_record_entry) :
    (∀ i, i < v.sb.inodes_count →
      ((v.inode_store i).inode_no ≠ dir.inode_no ∨
        ∃ k, k < i ∧ (v.inode_store k).inode_no = dir.inode_no) →
      (assoofs_create_fs_object p v dir name mode).v.inode_store i = v.inode_store i) ∧
    ((∀ i, i < v.sb.inodes_count → ∀ j, j < v.sb.inodes_count → i ≠ j →
        (v.inode_store i).inode_no ≠ (v.inode_store j).inode_no) →
      ∀ j, j < v.sb.inodes_count → (v.inode_store j).inode_no = dir.inode_no →
      ∀ i, i < v.sb.inodes_count → i ≠ j →
        (assoofs_create_fs_object p v dir name mode).v.inode_store i = v.inode_store i) ∧
    (∀ i, i < dir.dir_children_count →
      (assoofs_create_fs_object p v dir name mode).v.dir_blocks dir.data_block_number i =
        v.dir_blocks dir.data_block_number i) ∧
    (∀ b, b ≠ dir.data_block_number →
      (assoofs_create_fs_object p v dir name mode).v.dir_blocks b = v.dir_blocks b) ∧
    (∀ b, b ≠ dir.data_block_number →
      (assoofs_create_fs_object p v dir name mode).v.data_blocks b = v.data_blocks b) ∧
    (∀ (z : List Nat) (child : inode),
      assoofs_lookup v dir z = lookup_result.d_add child →
      ∃ child2,
        assoofs_lookup (assoofs_create_fs_object p v dir name mode).v
          (assoofs_create_fs_object p v dir name mode).dir z = lookup_result.d_add child2 ∧
        child2.i_ino = child.i_ino ∧
        child2.i_private.map (fun r => r.inode_no) =
          child.i_private.map (fun r => r.inode_no)) ∧
    (∀ (d : assoofs_inode_info) (z : List Nat) (child : inode),
      d.data_block_number ≠ dir.data_block_number →
      d.dir_children_count ≤ p.ASSOOFS_DEFAULT_BLOCK_SIZE / p.sizeof_dir_record_entry →
      assoofs_lookup v d z = lookup_result.d_add child →
      ∃ child2,
        assoofs_lookup (assoofs_create_fs_object p v dir name mode).v d z =
          lookup_result.d_add child2 ∧
        child2.i_ino = child.i_ino ∧
        child2.i_private.map (fun r => r.inode_no) =
          child.i_private.map (fun r => r.inode_no)) := by
  have hstore : ∀ i, i < v.sb.inodes_count →
      ((v.inode_store i).inode_no ≠ dir.inode_no ∨
        ∃ k, k < i ∧ (v.inode_store k).inode_no = dir.inode_no) →
      (assoofs_create_fs_object p v dir name mode).v.inode_store i = v.inode_store i := by
    intro i hi hcase
    by_contra hne
    obtain ⟨h1, h2⟩ := create_fs_object_store_frame p v dir name mode hok i hi hne
    rcases hcase with hc | ⟨k, hk, hkm⟩
    · exact hc h1
    · exact h2 k hk hkm
  have hblocks := create_fs_object_dir_blocks p v dir name mode hok hname hslot
  have hbelow : ∀ i, i < dir.dir_children_count →
      (assoofs_create_fs_object p v dir name mode).v.dir_blocks dir.data_block_number i =
        v.dir_blocks dir.data_block_number i := by
    intro i hi
    rw [hblocks, Function.update_same, Function.update_noteq (Nat.ne_of_lt hi)]
  have hother : ∀ b, b ≠ dir.data_block_number →
      (assoofs_create_fs_object p v dir name mode).v.dir_blocks b = v.dir_blocks b := by
    intro b hb
    rw [hblocks, Function.update_noteq hb]
  have hdata : (assoofs_create_fs_object p v dir name mode).v.data_blocks = v.data_blocks :=
    create_fs_object_data_blocks p v dir name mode hok hname hslot
  have hdir := create_fs_object_dir p v dir name mode hok
  refine ⟨hstore, ?_, hbelow, hother, fun b _ => by rw [hdata], ?_, ?_⟩
  · intro huniq j hj hjm i hi hij
    apply hstore i hi
    left
    rw [← hjm]
    exact huniq i hi j hj hij
  · intro z child h
    apply lookup_after_create p v dir name mode hok dir _ z child _ _ hbelow h
    · rw [hdir]
    · rw [hdir]
      simp only [assoofs_inode_info.dir_children_count]
      omega
  · intro d z child hd _ h
    exact lookup_after_create p v dir name mode hok d d z child rfl (Nat.le_refl _)
      (fun i _ => by rw [hother _ hd]) h

set_option maxRecDepth 8000 in
/-- C20 (counterexample).  Under `header8` a block of 4096 bytes holds 15
records of 264 bytes and the blocks follow each other in memory.  (1) A file
is created under a root that counts 15 children: the call returns 0.  The new
record starts at byte 3960 of the root's block 2, so its field `inode_no`, at
offset 256 of the record, is byte 120 of block 3: that byte was 0 and now
holds the new inode number 10.  (2) A file with a name of 401 bytes is created
under a root that counts 14 children: the call returns 0.  The record starts
at byte 3696 of block 2, so character 400 of the name is byte 0 of block 3:
that byte was 0 and now holds the character.  In both cases a block other than
the parent's has changed. -/
theorem create_fs_object_past_block_end :
    (header8.ASSOOFS_DEFAULT_BLOCK_SIZE / header8.sizeof_dir_record_entry = 15 ∧
      15 * header8.sizeof_dir_record_entry + header8.offsetof_inode_no =
        header8.ASSOOFS_DEFAULT_BLOCK_SIZE + 120 ∧
      (assoofs_create_fs_object header8 (formatted_volume 1 248)
        { root_record with file_size := 15 } [99] S_IFREG).ret = 0 ∧
      (assoofs_create_fs_object header8 (formatted_volume 1 248)
        { root_record with file_size := 15 } [99] S_IFREG).inode.map (fun i => i.i_ino) =
        some 10 ∧
      root_record.data_block_number = 2 ∧
      (formatted_volume 1 248).data_blocks 3 120 = 0 ∧
      (assoofs_create_fs_object header8 (formatted_volume 1 248)
        { root_record with file_size := 15 } [99] S_IFREG).v.data_blocks 3 120 = 10) ∧
    (name401.length = 401 ∧
      14 * header8.sizeof_dir_record_entry + 400 = header8.ASSOOFS_DEFAULT_BLOCK_SIZE ∧
      (assoofs_create_fs_object header8 (formatted_volume 1 248)
        { root_record with file_size := 14 } name401 S_IFREG).ret = 0 ∧
      (formatted_volume 1 248).data_blocks 3 0 = 0 ∧
      (assoofs_create_fs_object header8 (formatted_volume 1 248)
        { root_record with file_size := 14 } name401 S_IFREG).v.data_blocks 3 0 = 97) := by
  decide

/-- C20 (witness): the root holds `b` (inode 10); a file `c` is created in it;
`b` resolves to inode 10 before and after, and slot 1, the record of `b`, is
unchanged. -/
theorem create_fs_object_frame_witness :
    (assoofs_create_fs_object header8 root_with_b.v root_with_b.dir [99] S_IFREG).ret = 0 ∧
    assoofs_lookup root_with_b.v root_with_b.dir [98] =
      lookup_result.d_add
        { i_ino := 10, i_fop := some file_ops.assoofs_file_operations
          i_private := some { mode := S_IFREG, inode_no := 10, data_block_number := 3,
                              file_size := 0 } } ∧
    (assoofs_create_fs_object header8 root_with_b.v root_with_b.dir [99]
      S_IFREG).v.inode_store 1 = root_with_b.v.inode_store 1 ∧
    ∃ child2,
      assoofs_lookup (assoofs_create_fs_object header8 root_with_b.v root_with_b.dir [99]
        S_IFREG).v (assoofs_create_fs_object header8 root_with_b.v root_with_b.dir [99]
        S_IFREG).dir [98] = lookup_result.d_add child2 ∧
      child2.i_ino = 10 := by
  have hthm := create_fs_object_frame header8 root_with_b.v root_with_b.dir [99] S_IFREG
    (by decide) (by decide) (by decide)
  obtain ⟨child2, h1, h2, _⟩ := hthm.2.2.2.2.2.1 [98]
    { i_ino := 10, i_fop := some file_ops.assoofs_file_operations
      i_private := some { mode := S_IFREG, inode_no := 10, data_block_number := 3,
                          file_size := 0 } } (by decide)
  exact ⟨by decide, by decide, hthm.1 1 (by decide) (Or.inl (by decide)), child2, h1, h2⟩

/-! ## The capacity boundary -/

/-- A call passes every test and ends with 0 when the inode count is below
the maximum, the mode is valid, the allocator finds a block and a live slot
holds the parent's inode number. -/
theorem create_fs_object_succeeds (p : Params) (v : Volume) (dir : assoofs_inode_info)
    (name : List Nat) (mode : Nat)
    (hlt : v.sb.inodes_count < p.ASSOOFS_MAX_FILESYSTEM_OBJECTS_SUPPORTED)
    (hmode : S_ISDIR mode = true ∨ S_ISREG mode = true)
    (hi : freeblock_index p v.sb.free_blocks ≠ p.ASSOOFS_MAX_FILESYSTEM_OBJECTS_SUPPORTED)
    (hparent : ∃ j, j < v.sb.inodes_count ∧ (v.inode_store j).inode_no = dir.inode_no) :
    (assoofs_create_fs_object p v dir name mode).ret = 0 := by
  obtain ⟨j, hj, hm, hlow⟩ := exists_first_match v.inode_store v.sb.inodes_count dir.inode_no
    hparent
  rw [create_fs_object_block p v dir name mode hlt hmode hi]
  exact (create_fs_object_finish_of_parent p
    { v with sb := (assoofs_sb_get_a_freeblock p v.sb).sb } dir name _ j hj hm hlow).1

/-- With every bit from `m` up to the maximum set, no bit of the scanned range
below `m` set, at most `m` inode records and at most 32 objects, the calls of a
sequence return 0 as long as bits are left: call `k` (counted from 0) when
`m + k` is below the maximum. -/
theorem create_calls_succeed (p : Params)
    (hM : p.ASSOOFS_MAX_FILESYSTEM_OBJECTS_SUPPORTED ≤ 32) :
    ∀ (calls : List create_call) (v : Volume) (m : Nat),
      v.sb.free_blocks < 2 ^ 64 →
      p.ASSOOFS_RESERVED_INODES + 1 ≤ m →
      (∀ i, i < p.ASSOOFS_MAX_FILESYSTEM_OBJECTS_SUPPORTED → m ≤ i →
        v.sb.free_blocks.testBit i = true) →
      (∀ i, p.ASSOOFS_RESERVED_INODES + 1 ≤ i → i < m → v.sb.free_blocks.testBit i = false) →
      v.sb.inodes_count ≤ m →
      (∀ c ∈ calls, S_ISDIR c.mode = true ∨ S_ISREG c.mode = true) →
      (∀ c ∈ calls, ∃ j, j < v.sb.inodes_count ∧ (v.inode_store j).inode_no = c.dir.inode_no) →
      ∀ k, k < calls.length → m + k < p.ASSOOFS_MAX_FILESYSTEM_OBJECTS_SUPPORTED →
        ∃ r, (create_calls p v calls)[k]? = some r ∧ r.ret = 0 := by
  intro calls
  induction calls with
  | nil => intro v m _ _ _ _ _ _ _ k hk; simp at hk
  | cons c cs ih =>
    intro v m hfb hm hset hclear hcount hmodes hparents k hk hmk
    simp only [List.forall_mem_cons] at hmodes hparents
    have hmlt : m < p.ASSOOFS_MAX_FILESYSTEM_OBJECTS_SUPPORTED := by omega
    have hidx : freeblock_index p v.sb.free_blocks = m := by
      by_cases h31 : m < 31
      · rw [← get_a_freeblock_block]
        exact (get_a_freeblock_first_fit p v.sb m hfb hm hmlt h31 (hset m hmlt (Nat.le_refl m))
          hclear).2.1
      · have hm31 : m = 31 := by omega
        subst hm31
        rw [← get_a_freeblock_block]
        exact (get_a_freeblock_from_bit_31 p v.sb hfb hm hmlt hclear
          (Nat.testBit_implies_ge (hset 31 hmlt (Nat.le_refl 31)))).2.1
    have hok : (assoofs_create_fs_object p v c.dir c.name c.mode).ret = 0 :=
      create_fs_object_succeeds p v c.dir c.name c.mode (by omega) hmodes.1
        (by rw [hidx]; omega) hparents.1
    cases k with
    | zero =>
      refine ⟨assoofs_create_fs_object p v c.dir c.name c.mode, ?_, hok⟩
      simp only [create_calls, List.getElem?_cons_zero]
    | succ k =>
      have h31 : m < 31 := by omega
      obtain ⟨_, _, hbits, _⟩ := get_a_freeblock_first_fit p v.sb m hfb hm hmlt h31
        (hset m hmlt (Nat.le_refl m)) hclear
      have hsb := create_fs_object_block_sb p v c.dir c.name c.mode (by omega) hmodes.1
        (by rw [hidx]; omega)
      have hfree : (assoofs_create_fs_object p v c.dir c.name c.mode).v.sb.free_blocks =
          (assoofs_sb_get_a_freeblock p v.sb).sb.free_blocks := by
        rw [hsb]
      have hcnt := create_fs_object_inodes_count p v c.dir c.name c.mode hok
      have hst := create_fs_object_store_inode_no p v c.dir c.name c.mode hok
      have := ih (assoofs_create_fs_object p v c.dir c.name c.mode).v (m + 1)
        (by
          rw [hfree]
          apply Nat.lt_pow_two_of_testBit
          intro i hi
          rw [hbits, testBit_eq_false_of_lt_two_pow_64 _ i hfb hi]
          rfl)
        (by omega)
        (by
          intro i hi1 hi2
          rw [hfree, hbits, hset i hi1 (by omega)]
          simp only [Bool.true_and, decide_eq_true_eq]
          omega)
        (by
          intro i hi1 hi2
          rw [hfree, hbits]
          by_cases him : i = m
          · simp [him]
          · rw [hclear i hi1 (by omega)]
            rfl)
        (by rw [hcnt]; omega)
        hmodes.2
        (by
          intro c2 hc2
          obtain ⟨j, hj, hjm⟩ := hparents.2 c2 hc2
          refine ⟨j, by rw [hcnt]; omega, ?_⟩
          rw [hst j, if_neg (by omega)]
          exact hjm)
        k (by simpa using hk) (by omega)
      simp only [create_calls, List.getElem?_cons_succ]
      exact this

/-- C6 (amended).  A sequence of `assoofs_create_fs_object` calls with valid
modes.  (1) On a volume whose data-block bits, indices `RESERVED_INODES + 1` to
`MAX - 1`, are all free, with at most `RESERVED_INODES + 1` inode records among
which are those of the parents, and with `MAX` at most 32, the calls up to the
`(MAX - RESERVED_INODES - 1)`-th return 0.  (2) Started from any volume, every
call from the `(MAX - RESERVED_INODES)`-th on returns `-ENOSPC`: the allocator
scans only the indices `RESERVED_INODES + 1 .. MAX - 1` and every call that
obtains a block uses one of them up.  So the `MAX`-th call fails like the
`(MAX + 1)`-th.  (3) A call made when `inodes_count >= MAX` returns `-ENOSPC`
and changes neither the volume nor the parent's record. -/
theorem create_fs_object_capacity (p : Params)
    (hR : p.ASSOOFS_RESERVED_INODES + 1 ≤ p.ASSOOFS_MAX_FILESYSTEM_OBJECTS_SUPPORTED) :
    (∀ (v : Volume) (calls : List create_call) (k : Nat),
      p.ASSOOFS_MAX_FILESYSTEM_OBJECTS_SUPPORTED ≤ 32 →
      v.sb.free_blocks < 2 ^ 64 →
      (∀ i, i < p.ASSOOFS_MAX_FILESYSTEM_OBJECTS_SUPPORTED → p.ASSOOFS_RESERVED_INODES + 1 ≤ i →
        v.sb.free_blocks.testBit i = true) →
      v.sb.inodes_count ≤ p.ASSOOFS_RESERVED_INODES + 1 →
      (∀ c ∈ calls, S_ISDIR c.mode = true ∨ S_ISREG c.mode = true) →
      (∀ c ∈ calls, ∃ j, j < v.sb.inodes_count ∧ (v.inode_store j).inode_no = c.dir.inode_no) →
      k < calls.length →
      k + (p.ASSOOFS_RESERVED_INODES + 1) < p.ASSOOFS_MAX_FILESYSTEM_OBJECTS_SUPPORTED →
      ∃ r, (create_calls p v calls)[k]? = some r ∧ r.ret = 0) ∧
    (∀ (v : Volume) (calls : List create_call) (k : Nat),
      (∀ c ∈ calls, S_ISDIR c.mode = true ∨ S_ISREG c.mode = true) →
      k < calls.length →
      p.ASSOOFS_MAX_FILESYSTEM_OBJECTS_SUPPORTED - (p.ASSOOFS_RESERVED_INODES + 1) ≤ k →
      ∃ r, (create_calls p v calls)[k]? = some r ∧ r.ret = -ENOSPC) ∧
    (∀ (v : Volume) (dir : assoofs_inode_info) (name : List Nat) (mode : Nat),
      p.ASSOOFS_MAX_FILESYSTEM_OBJECTS_SUPPORTED ≤ v.sb.inodes_count →
      (assoofs_create_fs_object p v dir name mode).ret = -ENOSPC ∧
      (assoofs_create_fs_object p v dir name mode).v = v ∧
      (assoofs_create_fs_object p v dir name mode).dir = dir) := by
  refine ⟨?_, ?_, ?_⟩
  · intro v calls k hM hfb hset hcount hmodes hparents hk hkM
    exact create_calls_succeed p hM calls v (p.ASSOOFS_RESERVED_INODES + 1) hfb (Nat.le_refl _)
      hset (fun i h1 h2 => absurd h1 (by omega)) hcount hmodes hparents k hk (by omega)
  · intro v calls k hm hk hcap
    exact create_calls_enospc p hR calls v k hm hk
      (Nat.le_trans (creations_left_le p v) hcap)
  · intro v dir name mode hfull
    rw [create_fs_object_full p v dir name mode hfull]
    exact ⟨rfl, rfl, rfl⟩

/-- C6 (counterexample).  Header with 8 objects and blocks 3..7 as data
blocks, all of them free, and eight regular files created under the root.  On
the volume with no inode record (`inodes_count = 0`) no call returns 0; on the
volume that holds the root's record only, the first five calls return 0 and
the eighth returns `-ENOSPC`, as do the sixth and the seventh: five blocks
serve five calls.  Header with 64 objects and blocks 3..63 all free, the
root's record only: fifteen children are created under the root, the first of
them a directory, and fifteen files are then created under that directory.  Of
these thirty calls the first 29 return 0 and the thirtieth returns `-ENOSPC`,
since the call that takes block 31 clears the bits 31 to 63 together and
leaves the mask at zero. -/
theorem create_fs_object_eighth_call :
    (create_children header8 (formatted_volume 0 248) root_record eight_files).results.map
      (fun r => r.ret) = [- EIO, - EIO, - EIO, - EIO, - EIO, -ENOSPC, -ENOSPC, -ENOSPC] ∧
    (create_children header8 (formatted_volume 1 248) root_record eight_files).results.map
      (fun r => r.ret) = [0, 0, 0, 0, 0, -ENOSPC, -ENOSPC, -ENOSPC] ∧
    (fifteen_under_root.results.map (fun r => r.ret) = List.replicate 15 0 ∧
      (fifteen_under_root.results.map
        (fun r => r.inode.bind (fun i => i.i_private))).head? = some (some first_directory) ∧
      (create_children header64 fifteen_under_root.v first_directory
        fifteen_files).results.map (fun r => r.ret) = List.replicate 14 0 ++ [-ENOSPC] ∧
      (create_children header64 fifteen_under_root.v first_directory
        fifteen_files).v.sb.free_blocks = 0) := by
  decide!

/-- C6 (witness): with header `header8` the fifth of eight calls returns 0 and
the eighth returns `-ENOSPC`. -/
theorem create_fs_object_capacity_witness :
    header8.ASSOOFS_RESERVED_INODES + 1 ≤ header8.ASSOOFS_MAX_FILESYSTEM_OBJECTS_SUPPORTED ∧
    (∃ r, (create_calls header8 (formatted_volume 1 248) eight_calls)[4]? = some r ∧
      r.ret = 0) ∧
    ∃ r, (create_calls header8 (formatted_volume 1 248) eight_calls)[7]? = some r ∧
      r.ret = -ENOSPC :=
  ⟨by decide,
   (create_fs_object_capacity header8 (by decide)).1 (formatted_volume 1 248)
    eight_calls 4 (by decide) (by decide) (by decide) (by decide) (by decide)
    (fun c hc => ⟨0, by decide,
      (by decide : ∀ c ∈ eight_calls,
        ((formatted_volume 1 248).inode_store 0).inode_no = c.dir.inode_no) c hc⟩)
    (by decide) (by decide),
   (create_fs_object_capacity header8 (by decide)).2.1 (formatted_volume 1 248)
    eight_calls 7 (by decide) (by decide) (by decide)⟩

end Assoofs
